import Mathlib

/-! SCorrelatorJetTree: constituent collection and jet finding

A shallow embedding of the jet methods of `SCorrelatorJetTree.jet.h`
(`AddParticleFlow`, `AddTracks`, `AddClusters`, `AddParticles`, `FindJets`,
`FindMcJets`).

Modelling conventions.

* `double` values live in a carrier `α` with the arithmetic a `double` offers
  (`+ - * /` and numeric literals); the combinatorial results hold for every
  carrier, and the concrete events further down use `α = Int`.
* Library routines (libm, CLHEP `Hep3Vector`, fastjet `PseudoJet` accessors
  and the clustering itself, `RawClusterUtility::GetECoreVec`) and the
  acceptance predicates `IsGood...` (defined in a file that is not part of
  `src/`) are parameters, bundled in `Numerics` and `Externals`.
* A pointer that may be null is an `Option`; a node of the node tree that may
  be missing is an `Option` field of `PHCompositeNode`; a container is the
  list of its entries in iteration order.
* `std::vector::size()`, the `unsigned int` running index `iPart` and the
  counters are natural numbers (the containers of one event are far smaller
  than `2^31`); `user_index` and the key of the provenance map are `int`.
* `TH1::Fill` appends one entry to a log of fills (`QAFill`), `TTree::Fill`
  appends a snapshot of the output members of that view to the tree.
* Running into undefined behaviour (dereferencing a null container) or into a
  failing `assert` is a `Fault`; every collector returns `Except Fault _`.
* Console diagnostics (`cout`, `cerr`) are not modelled.
-/

namespace SCorrelatorJetTree

/-! ## Data model -/

/-- Enumerators of `Jet::SRC` (jetbase) that the collectors write. -/
inductive SRC where
  | PARTICLE
  | TRACK
  | CEMC_CLUSTER
  | HCALIN_CLUSTER
  | HCALOUT_CLUSTER
  deriving DecidableEq, Repr

/-- Object kinds of the QA histograms (`enum OBJECT`). -/
inductive OBJECT where
  | TRACK
  | ECLUST
  | HCLUST
  | FLOW
  | PART
  | TJET
  | RJET
  | TCST
  | RCST
  deriving DecidableEq, Repr

/-- Constituent kinds of the QA histograms, as `SCorrelatorJetTree.jet.h` names them. -/
inductive CST_TYPE where
  | PART_CST
  | TRACK_CST
  | FLOW_CST
  | CALO_CST
  deriving DecidableEq, Repr

/-- Kinematic quantity of an object QA histogram (`enum INFO`). -/
inductive INFO where
  | PT
  | ETA
  | PHI
  | ENE
  deriving DecidableEq, Repr

/-- One call of `TH1::Fill` on one of the QA histograms. -/
inductive QAFill (α : Type) where
  | hJetArea (i : Nat) (x : α)
  | hJetNumCst (i : Nat) (n : Nat)
  | hNumObject (o : OBJECT) (n : Nat)
  | hSumCstEne (c : CST_TYPE) (e : α)
  | hObjectQA (o : OBJECT) (i : INFO) (x : α)
  | hNumCstAccept (c : CST_TYPE) (m : Nat) (n : Nat)
  deriving DecidableEq, Repr

/-- Ways a call can fail to return. -/
inductive Fault where
  | nullDereference
  | assertionFailure
  deriving DecidableEq, Repr

/-- The four-momentum and user index of a `fastjet::PseudoJet`. -/
structure PseudoJet (α : Type) where
  px : α
  py : α
  pz : α
  E : α
  user_index : Int
  deriving DecidableEq, Repr

/-- A `CLHEP::Hep3Vector`. -/
structure Hep3Vector (α : Type) where
  x : α
  y : α
  z : α
  deriving DecidableEq, Repr

/-- What the code reads of an `SvtxTrack` (the quality is read by the acceptance test). -/
structure SvtxTrack (α : Type) where
  id : Int
  px : α
  py : α
  pz : α
  quality : α
  deriving DecidableEq, Repr

/-- What the code reads of a `ParticleFlowElement`. -/
structure ParticleFlowElement (α : Type) where
  id : Int
  e : α
  px : α
  py : α
  pz : α
  deriving DecidableEq, Repr

/-- A `GlobalVertex`. -/
structure GlobalVertex (α : Type) where
  x : α
  y : α
  z : α
  deriving DecidableEq, Repr

/-- A `RawCluster`: its id, and the position and core energy that the vertex correction reads. -/
structure RawCluster (α : Type) where
  id : Int
  x : α
  y : α
  z : α
  ecore : α
  deriving DecidableEq, Repr

/-- A `HepMC::GenParticle`. -/
structure GenParticle (α : Type) where
  barcode : Int
  status : Int
  pdg_id : Int
  px : α
  py : α
  pz : α
  e : α
  deriving DecidableEq, Repr

/-- A `PHHepMCGenEvent`; `getEvent` may return a null pointer. -/
structure PHHepMCGenEvent (α : Type) where
  getEvent : Option (List (GenParticle α))
  deriving DecidableEq, Repr

/-- The nodes of the node tree that the jet methods look up; `none` is a missing node. -/
structure PHCompositeNode (α : Type) where
  SvtxTrackMap : Option (List (Option (SvtxTrack α)))
  ParticleFlowElements : Option (List (Option (ParticleFlowElement α)))
  GlobalVertexMap : Option (List (Option (GlobalVertex α)))
  CLUSTER_CEMC : Option (List (Option (RawCluster α)))
  CLUSTER_HCALIN : Option (List (Option (RawCluster α)))
  CLUSTER_HCALOUT : Option (List (Option (RawCluster α)))
  PHHepMCGenEventMap : Option (List (Int × PHHepMCGenEvent α))
  deriving DecidableEq, Repr

/-- The provenance map `map<int, pair<Jet::SRC, int>>`, as its list of entries in
iteration order, which for a `std::map` is the order of the keys. -/
structure FjMap where
  entries : List (Int × (SRC × Int))
  deriving DecidableEq, Repr

/-- The empty provenance map. -/
def FjMap.empty : FjMap := ⟨[]⟩

/-- Keys of the provenance map. -/
def FjMap.keys (m : FjMap) : List Int := m.entries.map Prod.fst

/-- The value stored under a key (`std::map::find`). -/
def FjMap.find (m : FjMap) (k : Int) : Option (SRC × Int) := m.entries.lookup k

/-- Number of entries (`std::map::size`). -/
def FjMap.size (m : FjMap) : Nat := m.entries.length

/-- Insertion of an entry into a key-ordered entry list: a key that is already present
keeps its old value, a new key goes to its place in the key order. -/
def FjMap.insertEntry (k : Int) (v : SRC × Int) :
    List (Int × (SRC × Int)) → List (Int × (SRC × Int))
  | [] => [(k, v)]
  | e :: rest =>
    if k < e.1 then (k, v) :: e :: rest
    else if k = e.1 then e :: rest
    else e :: FjMap.insertEntry k v rest

/-- `std::map::insert`: a key that is already present keeps its old value. -/
def FjMap.insert (m : FjMap) (k : Int) (v : SRC × Int) : FjMap :=
  ⟨FjMap.insertEntry k v m.entries⟩

/-- Representation invariant of a `std::map`: the entries are listed in strictly
increasing key order. -/
def FjMap.WF (m : FjMap) : Prop := m.keys.Pairwise (fun a b => a < b)

/-- `fastjet::JetAlgorithm` values the class selects. -/
inductive JetAlgorithm where
  | kt_algorithm
  | cambridge_algorithm
  | antikt_algorithm
  deriving DecidableEq, Repr

/-- `fastjet::RecombinationScheme` values the class selects. -/
inductive RecombinationScheme where
  | E_scheme
  | pt_scheme
  | pt2_scheme
  | Et_scheme
  | Et2_scheme
  deriving DecidableEq, Repr

/-- A jet returned by `inclusive_jets()` together with what `constituents()` returns for it. -/
structure ClusteredJet (α : Type) where
  jet : PseudoJet α
  constituents : List (PseudoJet α)
  deriving DecidableEq, Repr

/-- Numeric library routines: libm, `Hep3Vector::getPhi` of `(x, y)`,
`PseudoJet::phi_std` of `(px, py)` and `PseudoJet::pseudorapidity` of `(px, py, pz)`. -/
structure Numerics (α : Type) where
  sqrt : α → α
  cos : α → α
  sin : α → α
  getPhi : α → α → α
  phi_std : α → α → α
  pseudorapidity : α → α → α → α

/-- Collaborators outside `src/`: the acceptance predicates, the vertex correction of a
cluster and the sequential-recombination clustering. -/
structure Externals (α : Type) where
  IsGoodParticleFlow : ParticleFlowElement α → Bool
  IsGoodTrack : SvtxTrack α → Bool
  IsGoodEMCalCluster : Hep3Vector α → Bool
  IsGoodHCalCluster : Hep3Vector α → Bool
  IsGoodParticle : GenParticle α → Bool
  GetECoreVec : RawCluster α → Hep3Vector α → Hep3Vector α
  inclusive_jets : JetAlgorithm → α → RecombinationScheme → List (PseudoJet α) →
    List (ClusteredJet α)

/-- Data members of the class that the jet methods read. -/
structure Config (α : Type) where
  m_doDebug : Bool
  m_add_particleflow : Bool
  m_add_tracks : Bool
  m_add_EMCal_clusters : Bool
  m_add_HCal_clusters : Bool
  m_jetType : Nat
  m_jetalgo : JetAlgorithm
  m_jetr : α
  m_recomb_scheme : RecombinationScheme
  MassPion : α

section Kinematics

variable {α : Type} [Add α] [Sub α] [Mul α] [Div α] [IntCast α]

/-- `PseudoJet::perp()`: square root of `px² + py²`. -/
def PseudoJet.perp (N : Numerics α) (p : PseudoJet α) : α :=
  N.sqrt (p.px * p.px + p.py * p.py)

/-- `PseudoJet::pseudorapidity()`. -/
def PseudoJet.pseudorapidity (N : Numerics α) (p : PseudoJet α) : α :=
  N.pseudorapidity p.px p.py p.pz

/-- `PseudoJet::phi_std()`. -/
def PseudoJet.phi_std (N : Numerics α) (p : PseudoJet α) : α :=
  N.phi_std p.px p.py

/-- `Hep3Vector::mag()`. -/
def Hep3Vector.mag (N : Numerics α) (v : Hep3Vector α) : α :=
  N.sqrt (v.x * v.x + v.y * v.y + v.z * v.z)

/-- `Hep3Vector::perp()`. -/
def Hep3Vector.perp (N : Numerics α) (v : Hep3Vector α) : α :=
  N.sqrt (v.x * v.x + v.y * v.y)

/-- `Hep3Vector::getPhi()`. -/
def Hep3Vector.getPhi (N : Numerics α) (v : Hep3Vector α) : α :=
  N.getPhi v.x v.y

end Kinematics

/-! ## Source collectors -/

/-- The arguments a collector updates (`particles`, `fjMap`) and the QA fill log. -/
structure Collection (α : Type) where
  particles : List (PseudoJet α)
  fjMap : FjMap
  qa : List (QAFill α)
  deriving DecidableEq, Repr

/-- What a collector leaves behind when it returns: the updated arguments and the values of
its `seen` and `accepted` counters at the `return` (0 when the `return` comes before they
are declared). -/
structure Returned (α : Type) where
  out : Collection α
  nTot : Nat
  nAcc : Nat
  deriving DecidableEq, Repr

/-- Local variables of a collector loop. -/
structure CollectorLoop (α : Type) where
  particles : List (PseudoJet α)
  fjMap : FjMap
  qa : List (QAFill α)
  iPart : Nat
  nTot : Nat
  nAcc : Nat
  eSum : α
  deriving DecidableEq, Repr

/-- The four object QA fills made for an accepted object. -/
def objectFills {α : Type} [Add α] [Mul α] (N : Numerics α) (o : OBJECT) (p : PseudoJet α) :
    List (QAFill α) :=
  [QAFill.hObjectQA o INFO.PT (p.perp N),
   QAFill.hObjectQA o INFO.ETA (p.pseudorapidity N),
   QAFill.hObjectQA o INFO.PHI (p.phi_std N),
   QAFill.hObjectQA o INFO.ENE p.E]

section Collectors

variable {α : Type} [Add α] [Sub α] [Mul α] [Div α] [IntCast α]

/-- Entry state of a collector loop: `iPart = particles.size()`, counters and sum at 0. -/
def CollectorLoop.init (s : Collection α) : CollectorLoop α :=
  { particles := s.particles, fjMap := s.fjMap, qa := s.qa,
    iPart := s.particles.length, nTot := 0, nAcc := 0, eSum := ((0 : Int) : α) }

/-- A `return` that comes before any local counter exists. -/
def Returned.unchanged (s : Collection α) : Returned α :=
  { out := s, nTot := 0, nAcc := 0 }

/-- A `return` out of the middle of a collector: no summary QA fill is made. -/
def CollectorLoop.returned (st : CollectorLoop α) : Returned α :=
  { out := { particles := st.particles, fjMap := st.fjMap, qa := st.qa },
    nTot := st.nTot, nAcc := st.nAcc }

/-- Body of the particle-flow loop of `AddParticleFlow`. -/
def AddParticleFlow.body (N : Numerics α) (X : Externals α) (st : CollectorLoop α)
    (entry : Option (ParticleFlowElement α)) : CollectorLoop α :=
  match entry with
  | none => st
  | some pflow =>
    let st1 := { st with nTot := st.nTot + 1 }
    if X.IsGoodParticleFlow pflow = false then st1
    else
      let pfID := pflow.id
      let pfE := pflow.e
      let pfPx := pflow.px
      let pfPy := pflow.py
      let pfPz := pflow.pz
      let fjPartFlow : PseudoJet α :=
        { px := pfPx, py := pfPy, pz := pfPz, E := pfE, user_index := (st.iPart : Int) }
      { particles := st.particles ++ [fjPartFlow],
        fjMap := st.fjMap.insert (st.iPart : Int) (SRC.PARTICLE, pfID),
        qa := st.qa ++ objectFills N OBJECT.FLOW fjPartFlow,
        iPart := st.iPart + 1,
        nTot := st.nTot + 1,
        nAcc := st.nAcc + 1,
        eSum := st.eSum + pfE }

/-- The collector `AddParticleFlow`: the container is dereferenced without a null check. -/
def AddParticleFlow (N : Numerics α) (X : Externals α) (topNode : PHCompositeNode α)
    (s : Collection α) : Except Fault (Returned α) :=
  match topNode.ParticleFlowElements with
  | none => Except.error Fault.nullDereference
  | some pflowContainer =>
    let st := pflowContainer.foldl (AddParticleFlow.body N X) (CollectorLoop.init s)
    Except.ok
      { out :=
          { particles := st.particles, fjMap := st.fjMap,
            qa := st.qa ++
              [QAFill.hNumObject OBJECT.FLOW st.nAcc,
               QAFill.hNumCstAccept CST_TYPE.FLOW_CST 0 st.nTot,
               QAFill.hNumCstAccept CST_TYPE.FLOW_CST 1 st.nAcc,
               QAFill.hSumCstEne CST_TYPE.FLOW_CST st.eSum] },
        nTot := st.nTot, nAcc := st.nAcc }

/-- Body of the track loop of `AddTracks`. -/
def AddTracks.body (N : Numerics α) (X : Externals α) (C : Config α) (st : CollectorLoop α)
    (entry : Option (SvtxTrack α)) : CollectorLoop α :=
  match entry with
  | none => st
  | some track =>
    let st1 := { st with nTot := st.nTot + 1 }
    if X.IsGoodTrack track = false then st1
    else
      let trkID := track.id
      let trkPx := track.px
      let trkPy := track.py
      let trkPz := track.pz
      let trkE := N.sqrt ((trkPx * trkPx) + (trkPy * trkPy) + (trkPz * trkPz)
        + (C.MassPion * C.MassPion))
      let fjTrack : PseudoJet α :=
        { px := trkPx, py := trkPy, pz := trkPz, E := trkE, user_index := (st.iPart : Int) }
      { particles := st.particles ++ [fjTrack],
        fjMap := st.fjMap.insert (st.iPart : Int) (SRC.TRACK, trkID),
        qa := st.qa ++ objectFills N OBJECT.TRACK fjTrack,
        iPart := st.iPart + 1,
        nTot := st.nTot + 1,
        nAcc := st.nAcc + 1,
        eSum := st.eSum + trkE }

/-- The collector `AddTracks`. -/
def AddTracks (N : Numerics α) (X : Externals α) (C : Config α) (topNode : PHCompositeNode α)
    (s : Collection α) : Except Fault (Returned α) :=
  match topNode.SvtxTrackMap with
  | none => Except.ok (Returned.unchanged s)
  | some trackmap =>
    let st := trackmap.foldl (AddTracks.body N X C) (CollectorLoop.init s)
    Except.ok
      { out :=
          { particles := st.particles, fjMap := st.fjMap,
            qa := st.qa ++
              [QAFill.hNumObject OBJECT.TRACK st.nAcc,
               QAFill.hNumCstAccept CST_TYPE.TRACK_CST 0 st.nTot,
               QAFill.hNumCstAccept CST_TYPE.TRACK_CST 1 st.nAcc,
               QAFill.hSumCstEne CST_TYPE.TRACK_CST st.eSum] },
        nTot := st.nTot, nAcc := st.nAcc }

/-- Local variables of `AddClusters` once the vertex has been grabbed. -/
structure ClusterLoop (α : Type) where
  particles : List (PseudoJet α)
  fjMap : FjMap
  qa : List (QAFill α)
  iPart : Nat
  nClustTot : Nat
  nClustAcc : Nat
  nClustEM : Nat
  nClustH : Nat
  eClustSum : α
  deriving DecidableEq, Repr

/-- Entry state of the cluster loops. -/
def ClusterLoop.init (s : Collection α) : ClusterLoop α :=
  { particles := s.particles, fjMap := s.fjMap, qa := s.qa,
    iPart := s.particles.length, nClustTot := 0, nClustAcc := 0,
    nClustEM := 0, nClustH := 0, eClustSum := ((0 : Int) : α) }

/-- A `return` of `AddClusters` on a missing cluster container: no summary QA fill is made. -/
def ClusterLoop.returned (st : ClusterLoop α) : Returned α :=
  { out := { particles := st.particles, fjMap := st.fjMap, qa := st.qa },
    nTot := st.nClustTot, nAcc := st.nClustAcc }

/-- The regular `return` of `AddClusters`, after the summary QA fills. -/
def ClusterLoop.finished (st : ClusterLoop α) : Returned α :=
  { out :=
      { particles := st.particles, fjMap := st.fjMap,
        qa := st.qa ++
          [QAFill.hNumObject OBJECT.ECLUST st.nClustEM,
           QAFill.hNumObject OBJECT.HCLUST st.nClustH,
           QAFill.hNumCstAccept CST_TYPE.CALO_CST 0 st.nClustTot,
           QAFill.hNumCstAccept CST_TYPE.CALO_CST 1 st.nClustAcc,
           QAFill.hSumCstEne CST_TYPE.CALO_CST st.eClustSum] },
    nTot := st.nClustTot, nAcc := st.nClustAcc }

/-- Body shared by the three cluster loops of `AddClusters`; the loops differ in the
acceptance test `isGood`, the source tag `src`, the QA object kind `obj` and in which of
`nClustEM` (`em = true`) and `nClustH` they count. -/
def AddClusters.body (N : Numerics α) (X : Externals α) (isGood : Hep3Vector α → Bool)
    (src : SRC) (obj : OBJECT) (em : Bool) (vtx : GlobalVertex α) (st : ClusterLoop α)
    (entry : Option (RawCluster α)) : ClusterLoop α :=
  match entry with
  | none => st
  | some cluster =>
    let st1 := { st with nClustTot := st.nClustTot + 1 }
    let vX := vtx.x
    let vY := vtx.y
    let vZ := vtx.z
    let vertex : Hep3Vector α := { x := vX, y := vY, z := vZ }
    let E_vec_cluster := X.GetECoreVec cluster vertex
    if isGood E_vec_cluster = false then st1
    else
      let clustID := cluster.id
      let clustE := E_vec_cluster.mag N
      let clustPt := E_vec_cluster.perp N
      let clustPhi := E_vec_cluster.getPhi N
      let clustPx := clustPt * N.cos clustPhi
      let clustPy := clustPt * N.sin clustPhi
      let clustPz := N.sqrt ((clustE * clustE) - (clustPx * clustPx) - (clustPy * clustPy))
      let fjCluster : PseudoJet α :=
        { px := clustPx, py := clustPy, pz := clustPz, E := clustE,
          user_index := (st.iPart : Int) }
      { particles := st.particles ++ [fjCluster],
        fjMap := st.fjMap.insert (st.iPart : Int) (src, clustID),
        qa := st.qa ++ objectFills N obj fjCluster,
        iPart := st.iPart + 1,
        nClustTot := st.nClustTot + 1,
        nClustAcc := st.nClustAcc + 1,
        nClustEM := if em then st.nClustEM + 1 else st.nClustEM,
        nClustH := if em then st.nClustH else st.nClustH + 1,
        eClustSum := st.eClustSum + clustE }

/-- Body of the EMCal cluster loop. -/
def AddClusters.bodyEMC (N : Numerics α) (X : Externals α) (vtx : GlobalVertex α) :
    ClusterLoop α → Option (RawCluster α) → ClusterLoop α :=
  AddClusters.body N X X.IsGoodEMCalCluster SRC.CEMC_CLUSTER OBJECT.ECLUST true vtx

/-- Body of the inner HCal cluster loop. -/
def AddClusters.bodyHCALIN (N : Numerics α) (X : Externals α) (vtx : GlobalVertex α) :
    ClusterLoop α → Option (RawCluster α) → ClusterLoop α :=
  AddClusters.body N X X.IsGoodHCalCluster SRC.HCALIN_CLUSTER OBJECT.HCLUST false vtx

/-- Body of the outer HCal cluster loop. -/
def AddClusters.bodyHCALOUT (N : Numerics α) (X : Externals α) (vtx : GlobalVertex α) :
    ClusterLoop α → Option (RawCluster α) → ClusterLoop α :=
  AddClusters.body N X X.IsGoodHCalCluster SRC.HCALOUT_CLUSTER OBJECT.HCLUST false vtx

/-- The EMCal block of `AddClusters`: `none` is the `return` on a missing container. -/
def AddClusters.emBlock (N : Numerics α) (X : Externals α) (C : Config α)
    (topNode : PHCompositeNode α) (vtx : GlobalVertex α) (st : ClusterLoop α) :
    Option (ClusterLoop α) :=
  if C.m_add_EMCal_clusters then
    match topNode.CLUSTER_CEMC with
    | none => none
    | some clustersEMC => some (clustersEMC.foldl (AddClusters.bodyEMC N X vtx) st)
  else some st

/-- The HCal block of `AddClusters`, from the state the EMCal block leaves. -/
def AddClusters.hBlock (N : Numerics α) (X : Externals α) (C : Config α)
    (topNode : PHCompositeNode α) (vtx : GlobalVertex α) (st : ClusterLoop α) : Returned α :=
  if C.m_add_HCal_clusters then
    match topNode.CLUSTER_HCALIN with
    | none => st.returned
    | some clustersHCALIN =>
      let st2 := clustersHCALIN.foldl (AddClusters.bodyHCALIN N X vtx) st
      match topNode.CLUSTER_HCALOUT with
      | none => st2.returned
      | some clustersHCALOUT =>
        (clustersHCALOUT.foldl (AddClusters.bodyHCALOUT N X vtx) st2).finished
  else st.finished

/-- The collector `AddClusters`. A missing vertex map runs into `assert(vertexmap)`. -/
def AddClusters (N : Numerics α) (X : Externals α) (C : Config α)
    (topNode : PHCompositeNode α) (s : Collection α) : Except Fault (Returned α) :=
  match topNode.GlobalVertexMap with
  | none => Except.error Fault.assertionFailure
  | some [] => Except.ok (Returned.unchanged s)
  | some (none :: _) => Except.ok (Returned.unchanged s)
  | some (some vtx :: _) =>
    match AddClusters.emBlock N X C topNode vtx (ClusterLoop.init s) with
    | none => Except.ok (ClusterLoop.init s).returned
    | some st1 => Except.ok (AddClusters.hBlock N X C topNode vtx st1)

/-- Body of the generator-particle loop of `AddParticles`. -/
def AddParticles.body (N : Numerics α) (X : Externals α) (st : CollectorLoop α)
    (p : GenParticle α) : CollectorLoop α :=
  let isFinalState := decide (p.status = 1)
  if isFinalState = false then st
  else
    let st1 := { st with nTot := st.nTot + 1 }
    if X.IsGoodParticle p = false then st1
    else
      let parID := p.barcode
      let parPx := p.px
      let parPy := p.py
      let parPz := p.pz
      let parE := p.e
      let fjMCParticle : PseudoJet α :=
        { px := parPx, py := parPy, pz := parPz, E := parE, user_index := (st.iPart : Int) }
      { particles := st.particles ++ [fjMCParticle],
        fjMap := st.fjMap.insert (st.iPart : Int) (SRC.PARTICLE, parID),
        qa := st.qa ++ objectFills N OBJECT.PART fjMCParticle,
        iPart := st.iPart + 1,
        nTot := st.nTot + 1,
        nAcc := st.nAcc + 1,
        eSum := st.eSum + parE }

/-- The collector `AddParticles`; the generator event is entry 1 of the event map. -/
def AddParticles (N : Numerics α) (X : Externals α) (topNode : PHCompositeNode α)
    (s : Collection α) : Except Fault (Returned α) :=
  match topNode.PHHepMCGenEventMap with
  | none => Except.ok (Returned.unchanged s)
  | some hepmceventmap =>
    match hepmceventmap.lookup 1 with
    | none => Except.ok (Returned.unchanged s)
    | some hepmcevent =>
      match hepmcevent.getEvent with
      | none => Except.ok (Returned.unchanged s)
      | some hepMCevent =>
        let st := hepMCevent.foldl (AddParticles.body N X) (CollectorLoop.init s)
        Except.ok
          { out :=
              { particles := st.particles, fjMap := st.fjMap,
                qa := st.qa ++
                  [QAFill.hNumObject OBJECT.PART st.nAcc,
                   QAFill.hNumCstAccept CST_TYPE.PART_CST 0 st.nTot,
                   QAFill.hNumCstAccept CST_TYPE.PART_CST 1 st.nAcc,
                   QAFill.hSumCstEne CST_TYPE.PART_CST st.eSum] },
            nTot := st.nTot, nAcc := st.nAcc }

end Collectors

/-! ## Jet finding -/

/-- Output members of the detector view: the event and jet members that `FindJets` writes,
and the constituent members (`m_recoCstMatchID` is declared with them in the class). -/
structure RecoOutput (α : Type) where
  m_recoNumJets : Nat
  m_recoPartonID : Int × Int
  m_recoPartonMomX : α × α
  m_recoPartonMomY : α × α
  m_recoPartonMomZ : α × α
  m_recoJetNCst : List Nat
  m_recoJetId : List Nat
  m_recoJetTruId : List Nat
  m_recoJetE : List α
  m_recoJetPt : List α
  m_recoJetEta : List α
  m_recoJetPhi : List α
  m_recoJetArea : List α
  m_recoCstMatchID : List (List Int)
  m_recoCstZ : List (List α)
  m_recoCstDr : List (List α)
  m_recoCstE : List (List α)
  m_recoCstJt : List (List α)
  m_recoCstEta : List (List α)
  m_recoCstPhi : List (List α)
  deriving DecidableEq, Repr

/-- Output members of the truth view: the event and jet members that `FindMcJets` writes,
and the constituent members (`m_trueCstID` is declared with them in the class). -/
structure TrueOutput (α : Type) where
  m_trueNumJets : Nat
  m_truePartonID : Int × Int
  m_truePartonMomX : α × α
  m_truePartonMomY : α × α
  m_truePartonMomZ : α × α
  m_trueJetNCst : List Nat
  m_trueJetId : List Nat
  m_trueJetTruId : List Nat
  m_trueJetE : List α
  m_trueJetPt : List α
  m_trueJetEta : List α
  m_trueJetPhi : List α
  m_trueJetArea : List α
  m_trueCstID : List (List Int)
  m_trueCstZ : List (List α)
  m_trueCstDr : List (List α)
  m_trueCstE : List (List α)
  m_trueCstJt : List (List α)
  m_trueCstEta : List (List α)
  m_trueCstPhi : List (List α)
  deriving DecidableEq, Repr

/-- State of the object across calls: the output members of both views, the two output
trees (one snapshot of the output members per `Fill`) and the QA fill log. -/
structure State (α : Type) where
  reco : RecoOutput α
  tru : TrueOutput α
  m_recoTree : List (RecoOutput α)
  m_trueTree : List (TrueOutput α)
  qa : List (QAFill α)
  deriving DecidableEq, Repr

/-- Local vectors and counters of a constituent loop. -/
structure CstLoop (α : Type) where
  vecCstZ : List α
  vecCstDr : List α
  vecCstE : List α
  vecCstJt : List α
  vecCstEta : List α
  vecCstPhi : List α
  qa : List (QAFill α)
  nCst : Nat
  deriving DecidableEq, Repr

/-- Local state of the jet loop of `FindJets`. -/
structure RecoJetLoop (α : Type) where
  out : RecoOutput α
  qa : List (QAFill α)
  iJet : Nat
  nRecJet : Nat
  nRecCst : Nat
  deriving DecidableEq, Repr

/-- Local state of the jet loop of `FindMcJets`. -/
structure TrueJetLoop (α : Type) where
  out : TrueOutput α
  qa : List (QAFill α)
  iTruJet : Nat
  nTruJet : Nat
  nTruCst : Nat
  deriving DecidableEq, Repr

/-- What the collection phase of `FindJets` hands to the clustering: pool, provenance map,
QA log, and the accepted count of each collector (0 for one that did not run). -/
structure Constituents (α : Type) where
  out : Collection α
  nFlowAcc : Nat
  nTrkAcc : Nat
  nClustAcc : Nat
  deriving DecidableEq, Repr

section JetFinding

variable {α : Type} [Add α] [Sub α] [Mul α] [Div α] [IntCast α]

/-- Body of the constituent loop of `FindJets`. -/
def FindJets.cstBody (N : Numerics α) (jetP jetPhi jetEta : α) (st : CstLoop α)
    (cst : PseudoJet α) : CstLoop α :=
  let cstPhi := cst.phi_std N
  let cstEta := cst.pseudorapidity N
  let cstE := cst.E
  let cstJt := cst.perp N
  let cstJx := cst.px
  let cstJy := cst.py
  let cstJz := cst.pz
  let cstJ := (cstJx * cstJx) + (cstJy * cstJy) + (cstJz * cstJz)
  let cstZ := cstJ / jetP
  let cstDf := cstPhi - jetPhi
  let cstDh := cstEta - jetEta
  let cstDr := N.sqrt ((cstDf * cstDf) + (cstDh * cstDh))
  { vecCstZ := st.vecCstZ ++ [cstZ],
    vecCstDr := st.vecCstDr ++ [cstDr],
    vecCstE := st.vecCstE ++ [cstE],
    vecCstJt := st.vecCstJt ++ [cstJt],
    vecCstEta := st.vecCstEta ++ [cstEta],
    vecCstPhi := st.vecCstPhi ++ [cstPhi],
    qa := st.qa ++
      [QAFill.hObjectQA OBJECT.RCST INFO.PT cstJt,
       QAFill.hObjectQA OBJECT.RCST INFO.ETA cstEta,
       QAFill.hObjectQA OBJECT.RCST INFO.PHI cstPhi,
       QAFill.hObjectQA OBJECT.RCST INFO.ENE cstE],
    nCst := st.nCst + 1 }

/-- Body of the jet loop of `FindJets`. -/
def FindJets.jetBody (N : Numerics α) (st : RecoJetLoop α) (fj : ClusteredJet α) :
    RecoJetLoop α :=
  let jetNCst := fj.constituents.length
  let jetID := st.iJet
  let jetTruID := 99999
  let jetPhi := fj.jet.phi_std N
  let jetEta := fj.jet.pseudorapidity N
  let jetArea : α := ((0 : Int) : α)
  let jetE := fj.jet.E
  let jetPt := fj.jet.perp N
  let jetPx := fj.jet.px
  let jetPy := fj.jet.py
  let jetPz := fj.jet.pz
  let jetP := N.sqrt ((jetPx * jetPx) + (jetPy * jetPy) + (jetPz * jetPz))
  let csts := fj.constituents
  let cl := csts.foldl (FindJets.cstBody N jetP jetPhi jetEta)
    { vecCstZ := [], vecCstDr := [], vecCstE := [], vecCstJt := [], vecCstEta := [],
      vecCstPhi := [], qa := st.qa, nCst := st.nRecCst }
  { out :=
      { st.out with
        m_recoJetNCst := st.out.m_recoJetNCst ++ [jetNCst],
        m_recoJetId := st.out.m_recoJetId ++ [jetID],
        m_recoJetTruId := st.out.m_recoJetTruId ++ [jetTruID],
        m_recoJetE := st.out.m_recoJetE ++ [jetE],
        m_recoJetPt := st.out.m_recoJetPt ++ [jetPt],
        m_recoJetEta := st.out.m_recoJetEta ++ [jetEta],
        m_recoJetPhi := st.out.m_recoJetPhi ++ [jetPhi],
        m_recoJetArea := st.out.m_recoJetArea ++ [jetArea],
        m_recoCstZ := st.out.m_recoCstZ ++ [cl.vecCstZ],
        m_recoCstDr := st.out.m_recoCstDr ++ [cl.vecCstDr],
        m_recoCstE := st.out.m_recoCstE ++ [cl.vecCstE],
        m_recoCstJt := st.out.m_recoCstJt ++ [cl.vecCstJt],
        m_recoCstEta := st.out.m_recoCstEta ++ [cl.vecCstEta],
        m_recoCstPhi := st.out.m_recoCstPhi ++ [cl.vecCstPhi] },
    qa := cl.qa ++
      [QAFill.hJetArea 1 jetArea,
       QAFill.hJetNumCst 1 jetNCst,
       QAFill.hObjectQA OBJECT.RJET INFO.PT jetPt,
       QAFill.hObjectQA OBJECT.RJET INFO.ETA jetEta,
       QAFill.hObjectQA OBJECT.RJET INFO.PHI jetPhi,
       QAFill.hObjectQA OBJECT.RJET INFO.ENE jetE],
    iJet := st.iJet + 1,
    nRecJet := st.nRecJet + 1,
    nRecCst := cl.nCst }

/-- The statement `if (enabled) collector(...)`: a collector that is not enabled leaves its
arguments as they are. -/
def runIf (enabled : Bool) (collector : Collection α → Except Fault (Returned α))
    (s : Collection α) : Except Fault (Returned α) :=
  if enabled = true then collector s else Except.ok (Returned.unchanged s)

/-- The collection phase of `FindJets`: the enabled collectors run in the order particle
flow, tracks, clusters on a fresh pool and a fresh provenance map. -/
def FindJets.addConstituents (N : Numerics α) (X : Externals α) (C : Config α)
    (topNode : PHCompositeNode α) (qa : List (QAFill α)) : Except Fault (Constituents α) :=
  let start : Collection α := { particles := [], fjMap := FjMap.empty, qa := qa }
  let doParticleFlow := C.m_add_particleflow
  let doTracks := C.m_add_tracks
  let doCaloClusters := (C.m_add_EMCal_clusters || C.m_add_HCal_clusters)
  match runIf doParticleFlow (AddParticleFlow N X topNode) start with
  | Except.error fault => Except.error fault
  | Except.ok r1 =>
    match runIf doTracks (AddTracks N X C topNode) r1.out with
    | Except.error fault => Except.error fault
    | Except.ok r2 =>
      match runIf doCaloClusters (AddClusters N X C topNode) r2.out with
      | Except.error fault => Except.error fault
      | Except.ok r3 =>
        Except.ok
          { out := r3.out, nFlowAcc := r1.nAcc, nTrkAcc := r2.nAcc, nClustAcc := r3.nAcc }

/-- The output members of the detector view after the `clear()` calls of `FindJets`. -/
def FindJets.cleared (o : RecoOutput α) : RecoOutput α :=
  { o with
    m_recoJetNCst := [], m_recoJetId := [], m_recoJetTruId := [], m_recoJetE := [],
    m_recoJetPt := [], m_recoJetEta := [], m_recoJetPhi := [], m_recoJetArea := [],
    m_recoCstZ := [], m_recoCstDr := [], m_recoCstE := [], m_recoCstJt := [],
    m_recoCstEta := [], m_recoCstPhi := [] }

/-- The feature-building part of `FindJets`: from the clustered jets to the output members
as they stand when the tree is filled, and the QA log. -/
def FindJets.fillOutput (N : Numerics α) (fastjets : List (ClusteredJet α))
    (o : RecoOutput α) (qa : List (QAFill α)) : RecoOutput α × List (QAFill α) :=
  let lp := fastjets.foldl (FindJets.jetBody N)
    { out := FindJets.cleared o, qa := qa, iJet := 0, nRecJet := 0, nRecCst := 0 }
  let qa1 := lp.qa ++
    [QAFill.hNumObject OBJECT.RJET lp.nRecJet, QAFill.hNumObject OBJECT.RCST lp.nRecCst]
  ({ lp.out with
     m_recoNumJets := lp.nRecJet,
     m_recoPartonID := (-9999, -9999),
     m_recoPartonMomX := (((-9999 : Int) : α), ((-9999 : Int) : α)),
     m_recoPartonMomY := (((-9999 : Int) : α), ((-9999 : Int) : α)),
     m_recoPartonMomZ := (((-9999 : Int) : α), ((-9999 : Int) : α)) }, qa1)

/-- The method `FindJets`. -/
def FindJets (N : Numerics α) (X : Externals α) (C : Config α) (topNode : PHCompositeNode α)
    (s : State α) : Except Fault (State α) :=
  match FindJets.addConstituents N X C topNode s.qa with
  | Except.error fault => Except.error fault
  | Except.ok c =>
    let fastjets := X.inclusive_jets C.m_jetalgo C.m_jetr C.m_recomb_scheme c.out.particles
    let r := FindJets.fillOutput N fastjets s.reco c.out.qa
    Except.ok { s with reco := r.1, m_recoTree := s.m_recoTree ++ [r.1], qa := r.2 }

/-- Body of the constituent loop of `FindMcJets`. -/
def FindMcJets.cstBody (N : Numerics α) (jetP jetPhi jetEta : α) (st : CstLoop α)
    (trueCst : PseudoJet α) : CstLoop α :=
  let cstPhi := trueCst.phi_std N
  let cstEta := trueCst.pseudorapidity N
  let cstE := trueCst.E
  let cstJt := trueCst.perp N
  let cstJx := trueCst.px
  let cstJy := trueCst.py
  let cstJz := trueCst.pz
  let cstJ := (cstJx * cstJx) + (cstJy * cstJy) + (cstJz * cstJz)
  let cstZ := cstJ / jetP
  let cstDf := cstPhi - jetPhi
  let cstDh := cstEta - jetEta
  let cstDr := N.sqrt ((cstDf * cstDf) + (cstDh * cstDh))
  { vecCstZ := st.vecCstZ ++ [cstZ],
    vecCstDr := st.vecCstDr ++ [cstDr],
    vecCstE := st.vecCstE ++ [cstE],
    vecCstJt := st.vecCstJt ++ [cstJt],
    vecCstEta := st.vecCstEta ++ [cstEta],
    vecCstPhi := st.vecCstPhi ++ [cstPhi],
    qa := st.qa ++
      [QAFill.hObjectQA OBJECT.TCST INFO.PT cstJt,
       QAFill.hObjectQA OBJECT.TCST INFO.ETA cstEta,
       QAFill.hObjectQA OBJECT.TCST INFO.PHI cstPhi,
       QAFill.hObjectQA OBJECT.TCST INFO.ENE cstE],
    nCst := st.nCst + 1 }

/-- Body of the jet loop of `FindMcJets`. -/
def FindMcJets.jetBody (N : Numerics α) (st : TrueJetLoop α) (fj : ClusteredJet α) :
    TrueJetLoop α :=
  let jetNCst := fj.constituents.length
  let jetID := 9999
  let jetTruID := st.iTruJet
  let jetPhi := fj.jet.phi_std N
  let jetEta := fj.jet.pseudorapidity N
  let jetArea : α := ((0 : Int) : α)
  let jetE := fj.jet.E
  let jetPt := fj.jet.perp N
  let jetPx := fj.jet.px
  let jetPy := fj.jet.py
  let jetPz := fj.jet.pz
  let jetP := N.sqrt ((jetPx * jetPx) + (jetPy * jetPy) + (jetPz * jetPz))
  let trueCsts := fj.constituents
  let cl := trueCsts.foldl (FindMcJets.cstBody N jetP jetPhi jetEta)
    { vecCstZ := [], vecCstDr := [], vecCstE := [], vecCstJt := [], vecCstEta := [],
      vecCstPhi := [], qa := st.qa, nCst := st.nTruCst }
  { out :=
      { st.out with
        m_trueJetNCst := st.out.m_trueJetNCst ++ [jetNCst],
        m_trueJetId := st.out.m_trueJetId ++ [jetID],
        m_trueJetTruId := st.out.m_trueJetTruId ++ [jetTruID],
        m_trueJetE := st.out.m_trueJetE ++ [jetE],
        m_trueJetPt := st.out.m_trueJetPt ++ [jetPt],
        m_trueJetEta := st.out.m_trueJetEta ++ [jetEta],
        m_trueJetPhi := st.out.m_trueJetPhi ++ [jetPhi],
        m_trueJetArea := st.out.m_trueJetArea ++ [jetArea],
        m_trueCstZ := st.out.m_trueCstZ ++ [cl.vecCstZ],
        m_trueCstDr := st.out.m_trueCstDr ++ [cl.vecCstDr],
        m_trueCstE := st.out.m_trueCstE ++ [cl.vecCstE],
        m_trueCstJt := st.out.m_trueCstJt ++ [cl.vecCstJt],
        m_trueCstEta := st.out.m_trueCstEta ++ [cl.vecCstEta],
        m_trueCstPhi := st.out.m_trueCstPhi ++ [cl.vecCstPhi] },
    qa := cl.qa ++
      [QAFill.hJetArea 0 jetArea,
       QAFill.hJetNumCst 0 jetNCst,
       QAFill.hObjectQA OBJECT.TJET INFO.PT jetPt,
       QAFill.hObjectQA OBJECT.TJET INFO.ETA jetEta,
       QAFill.hObjectQA OBJECT.TJET INFO.PHI jetPhi,
       QAFill.hObjectQA OBJECT.TJET INFO.ENE jetE],
    iTruJet := st.iTruJet + 1,
    nTruJet := st.nTruJet + 1,
    nTruCst := cl.nCst }

/-- The collection phase of `FindMcJets`: `AddParticles` on a fresh pool and a fresh map. -/
def FindMcJets.addConstituents (N : Numerics α) (X : Externals α)
    (topNode : PHCompositeNode α) (qa : List (QAFill α)) : Except Fault (Returned α) :=
  AddParticles N X topNode { particles := [], fjMap := FjMap.empty, qa := qa }

/-- The output members of the truth view after the `clear()` calls of `FindMcJets`. -/
def FindMcJets.cleared (o : TrueOutput α) : TrueOutput α :=
  { o with
    m_trueJetNCst := [], m_trueJetId := [], m_trueJetTruId := [], m_trueJetE := [],
    m_trueJetPt := [], m_trueJetEta := [], m_trueJetPhi := [], m_trueJetArea := [],
    m_trueCstZ := [], m_trueCstDr := [], m_trueCstE := [], m_trueCstJt := [],
    m_trueCstEta := [], m_trueCstPhi := [] }

/-- The feature-building part of `FindMcJets`. -/
def FindMcJets.fillOutput (N : Numerics α) (mcfastjets : List (ClusteredJet α))
    (o : TrueOutput α) (qa : List (QAFill α)) : TrueOutput α × List (QAFill α) :=
  let lp := mcfastjets.foldl (FindMcJets.jetBody N)
    { out := FindMcJets.cleared o, qa := qa, iTruJet := 0, nTruJet := 0, nTruCst := 0 }
  let qa1 := lp.qa ++
    [QAFill.hNumObject OBJECT.TJET lp.nTruJet, QAFill.hNumObject OBJECT.TCST lp.nTruCst]
  ({ lp.out with
     m_trueNumJets := lp.nTruJet,
     m_truePartonID := (-9999, -9999),
     m_truePartonMomX := (((-9999 : Int) : α), ((-9999 : Int) : α)),
     m_truePartonMomY := (((-9999 : Int) : α), ((-9999 : Int) : α)),
     m_truePartonMomZ := (((-9999 : Int) : α), ((-9999 : Int) : α)) }, qa1)

/-- The method `FindMcJets`. -/
def FindMcJets (N : Numerics α) (X : Externals α) (C : Config α) (topNode : PHCompositeNode α)
    (s : State α) : Except Fault (State α) :=
  match FindMcJets.addConstituents N X topNode s.qa with
  | Except.error fault => Except.error fault
  | Except.ok c =>
    let mcfastjets := X.inclusive_jets C.m_jetalgo C.m_jetr C.m_recomb_scheme c.out.particles
    let r := FindMcJets.fillOutput N mcfastjets s.tru c.out.qa
    Except.ok { s with tru := r.1, m_trueTree := s.m_trueTree ++ [r.1], qa := r.2 }

end JetFinding

/-! ## Specification vocabulary -/

/-- The indices `0, 1, ..., n - 1` as `int` values. -/
def indices (n : Nat) : List Int := List.map (fun (i : Nat) => (i : Int)) (List.range n)

/-- The invariant that ties the pool to the provenance map: the map is a well-formed
`std::map`, its key set is exactly `{0, ..., pool size - 1}`, and the pooled particle at
position `i` carries user index `i`. -/
def PoolInv {α : Type} (s : Collection α) : Prop :=
  s.fjMap.WF ∧
  (∀ k : Int, k ∈ s.fjMap.keys ↔ 0 ≤ k ∧ k < (s.particles.length : Int)) ∧
  (∀ (i : Nat) (h : i < s.particles.length), (s.particles.get ⟨i, h⟩).user_index = (i : Int))

/-- The same invariant in list form: the keys in iteration order and the user indices in
pool order are both `0, 1, ..., pool size - 1`. -/
def PoolCanon {α : Type} (particles : List (PseudoJet α)) (m : FjMap) : Prop :=
  m.keys = indices particles.length ∧
  particles.map PseudoJet.user_index = indices particles.length

/-- The part of a collector's local state that the pool invariants speak about. -/
structure PoolCore (α : Type) where
  particles : List (PseudoJet α)
  fjMap : FjMap
  iPart : Nat
  nAcc : Nat

/-- The pool core of a collector loop state. -/
def CollectorLoop.core {α : Type} (st : CollectorLoop α) : PoolCore α :=
  { particles := st.particles, fjMap := st.fjMap, iPart := st.iPart, nAcc := st.nAcc }

/-- The pool core of a cluster loop state. -/
def ClusterLoop.core {α : Type} (st : ClusterLoop α) : PoolCore α :=
  { particles := st.particles, fjMap := st.fjMap, iPart := st.iPart, nAcc := st.nClustAcc }

/-- The pool core on entry to a collector. -/
def PoolCore.start {α : Type} (s : Collection α) : PoolCore α :=
  { particles := s.particles, fjMap := s.fjMap, iPart := s.particles.length, nAcc := 0 }

/-- One loop iteration as seen on the pool core: nothing happens (object skipped or
rejected), or one particle with user index `iPart` is pushed, one entry is inserted under
the key `iPart`, and `iPart` and the accepted counter go up by one. -/
def PoolCore.Step {α : Type} (a b : PoolCore α) : Prop :=
  b = a ∨
  ∃ (p : PseudoJet α) (v : SRC × Int), p.user_index = (a.iPart : Int) ∧
    b = { particles := a.particles ++ [p], fjMap := a.fjMap.insert (a.iPart : Int) v,
          iPart := a.iPart + 1, nAcc := a.nAcc + 1 }

/-- A returned result is reached from the entry state by loop iterations. -/
def Returned.Reached {α : Type} (s : Collection α) (r : Returned α) : Prop :=
  ∃ i : Nat, Relation.ReflTransGen PoolCore.Step (PoolCore.start s)
    { particles := r.out.particles, fjMap := r.out.fjMap, iPart := i, nAcc := r.nAcc }

/-- The running index equals the pool size, and the pool has grown by the accepted count. -/
def PoolCore.Counted {α : Type} (n0 a0 : Nat) (c : PoolCore α) : Prop :=
  c.iPart = c.particles.length ∧ c.particles.length + a0 = n0 + c.nAcc

/-- The running index equals the pool size, and pool and map satisfy `PoolCanon`. -/
def PoolCore.Canon {α : Type} (c : PoolCore α) : Prop :=
  c.iPart = c.particles.length ∧ PoolCanon c.particles c.fjMap

/-- Every jet-level and every constituent-level output sequence of the detector view that
`FindJets` writes has length `n`. -/
def RecoOutput.SequencesHaveLength {α : Type} (o : RecoOutput α) (n : Nat) : Prop :=
  o.m_recoJetNCst.length = n ∧ o.m_recoJetId.length = n ∧ o.m_recoJetTruId.length = n ∧
  o.m_recoJetE.length = n ∧ o.m_recoJetPt.length = n ∧ o.m_recoJetEta.length = n ∧
  o.m_recoJetPhi.length = n ∧ o.m_recoJetArea.length = n ∧ o.m_recoCstZ.length = n ∧
  o.m_recoCstDr.length = n ∧ o.m_recoCstE.length = n ∧ o.m_recoCstJt.length = n ∧
  o.m_recoCstEta.length = n ∧ o.m_recoCstPhi.length = n

/-- Every jet-level and every constituent-level output sequence of the truth view that
`FindMcJets` writes has length `n`. -/
def TrueOutput.SequencesHaveLength {α : Type} (o : TrueOutput α) (n : Nat) : Prop :=
  o.m_trueJetNCst.length = n ∧ o.m_trueJetId.length = n ∧ o.m_trueJetTruId.length = n ∧
  o.m_trueJetE.length = n ∧ o.m_trueJetPt.length = n ∧ o.m_trueJetEta.length = n ∧
  o.m_trueJetPhi.length = n ∧ o.m_trueJetArea.length = n ∧ o.m_trueCstZ.length = n ∧
  o.m_trueCstDr.length = n ∧ o.m_trueCstE.length = n ∧ o.m_trueCstJt.length = n ∧
  o.m_trueCstEta.length = n ∧ o.m_trueCstPhi.length = n

/-- The six loops that write provenance entries. -/
inductive CollectorLoopKind where
  | tracks
  | particleFlow
  | emCalClusters
  | innerHCalClusters
  | outerHCalClusters
  | generatorParticles
  deriving DecidableEq, Repr

/-- The source-kind tag each loop passes to `make_pair` (read off the six `make_pair` calls). -/
def CollectorLoopKind.tag : CollectorLoopKind → SRC
  | CollectorLoopKind.tracks => SRC.TRACK
  | CollectorLoopKind.particleFlow => SRC.PARTICLE
  | CollectorLoopKind.emCalClusters => SRC.CEMC_CLUSTER
  | CollectorLoopKind.innerHCalClusters => SRC.HCALIN_CLUSTER
  | CollectorLoopKind.outerHCalClusters => SRC.HCALOUT_CLUSTER
  | CollectorLoopKind.generatorParticles => SRC.PARTICLE

/-- No hard failure is on the way of `FindJets`: the particle-flow container is there when
particle flow is enabled, the vertex map is there when calorimeter clusters are enabled. -/
def SourcesPresent {α : Type} (C : Config α) (topNode : PHCompositeNode α) : Prop :=
  (C.m_add_particleflow = true → topNode.ParticleFlowElements.isSome = true) ∧
  ((C.m_add_EMCal_clusters || C.m_add_HCal_clusters) = true →
    topNode.GlobalVertexMap.isSome = true)

/-! ## Closed forms of the jet features -/

section FeatureFormulas

variable {α : Type} [Add α] [Sub α] [Mul α] [Div α] [IntCast α]

/-- The value `cstZ` that the constituent loops compute for a constituent `c` of a jet
with four-momentum `jet`. -/
def featureZ (N : Numerics α) (jet c : PseudoJet α) : α :=
  ((c.px * c.px) + (c.py * c.py) + (c.pz * c.pz))
    / N.sqrt ((jet.px * jet.px) + (jet.py * jet.py) + (jet.pz * jet.pz))

/-- The value `cstDr` that the constituent loops compute for a constituent `c` of a jet
with four-momentum `jet`. -/
def featureDr (N : Numerics α) (jet c : PseudoJet α) : α :=
  N.sqrt (((c.phi_std N - jet.phi_std N) * (c.phi_std N - jet.phi_std N))
    + ((c.pseudorapidity N - jet.pseudorapidity N)
      * (c.pseudorapidity N - jet.pseudorapidity N)))

/-- The QA fills that one pass of a jet loop makes for a jet: the fills of its constituents
(object kind `cstKind`), then the area, the constituent count and the four object fills
of the jet (histogram index `view`, object kind `jetKind`). -/
def jetFills (N : Numerics α) (view : Nat) (jetKind cstKind : OBJECT) (fj : ClusteredJet α) :
    List (QAFill α) :=
  fj.constituents.flatMap (fun c => objectFills N cstKind c) ++
    ([QAFill.hJetArea view ((0 : Int) : α), QAFill.hJetNumCst view fj.constituents.length]
      ++ objectFills N jetKind fj.jet)

end FeatureFormulas

/-! ## What the collectors pool -/

/-- A candidate particle: the four-momentum, the source-kind tag and the source-local
identifier that a collector loop pools for an object it accepts. -/
structure Candidate (α : Type) where
  px : α
  py : α
  pz : α
  E : α
  src : SRC
  id : Int

/-- The pseudojet pushed for a candidate when the running index is `iPart`. -/
def Candidate.toPseudoJet {α : Type} (c : Candidate α) (iPart : Nat) : PseudoJet α :=
  { px := c.px, py := c.py, pz := c.pz, E := c.E, user_index := (iPart : Int) }

/-- The pool core after one candidate has been pooled. -/
def PoolCore.push {α : Type} (a : PoolCore α) (c : Candidate α) : PoolCore α :=
  { particles := a.particles ++ [c.toPseudoJet a.iPart],
    fjMap := a.fjMap.insert (a.iPart : Int) (c.src, c.id),
    iPart := a.iPart + 1, nAcc := a.nAcc + 1 }

/-- The pool core after a list of candidates has been pooled, one after the other. -/
def PoolCore.pushAll {α : Type} (a : PoolCore α) (cs : List (Candidate α)) : PoolCore α :=
  cs.foldl PoolCore.push a

/-- The pseudojets pushed for a list of candidates when the running index starts at `iPart`. -/
def poolParticles {α : Type} : Nat → List (Candidate α) → List (PseudoJet α)
  | _, [] => []
  | iPart, c :: cs => c.toPseudoJet iPart :: poolParticles (iPart + 1) cs

/-- The returned pool, provenance map and accepted count are those of a pool core. -/
def Returned.HasPool {α : Type} (r : Returned α) (c : PoolCore α) : Prop :=
  r.out.particles = c.particles ∧ r.out.fjMap = c.fjMap ∧ r.nAcc = c.nAcc

/-- The tracks of the track map: its non-null entries, none when the map is missing. -/
def PHCompositeNode.tracks {α : Type} (topNode : PHCompositeNode α) : List (SvtxTrack α) :=
  match topNode.SvtxTrackMap with
  | none => []
  | some trackmap => trackmap.reduceOption

/-- The particle-flow elements of the container: its non-null entries, none when the
container is missing. -/
def PHCompositeNode.flowElements {α : Type} (topNode : PHCompositeNode α) :
    List (ParticleFlowElement α) :=
  match topNode.ParticleFlowElements with
  | none => []
  | some pflowContainer => pflowContainer.reduceOption

/-- The generator records that `AddParticles` loops over: those of the generator event of
entry 1 of the event map, none when the map, the entry or the event is missing. -/
def PHCompositeNode.genParticles {α : Type} (topNode : PHCompositeNode α) :
    List (GenParticle α) :=
  match topNode.PHHepMCGenEventMap with
  | none => []
  | some hepmceventmap =>
    match hepmceventmap.lookup 1 with
    | none => []
    | some hepmcevent =>
      match hepmcevent.getEvent with
      | none => []
      | some hepMCevent => hepMCevent

section Candidates

variable {α : Type} [Add α] [Sub α] [Mul α] [Div α] [IntCast α]

/-- What the particle-flow loop pools for an entry of the container. -/
def AddParticleFlow.candidate (X : Externals α) :
    Option (ParticleFlowElement α) → Option (Candidate α)
  | none => none
  | some pflow =>
    if X.IsGoodParticleFlow pflow = true then
      some { px := pflow.px, py := pflow.py, pz := pflow.pz, E := pflow.e,
             src := SRC.PARTICLE, id := pflow.id }
    else none

/-- What the track loop pools for an entry of the track map. -/
def AddTracks.candidate (N : Numerics α) (X : Externals α) (C : Config α) :
    Option (SvtxTrack α) → Option (Candidate α)
  | none => none
  | some track =>
    if X.IsGoodTrack track = true then
      some { px := track.px, py := track.py, pz := track.pz,
             E := N.sqrt ((track.px * track.px) + (track.py * track.py)
               + (track.pz * track.pz) + (C.MassPion * C.MassPion)),
             src := SRC.TRACK, id := track.id }
    else none

/-- The four-momentum that the cluster loops build from a corrected 3-vector. -/
def clusterCandidate (N : Numerics α) (v : Hep3Vector α) (src : SRC) (id : Int) :
    Candidate α :=
  { px := v.perp N * N.cos (v.getPhi N),
    py := v.perp N * N.sin (v.getPhi N),
    pz := N.sqrt ((v.mag N * v.mag N)
      - ((v.perp N * N.cos (v.getPhi N)) * (v.perp N * N.cos (v.getPhi N)))
      - ((v.perp N * N.sin (v.getPhi N)) * (v.perp N * N.sin (v.getPhi N)))),
    E := v.mag N, src := src, id := id }

/-- What a cluster loop pools for an entry of its container. -/
def AddClusters.candidate (N : Numerics α) (X : Externals α) (isGood : Hep3Vector α → Bool)
    (src : SRC) (vtx : GlobalVertex α) : Option (RawCluster α) → Option (Candidate α)
  | none => none
  | some cluster =>
    if isGood (X.GetECoreVec cluster { x := vtx.x, y := vtx.y, z := vtx.z }) = true then
      some (clusterCandidate N
        (X.GetECoreVec cluster { x := vtx.x, y := vtx.y, z := vtx.z }) src cluster.id)
    else none

/-- What the generator-particle loop pools for a generator record. -/
def AddParticles.candidate (X : Externals α) (p : GenParticle α) : Option (Candidate α) :=
  if p.status = 1 ∧ X.IsGoodParticle p = true then
    some { px := p.px, py := p.py, pz := p.pz, E := p.e, src := SRC.PARTICLE,
           id := p.barcode }
  else none

/-- All that `AddParticleFlow` pools. -/
def AddParticleFlow.candidates (X : Externals α) (topNode : PHCompositeNode α) :
    List (Candidate α) :=
  match topNode.ParticleFlowElements with
  | none => []
  | some pflowContainer => pflowContainer.filterMap (AddParticleFlow.candidate X)

/-- All that `AddTracks` pools. -/
def AddTracks.candidates (N : Numerics α) (X : Externals α) (C : Config α)
    (topNode : PHCompositeNode α) : List (Candidate α) :=
  match topNode.SvtxTrackMap with
  | none => []
  | some trackmap => trackmap.filterMap (AddTracks.candidate N X C)

/-- All that `AddParticles` pools. -/
def AddParticles.candidates (X : Externals α) (topNode : PHCompositeNode α) :
    List (Candidate α) :=
  topNode.genParticles.filterMap (AddParticles.candidate X)

/-- All that the EMCal block pools; `none` is the `return` on a missing container. -/
def AddClusters.emCandidates (N : Numerics α) (X : Externals α) (C : Config α)
    (topNode : PHCompositeNode α) (vtx : GlobalVertex α) : Option (List (Candidate α)) :=
  if C.m_add_EMCal_clusters = true then
    match topNode.CLUSTER_CEMC with
    | none => none
    | some clustersEMC =>
      some (clustersEMC.filterMap
        (AddClusters.candidate N X X.IsGoodEMCalCluster SRC.CEMC_CLUSTER vtx))
  else some []

/-- All that the HCal block pools. -/
def AddClusters.hCandidates (N : Numerics α) (X : Externals α) (C : Config α)
    (topNode : PHCompositeNode α) (vtx : GlobalVertex α) : List (Candidate α) :=
  if C.m_add_HCal_clusters = true then
    match topNode.CLUSTER_HCALIN with
    | none => []
    | some clustersHCALIN =>
      clustersHCALIN.filterMap
          (AddClusters.candidate N X X.IsGoodHCalCluster SRC.HCALIN_CLUSTER vtx) ++
        (match topNode.CLUSTER_HCALOUT with
         | none => []
         | some clustersHCALOUT =>
           clustersHCALOUT.filterMap
             (AddClusters.candidate N X X.IsGoodHCalCluster SRC.HCALOUT_CLUSTER vtx))
  else []

/-- All that `AddClusters` pools. -/
def AddClusters.candidates (N : Numerics α) (X : Externals α) (C : Config α)
    (topNode : PHCompositeNode α) : List (Candidate α) :=
  match topNode.GlobalVertexMap with
  | some (some vtx :: _) =>
    match AddClusters.emCandidates N X C topNode vtx with
    | none => []
    | some em => em ++ AddClusters.hCandidates N X C topNode vtx
  | _ => []

/-- All that the collection phase of `FindJets` pools, in pool order. -/
def FindJets.candidates (N : Numerics α) (X : Externals α) (C : Config α)
    (topNode : PHCompositeNode α) : List (Candidate α) :=
  (if C.m_add_particleflow = true then AddParticleFlow.candidates X topNode else []) ++
  ((if C.m_add_tracks = true then AddTracks.candidates N X C topNode else []) ++
   (if (C.m_add_EMCal_clusters || C.m_add_HCal_clusters) = true
    then AddClusters.candidates N X C topNode else []))

/-- The jets that `FindJets` gets from the clustering (none if the call is aborted before
the clustering). -/
def FindJets.fastjets (N : Numerics α) (X : Externals α) (C : Config α)
    (topNode : PHCompositeNode α) (s : State α) : List (ClusteredJet α) :=
  match FindJets.addConstituents N X C topNode s.qa with
  | Except.error _ => []
  | Except.ok c => X.inclusive_jets C.m_jetalgo C.m_jetr C.m_recomb_scheme c.out.particles

/-- The jets that `FindMcJets` gets from the clustering. -/
def FindMcJets.mcfastjets (N : Numerics α) (X : Externals α) (C : Config α)
    (topNode : PHCompositeNode α) (s : State α) : List (ClusteredJet α) :=
  match FindMcJets.addConstituents N X topNode s.qa with
  | Except.error _ => []
  | Except.ok c => X.inclusive_jets C.m_jetalgo C.m_jetr C.m_recomb_scheme c.out.particles

end Candidates

/-- The library's square root, cosine and sine are the real ones: `double` arithmetic is
taken as exact real arithmetic. -/
def Numerics.Exact (N : Numerics ℝ) : Prop :=
  N.sqrt = Real.sqrt ∧ N.cos = Real.cos ∧ N.sin = Real.sin

/-! ## Concrete events

Integer-valued events on which the methods are evaluated. The library routines are
stand-ins (integer square root, every azimuth and pseudorapidity taken as 0, the vertex
correction returning the cluster position, every pooled particle its own jet); the
acceptance tests accept a track of non-negative quality and every other object. -/

namespace Ex

/-- Stand-in numeric routines over the integers. -/
def num : Numerics Int :=
  { sqrt := fun x => Int.sqrt x, cos := fun _ => 1, sin := fun _ => 0,
    getPhi := fun _ _ => 0, phi_std := fun _ _ => 0, pseudorapidity := fun _ _ _ => 0 }

/-- Stand-in collaborators. -/
def ext : Externals Int :=
  { IsGoodParticleFlow := fun _ => true,
    IsGoodTrack := fun t => decide (0 ≤ t.quality),
    IsGoodEMCalCluster := fun _ => true,
    IsGoodHCalCluster := fun _ => true,
    IsGoodParticle := fun _ => true,
    GetECoreVec := fun c _ => { x := c.x, y := c.y, z := c.z },
    inclusive_jets := fun _ _ _ ps => ps.map (fun p => { jet := p, constituents := [p] }) }

/-- Configuration with only the tracks enabled. -/
def cfgTracks : Config Int :=
  { m_doDebug := false, m_add_particleflow := false, m_add_tracks := true,
    m_add_EMCal_clusters := false, m_add_HCal_clusters := false, m_jetType := 0,
    m_jetalgo := JetAlgorithm.antikt_algorithm, m_jetr := 1,
    m_recomb_scheme := RecombinationScheme.E_scheme, MassPion := 0 }

/-- Configuration with tracks and both kinds of calorimeter clusters enabled. -/
def cfgCalo : Config Int :=
  { cfgTracks with m_add_EMCal_clusters := true, m_add_HCal_clusters := true }

/-- Configuration with particle flow, tracks and calorimeter clusters enabled. -/
def cfgAll : Config Int :=
  { cfgCalo with m_add_particleflow := true }

/-- A node tree with every node missing. -/
def noNodes : PHCompositeNode Int :=
  { SvtxTrackMap := none, ParticleFlowElements := none, GlobalVertexMap := none,
    CLUSTER_CEMC := none, CLUSTER_HCALIN := none, CLUSTER_HCALOUT := none,
    PHHepMCGenEventMap := none }

/-- A track of quality 1 (accepted). -/
def goodTrack : SvtxTrack Int := { id := 7, px := 3, py := 4, pz := 0, quality := 1 }

/-- A track of quality -1 (rejected). -/
def badTrack : SvtxTrack Int := { id := 8, px := 1, py := 0, pz := 0, quality := -1 }

/-- A particle-flow element. -/
def flowElement : ParticleFlowElement Int := { id := 5, e := 5, px := 3, py := 4, pz := 0 }

/-- A final-state generator particle. -/
def genParticle : GenParticle Int :=
  { barcode := 11, status := 1, pdg_id := 211, px := 3, py := 4, pz := 0, e := 5 }

/-- A calorimeter cluster. -/
def cluster : RawCluster Int := { id := 3, x := 3, y := 0, z := 4, ecore := 5 }

/-- A vertex at the origin. -/
def vertex : GlobalVertex Int := { x := 0, y := 0, z := 0 }

/-- An event whose track map holds one accepted track. -/
def evOneTrack : PHCompositeNode Int := { noNodes with SvtxTrackMap := some [some goodTrack] }

/-- An event whose track map holds a null entry only. -/
def evNullTrack : PHCompositeNode Int := { noNodes with SvtxTrackMap := some [none] }

/-- An event whose track map holds a rejected, a null and an accepted track. -/
def evThreeTracks : PHCompositeNode Int :=
  { noNodes with SvtxTrackMap := some [some badTrack, none, some goodTrack] }

/-- An event with an empty vertex map. -/
def evEmptyVertexMap : PHCompositeNode Int := { noNodes with GlobalVertexMap := some [] }

/-- An event whose first vertex is a null pointer. -/
def evNullVertex : PHCompositeNode Int := { noNodes with GlobalVertexMap := some [none] }

/-- An event with a track map, a particle-flow container, a vertex and all three cluster
containers, each holding one object. -/
def evFull : PHCompositeNode Int :=
  { SvtxTrackMap := some [some goodTrack],
    ParticleFlowElements := some [some flowElement],
    GlobalVertexMap := some [some vertex],
    CLUSTER_CEMC := some [some cluster],
    CLUSTER_HCALIN := some [some cluster],
    CLUSTER_HCALOUT := some [some cluster],
    PHHepMCGenEventMap := some [(1, { getEvent := some [genParticle] })] }

/-- An event whose particle-flow container holds one element. -/
def evOneFlow : PHCompositeNode Int :=
  { noNodes with ParticleFlowElements := some [some flowElement] }

/-- An event whose generator record holds one final-state particle. -/
def evOneParticle : PHCompositeNode Int :=
  { noNodes with PHHepMCGenEventMap := some [(1, { getEvent := some [genParticle] })] }

/-- An event map without the entry 1. -/
def evNoGenEntry : PHCompositeNode Int :=
  { noNodes with PHHepMCGenEventMap := some [(2, { getEvent := some [genParticle] })] }

/-- An event map whose entry 1 has no generator event. -/
def evNoGenEvent : PHCompositeNode Int :=
  { noNodes with PHHepMCGenEventMap := some [(1, { getEvent := none })] }

/-- The empty pool with the empty provenance map and an empty QA log. -/
def emptyCollection : Collection Int := { particles := [], fjMap := FjMap.empty, qa := [] }

/-- Output members of the detector view before the first event. -/
def recoInit : RecoOutput Int :=
  { m_recoNumJets := 0, m_recoPartonID := (0, 0), m_recoPartonMomX := (0, 0),
    m_recoPartonMomY := (0, 0), m_recoPartonMomZ := (0, 0), m_recoJetNCst := [],
    m_recoJetId := [], m_recoJetTruId := [], m_recoJetE := [], m_recoJetPt := [],
    m_recoJetEta := [], m_recoJetPhi := [], m_recoJetArea := [], m_recoCstMatchID := [],
    m_recoCstZ := [], m_recoCstDr := [], m_recoCstE := [], m_recoCstJt := [],
    m_recoCstEta := [], m_recoCstPhi := [] }

/-- Output members of the truth view before the first event. -/
def trueInit : TrueOutput Int :=
  { m_trueNumJets := 0, m_truePartonID := (0, 0), m_truePartonMomX := (0, 0),
    m_truePartonMomY := (0, 0), m_truePartonMomZ := (0, 0), m_trueJetNCst := [],
    m_trueJetId := [], m_trueJetTruId := [], m_trueJetE := [], m_trueJetPt := [],
    m_trueJetEta := [], m_trueJetPhi := [], m_trueJetArea := [], m_trueCstID := [],
    m_trueCstZ := [], m_trueCstDr := [], m_trueCstE := [], m_trueCstJt := [],
    m_trueCstEta := [], m_trueCstPhi := [] }

/-- The object before the first event: empty trees, empty QA log. -/
def stateInit : State Int :=
  { reco := recoInit, tru := trueInit, m_recoTree := [], m_trueTree := [], qa := [] }

end Ex

/-- A relation holds between every stored per-constituent value and the jet and the
constituent it belongs to: the outer sequence runs over the jets, each inner sequence over
the constituents of its jet. -/
def ForEachConstituent {α β : Type} (R : ClusteredJet α → PseudoJet α → β → Prop)
    (stored : List (List β)) (jets : List (ClusteredJet α)) : Prop :=
  List.Forall₂ (fun values fj => List.Forall₂ (fun v cst => R fj cst v) values fj.constituents)
    stored jets

/-! ## Concrete events in exact real arithmetic

Real-valued events for the numerical results. Square root, cosine and sine are the real
ones, the azimuth is the argument of `x + iy`, the pseudorapidity is
`arsinh (pz / pt)`; the collaborators are stand-ins as above (every object accepted, the
vertex correction returning the cluster position, every pooled particle its own jet). -/

namespace ExR

noncomputable section

/-- The numeric routines in exact real arithmetic. -/
def num : Numerics ℝ :=
  { sqrt := Real.sqrt, cos := Real.cos, sin := Real.sin,
    getPhi := fun x y => Complex.arg { re := x, im := y },
    phi_std := fun px py => Complex.arg { re := px, im := py },
    pseudorapidity := fun px py pz => Real.arsinh (pz / Real.sqrt (px * px + py * py)) }

/-- Stand-in collaborators. -/
def ext : Externals ℝ :=
  { IsGoodParticleFlow := fun _ => true,
    IsGoodTrack := fun _ => true,
    IsGoodEMCalCluster := fun _ => true,
    IsGoodHCalCluster := fun _ => true,
    IsGoodParticle := fun _ => true,
    GetECoreVec := fun c _ => { x := c.x, y := c.y, z := c.z },
    inclusive_jets := fun _ _ _ ps => ps.map (fun p => { jet := p, constituents := [p] }) }

/-- Configuration with tracks and both kinds of calorimeter clusters enabled. -/
def cfg : Config ℝ :=
  { m_doDebug := false, m_add_particleflow := false, m_add_tracks := true,
    m_add_EMCal_clusters := true, m_add_HCal_clusters := true, m_jetType := 0,
    m_jetalgo := JetAlgorithm.antikt_algorithm, m_jetr := 1,
    m_recomb_scheme := RecombinationScheme.E_scheme, MassPion := 1 }

/-- A track with momentum `(3, 4, 0)`. -/
def track : SvtxTrack ℝ := { id := 7, px := 3, py := 4, pz := 0, quality := 1 }

/-- A cluster at `(3, 0, -4)`. -/
def cluster : RawCluster ℝ := { id := 3, x := 3, y := 0, z := -4, ecore := 5 }

/-- A final-state generator particle with momentum `(3, 4, 0)`. -/
def genParticle : GenParticle ℝ :=
  { barcode := 11, status := 1, pdg_id := 211, px := 3, py := 4, pz := 0, e := 5 }

/-- An event with one track, a vertex at the origin, one EMCal cluster and one generator
particle. -/
def event : PHCompositeNode ℝ :=
  { SvtxTrackMap := some [some track],
    ParticleFlowElements := none,
    GlobalVertexMap := some [some { x := 0, y := 0, z := 0 }],
    CLUSTER_CEMC := some [some cluster],
    CLUSTER_HCALIN := some [],
    CLUSTER_HCALOUT := some [],
    PHHepMCGenEventMap := some [(1, { getEvent := some [genParticle] })] }

/-- The empty pool with the empty provenance map and an empty QA log. -/
def emptyCollection : Collection ℝ := { particles := [], fjMap := FjMap.empty, qa := [] }

/-- The object before the first event. -/
def stateInit : State ℝ :=
  { reco :=
      { m_recoNumJets := 0, m_recoPartonID := (0, 0), m_recoPartonMomX := (0, 0),
        m_recoPartonMomY := (0, 0), m_recoPartonMomZ := (0, 0), m_recoJetNCst := [],
        m_recoJetId := [], m_recoJetTruId := [], m_recoJetE := [], m_recoJetPt := [],
        m_recoJetEta := [], m_recoJetPhi := [], m_recoJetArea := [], m_recoCstMatchID := [],
        m_recoCstZ := [], m_recoCstDr := [], m_recoCstE := [], m_recoCstJt := [],
        m_recoCstEta := [], m_recoCstPhi := [] },
    tru :=
      { m_trueNumJets := 0, m_truePartonID := (0, 0), m_truePartonMomX := (0, 0),
        m_truePartonMomY := (0, 0), m_truePartonMomZ := (0, 0), m_trueJetNCst := [],
        m_trueJetId := [], m_trueJetTruId := [], m_trueJetE := [], m_trueJetPt := [],
        m_trueJetEta := [], m_trueJetPhi := [], m_trueJetArea := [], m_trueCstID := [],
        m_trueCstZ := [], m_trueCstDr := [], m_trueCstE := [], m_trueCstJt := [],
        m_trueCstEta := [], m_trueCstPhi := [] },
    m_recoTree := [], m_trueTree := [], qa := [] }

end

end ExR

/-- The clusters of the three calorimeter containers: their non-null entries, none for a
missing container. -/
def PHCompositeNode.clusters {α : Type} (topNode : PHCompositeNode α) : List (RawCluster α) :=
  (topNode.CLUSTER_CEMC.getD []).reduceOption ++
    ((topNode.CLUSTER_HCALIN.getD []).reduceOption ++
      (topNode.CLUSTER_HCALOUT.getD []).reduceOption)

/-- The primary vertex that `AddClusters` uses: the first entry of the vertex map, when the
map is there, is not empty and that entry is not null. -/
def PHCompositeNode.primaryVertex {α : Type} (topNode : PHCompositeNode α) :
    Option (GlobalVertex α) :=
  match topNode.GlobalVertexMap with
  | some (some vtx :: _) => some vtx
  | _ => none

namespace Ex

/-- A generator particle that is not final state (status 2). -/
def decayedParticle : GenParticle Int :=
  { barcode := 12, status := 2, pdg_id := 111, px := 1, py := 2, pz := 2, e := 3 }

/-- An event whose generator record holds a decayed particle and a final-state particle. -/
def evTwoParticles : PHCompositeNode Int :=
  { noNodes with
    PHHepMCGenEventMap := some [(1, { getEvent := some [decayedParticle, genParticle] })] }

end Ex

/-! ## Configuration setters -/

namespace ALGO

/-- Enumerator `ANTIKT` of `enum ALGO`, by value. -/
def ANTIKT : Int := 0

/-- Enumerator `KT` of `enum ALGO`, by value. -/
def KT : Int := 1

/-- Enumerator `CAMBRIDGE` of `enum ALGO`, by value. -/
def CAMBRIDGE : Int := 2

end ALGO

namespace RECOMB

/-- Enumerator `E_SCHEME` of `enum RECOMB`, by value. -/
def E_SCHEME : Int := 0

/-- Enumerator `PT_SCHEME` of `enum RECOMB`, by value. -/
def PT_SCHEME : Int := 1

/-- Enumerator `PT2_SCHEME` of `enum RECOMB`, by value. -/
def PT2_SCHEME : Int := 2

/-- Enumerator `ET_SCHEME` of `enum RECOMB`, by value. -/
def ET_SCHEME : Int := 3

/-- Enumerator `ET2_SCHEME` of `enum RECOMB`, by value. -/
def ET2_SCHEME : Int := 4

/-- The five enumerators of `enum RECOMB`. -/
def recognized : List Int := [E_SCHEME, PT_SCHEME, PT2_SCHEME, ET_SCHEME, ET2_SCHEME]

end RECOMB

/-- The method `SetJetAlgo`: a `switch` over the argument with a `default` branch. The
argument is taken by value, since an object of the enumeration type `ALGO` can hold a value
that is none of its enumerators. -/
def SetJetAlgo {α : Type} (jetalgo : Int) (C : Config α) : Config α :=
  if jetalgo = ALGO.ANTIKT then { C with m_jetalgo := JetAlgorithm.antikt_algorithm }
  else if jetalgo = ALGO.KT then { C with m_jetalgo := JetAlgorithm.kt_algorithm }
  else if jetalgo = ALGO.CAMBRIDGE then { C with m_jetalgo := JetAlgorithm.cambridge_algorithm }
  else { C with m_jetalgo := JetAlgorithm.antikt_algorithm }

/-- The method `SetRecombScheme`: a `switch` over the argument with a `default` branch. -/
def SetRecombScheme {α : Type} (recomb_scheme : Int) (C : Config α) : Config α :=
  if recomb_scheme = RECOMB.E_SCHEME then
    { C with m_recomb_scheme := RecombinationScheme.E_scheme }
  else if recomb_scheme = RECOMB.PT_SCHEME then
    { C with m_recomb_scheme := RecombinationScheme.pt_scheme }
  else if recomb_scheme = RECOMB.PT2_SCHEME then
    { C with m_recomb_scheme := RecombinationScheme.pt2_scheme }
  else if recomb_scheme = RECOMB.ET_SCHEME then
    { C with m_recomb_scheme := RecombinationScheme.Et_scheme }
  else if recomb_scheme = RECOMB.ET2_SCHEME then
    { C with m_recomb_scheme := RecombinationScheme.Et2_scheme }
  else { C with m_recomb_scheme := RecombinationScheme.E_scheme }

namespace Ex

/-- A pool of two particles whose provenance map has the keys 0 and 1. -/
def poolOfTwo : Collection Int :=
  { particles :=
      [{ px := 1, py := 0, pz := 0, E := 1, user_index := 0 },
       { px := 0, py := 1, pz := 0, E := 1, user_index := 1 }],
    fjMap := ⟨[(0, (SRC.PARTICLE, 21)), (1, (SRC.PARTICLE, 22))]⟩,
    qa := [] }

end Ex

/-! ## The QA totals of a collector -/

/-- A fill of one of the per-invocation totals (an object count, a seen or accepted count,
an energy sum), as opposed to a per-object or per-jet fill. -/
def QAFill.isTotal {α : Type} : QAFill α → Bool
  | QAFill.hNumObject _ _ => true
  | QAFill.hSumCstEne _ _ => true
  | QAFill.hNumCstAccept _ _ _ => true
  | QAFill.hJetArea _ _ => false
  | QAFill.hJetNumCst _ _ => false
  | QAFill.hObjectQA _ _ _ => false

/-- The energy sum as a collector loop accumulates it: `eSum += E`, particle after
particle, from the start value `e0`. -/
def energySum {α : Type} [Add α] (e0 : α) (ps : List (PseudoJet α)) : α :=
  ps.foldl (fun acc p => acc + p.E) e0

/-- The part of a collector's local state that the QA totals speak about. -/
structure LoopTally (α : Type) where
  particles : List (PseudoJet α)
  qa : List (QAFill α)
  nAcc : Nat
  eSum : α

/-- The tally of a collector loop state. -/
def CollectorLoop.tally {α : Type} (st : CollectorLoop α) : LoopTally α :=
  { particles := st.particles, qa := st.qa, nAcc := st.nAcc, eSum := st.eSum }

/-- The tally of a cluster loop state. -/
def ClusterLoop.tally {α : Type} (st : ClusterLoop α) : LoopTally α :=
  { particles := st.particles, qa := st.qa, nAcc := st.nClustAcc, eSum := st.eClustSum }

/-- From the tally `a` to the tally `b` particles were appended to the pool, only per-object
fills were appended to the QA log, the accepted count went up by the number of appended
particles and the energy sum by their energies. -/
def LoopTally.Extends {α : Type} [Add α] (a b : LoopTally α) : Prop :=
  ∃ (appended : List (PseudoJet α)) (fills : List (QAFill α)),
    b.particles = a.particles ++ appended ∧ b.qa = a.qa ++ fills ∧
    (∀ f ∈ fills, f.isTotal = false) ∧
    b.nAcc = a.nAcc + appended.length ∧ b.eSum = energySum a.eSum appended

/-- The generator event that `AddParticles` loops over: that of entry 1 of the event map;
`none` when the map, the entry or the event is missing. -/
def PHCompositeNode.genEvent {α : Type} (topNode : PHCompositeNode α) :
    Option (List (GenParticle α)) :=
  match topNode.PHHepMCGenEventMap with
  | none => none
  | some hepmceventmap =>
    match hepmceventmap.lookup 1 with
    | none => none
    | some hepmcevent => hepmcevent.getEvent

/-- The four summary fills at the end of `AddParticleFlow`, `AddTracks` and `AddParticles`,
for the object kind `o` and the constituent kind `c`. -/
def collectorTotals {α : Type} (o : OBJECT) (c : CST_TYPE) (nTot nAcc : Nat) (eSum : α) :
    List (QAFill α) :=
  [QAFill.hNumObject o nAcc, QAFill.hNumCstAccept c 0 nTot, QAFill.hNumCstAccept c 1 nAcc,
   QAFill.hSumCstEne c eSum]

/-- The five summary fills at the end of `AddClusters`. -/
def clusterTotals {α : Type} (nClustEM nClustH nTot nAcc : Nat) (eSum : α) :
    List (QAFill α) :=
  [QAFill.hNumObject OBJECT.ECLUST nClustEM, QAFill.hNumObject OBJECT.HCLUST nClustH,
   QAFill.hNumCstAccept CST_TYPE.CALO_CST 0 nTot, QAFill.hNumCstAccept CST_TYPE.CALO_CST 1 nAcc,
   QAFill.hSumCstEne CST_TYPE.CALO_CST eSum]

/-- The returned result records the totals: particles were appended to the pool, per-object
fills to the QA log, and the log ends with the summary fills `totals` for the seen count,
for the number of appended particles as accepted count and for the sum of their energies. -/
def Returned.RecordsTotals {α : Type} [Add α] [IntCast α] (s : Collection α) (r : Returned α)
    (totals : Nat → Nat → α → List (QAFill α)) : Prop :=
  ∃ (appended : List (PseudoJet α)) (fills : List (QAFill α)),
    r.out.particles = s.particles ++ appended ∧ r.nAcc = appended.length ∧
    (∀ f ∈ fills, f.isTotal = false) ∧
    r.out.qa = s.qa ++ fills ++
      totals r.nTot appended.length (energySum ((0 : Int) : α) appended)

/-- The returned result records no totals: particles were appended to the pool and only
per-object fills to the QA log. -/
def Returned.RecordsNoTotals {α : Type} (s : Collection α) (r : Returned α) : Prop :=
  ∃ (appended : List (PseudoJet α)) (fills : List (QAFill α)),
    r.out.particles = s.particles ++ appended ∧ r.nAcc = appended.length ∧
    r.out.qa = s.qa ++ fills ∧ (∀ f ∈ fills, f.isTotal = false)

/-- The call of `AddClusters` gets to its summary fills: the primary vertex is there, the
EMCal container is there if EMCal clusters are enabled, and both HCal containers are there
if HCal clusters are enabled. -/
def AddClusters.RunsToEnd {α : Type} (C : Config α) (topNode : PHCompositeNode α) : Prop :=
  topNode.primaryVertex.isSome = true ∧
  (C.m_add_EMCal_clusters = true → topNode.CLUSTER_CEMC.isSome = true) ∧
  (C.m_add_HCal_clusters = true →
    topNode.CLUSTER_HCALIN.isSome = true ∧ topNode.CLUSTER_HCALOUT.isSome = true)

namespace Ex

/-- An event with a vertex and one EMCal cluster, whose inner HCal container is missing. -/
def evNoInnerHCal : PHCompositeNode Int :=
  { noNodes with GlobalVertexMap := some [some vertex], CLUSTER_CEMC := some [some cluster] }

end Ex

/-- The detector-view record and the truth-view record hold the same jet count and the same
sequences for constituent count, E, pt, η, φ, area and for the per-constituent z, Δr, E, jt,
η, φ. -/
def SameFeatures {α : Type} (reco : RecoOutput α) (tru : TrueOutput α) : Prop :=
  reco.m_recoNumJets = tru.m_trueNumJets ∧
  reco.m_recoJetNCst = tru.m_trueJetNCst ∧
  reco.m_recoJetE = tru.m_trueJetE ∧
  reco.m_recoJetPt = tru.m_trueJetPt ∧
  reco.m_recoJetEta = tru.m_trueJetEta ∧
  reco.m_recoJetPhi = tru.m_trueJetPhi ∧
  reco.m_recoJetArea = tru.m_trueJetArea ∧
  reco.m_recoCstZ = tru.m_trueCstZ ∧
  reco.m_recoCstDr = tru.m_trueCstDr ∧
  reco.m_recoCstE = tru.m_trueCstE ∧
  reco.m_recoCstJt = tru.m_trueCstJt ∧
  reco.m_recoCstEta = tru.m_trueCstEta ∧
  reco.m_recoCstPhi = tru.m_trueCstPhi

namespace Ex

/-- Configuration with only particle flow enabled. -/
def cfgFlow : Config Int :=
  { cfgTracks with m_add_particleflow := true, m_add_tracks := false }

end Ex

/-! ## The provenance map -/

theorem indices_succ (n : Nat) : indices (n + 1) = indices n ++ [(n : Int)] := by
  simp [indices, List.range_succ]

theorem indices_length (n : Nat) : (indices n).length = n := by
  simp [indices]

theorem mem_indices (n : Nat) (k : Int) : k ∈ indices n ↔ 0 ≤ k ∧ k < (n : Int) := by
  simp only [indices, List.mem_map, List.mem_range]
  constructor
  · rintro ⟨i, hi, rfl⟩
    exact ⟨Int.ofNat_nonneg i, by exact_mod_cast hi⟩
  · rintro ⟨h0, hlt⟩
    refine ⟨k.toNat, ?_, ?_⟩
    · omega
    · exact Int.toNat_of_nonneg h0

theorem indices_pairwise (n : Nat) : (indices n).Pairwise (fun a b => a < b) := by
  unfold indices
  rw [List.pairwise_map]
  exact (List.pairwise_lt_range n).imp (fun h => by exact_mod_cast h)

theorem insertEntry_of_lt (k : Int) (v : SRC × Int) (l : List (Int × (SRC × Int)))
    (h : ∀ e ∈ l, e.1 < k) : FjMap.insertEntry k v l = l ++ [(k, v)] := by
  induction l with
  | nil => rfl
  | cons e rest ih =>
    have he : e.1 < k := h e (List.mem_cons_self _ _)
    have hrest : ∀ e' ∈ rest, e'.1 < k := fun e' h' => h e' (List.mem_cons_of_mem _ h')
    have h1 : ¬ k < e.1 := by omega
    have h2 : ¬ k = e.1 := by omega
    simp [FjMap.insertEntry, h1, h2, ih hrest]

theorem insert_keys_of_canon {α : Type} (particles : List (PseudoJet α)) (m : FjMap)
    (v : SRC × Int) (h : m.keys = indices particles.length) :
    (m.insert (particles.length : Int) v).keys = indices (particles.length + 1) := by
  have hlt : ∀ e ∈ m.entries, e.1 < (particles.length : Int) := by
    intro e he
    have : e.1 ∈ m.keys := List.mem_map_of_mem Prod.fst he
    rw [h] at this
    exact ((mem_indices _ _).1 this).2
  unfold FjMap.insert FjMap.keys
  rw [insertEntry_of_lt _ _ _ hlt, indices_succ, List.map_append, ← h]
  rfl

theorem PoolCanon.push {α : Type} {particles : List (PseudoJet α)} {m : FjMap}
    (h : PoolCanon particles m) (p : PseudoJet α) (v : SRC × Int)
    (hp : p.user_index = (particles.length : Int)) :
    PoolCanon (particles ++ [p]) (m.insert (particles.length : Int) v) := by
  refine ⟨?_, ?_⟩
  · rw [List.length_append, List.length_singleton]
    exact insert_keys_of_canon particles m v h.1
  · rw [List.length_append, List.length_singleton, indices_succ, List.map_append, h.2]
    simp [hp]

theorem PoolCanon.size {α : Type} {particles : List (PseudoJet α)} {m : FjMap}
    (h : PoolCanon particles m) : m.size = particles.length := by
  have := congrArg List.length h.1
  simpa [FjMap.keys, FjMap.size, indices_length] using this

theorem PoolInv.of_canon {α : Type} {s : Collection α} (h : PoolCanon s.particles s.fjMap) :
    PoolInv s := by
  refine ⟨?_, ?_, ?_⟩
  · unfold FjMap.WF
    rw [h.1]
    exact indices_pairwise _
  · intro k
    rw [h.1]
    exact mem_indices _ k
  · intro i hi
    have h3 : (List.map PseudoJet.user_index s.particles)[i]?
        = (indices s.particles.length)[i]? := by
      rw [h.2]
    simpa [indices, List.getElem?_map, List.getElem?_range, hi] using h3

theorem PoolInv.to_canon {α : Type} {s : Collection α} (h : PoolInv s) :
    PoolCanon s.particles s.fjMap := by
  obtain ⟨hwf, hkeys, hidx⟩ := h
  refine ⟨?_, ?_⟩
  · have hnd1 : s.fjMap.keys.Nodup := hwf.imp (fun h => ne_of_lt h)
    have hnd2 : (indices s.particles.length).Nodup :=
      (indices_pairwise _).imp (fun h => ne_of_lt h)
    have hperm : s.fjMap.keys.Perm (indices s.particles.length) :=
      (List.perm_ext_iff_of_nodup hnd1 hnd2).2
        (fun k => by rw [hkeys k, mem_indices])
    exact List.eq_of_perm_of_sorted hperm hwf (indices_pairwise _)
  · apply List.ext_get
    · simp [indices_length]
    · intro i h1 h2
      have hi : i < s.particles.length := by simpa using h1
      have := hidx i hi
      simp only [List.get_eq_getElem] at this
      simp [indices, this]

/-! ## Loop iterations on the pool core -/

theorem foldl_reach {α σ ι : Type} (core : σ → PoolCore α) (f : σ → ι → σ)
    (hf : ∀ s x, PoolCore.Step (core s) (core (f s x))) (l : List ι) (s : σ) :
    Relation.ReflTransGen PoolCore.Step (core s) (core (l.foldl f s)) := by
  induction l generalizing s with
  | nil => exact Relation.ReflTransGen.refl
  | cons x xs ih => exact Relation.ReflTransGen.head (hf s x) (ih (f s x))

theorem PoolCore.Step.keeps_counted {α : Type} {n0 a0 : Nat} {a b : PoolCore α}
    (h : PoolCore.Step a b)
    (ha : a.Counted n0 a0) : b.Counted n0 a0 := by
  rcases h with rfl | ⟨p, v, _, rfl⟩
  · exact ha
  · obtain ⟨h1, h2⟩ := ha
    refine ⟨?_, ?_⟩
    · simp [h1]
    · simp only [List.length_append, List.length_singleton]
      omega

theorem PoolCore.Step.keeps_canon {α : Type} {a b : PoolCore α} (h : PoolCore.Step a b)
    (ha : a.Canon) :
    b.Canon := by
  rcases h with rfl | ⟨p, v, hp, rfl⟩
  · exact ha
  · obtain ⟨h1, h2⟩ := ha
    refine ⟨?_, ?_⟩
    · simp [h1]
    · simp only
      rw [h1] at hp ⊢
      exact h2.push p v hp

theorem reach_counted {α : Type} {n0 a0 : Nat} {a b : PoolCore α}
    (h : Relation.ReflTransGen PoolCore.Step a b) (ha : a.Counted n0 a0) : b.Counted n0 a0 := by
  induction h with
  | refl => exact ha
  | tail _ hstep ih => exact hstep.keeps_counted ih

theorem reach_canon {α : Type} {a b : PoolCore α}
    (h : Relation.ReflTransGen PoolCore.Step a b) (ha : a.Canon) : b.Canon := by
  induction h with
  | refl => exact ha
  | tail _ hstep ih => exact hstep.keeps_canon ih

theorem Returned.Reached.length_out {α : Type} {s : Collection α} {r : Returned α} (h : r.Reached s) :
    r.out.particles.length = s.particles.length + r.nAcc := by
  obtain ⟨i, hi⟩ := h
  have := @reach_counted α s.particles.length 0 _ _ hi ⟨rfl, rfl⟩
  simpa using this.2

theorem Returned.Reached.canon_out {α : Type} {s : Collection α} {r : Returned α} (h : r.Reached s)
    (hs : PoolCanon s.particles s.fjMap) : PoolCanon r.out.particles r.out.fjMap := by
  obtain ⟨i, hi⟩ := h
  exact (reach_canon hi ⟨rfl, hs⟩).2

theorem Returned.unchanged_reached {α : Type} (s : Collection α) :
    (Returned.unchanged s).Reached s :=
  ⟨s.particles.length, Relation.ReflTransGen.refl⟩

section Loops

set_option linter.unusedSectionVars false

variable {α : Type} [Add α] [Sub α] [Mul α] [Div α] [IntCast α]

theorem AddParticleFlow.body_is_step (N : Numerics α) (X : Externals α) (st : CollectorLoop α)
    (entry : Option (ParticleFlowElement α)) :
    PoolCore.Step st.core (AddParticleFlow.body N X st entry).core := by
  cases entry with
  | none => exact Or.inl rfl
  | some pflow =>
    by_cases hg : X.IsGoodParticleFlow pflow = false
    · left; simp [AddParticleFlow.body, hg, CollectorLoop.core]
    · right
      exact ⟨{ px := pflow.px, py := pflow.py, pz := pflow.pz, E := pflow.e,
               user_index := (st.iPart : Int) }, (SRC.PARTICLE, pflow.id), rfl,
             by simp [AddParticleFlow.body, hg, CollectorLoop.core]⟩

theorem AddTracks.track_body_is_step (N : Numerics α) (X : Externals α) (C : Config α)
    (st : CollectorLoop α) (entry : Option (SvtxTrack α)) :
    PoolCore.Step st.core (AddTracks.body N X C st entry).core := by
  cases entry with
  | none => exact Or.inl rfl
  | some track =>
    by_cases hg : X.IsGoodTrack track = false
    · left; simp [AddTracks.body, hg, CollectorLoop.core]
    · right
      exact ⟨{ px := track.px, py := track.py, pz := track.pz,
               E := N.sqrt ((track.px * track.px) + (track.py * track.py)
                 + (track.pz * track.pz) + (C.MassPion * C.MassPion)),
               user_index := (st.iPart : Int) }, (SRC.TRACK, track.id), rfl,
             by simp [AddTracks.body, hg, CollectorLoop.core]⟩

theorem AddParticles.particle_body_is_step (N : Numerics α) (X : Externals α) (st : CollectorLoop α)
    (p : GenParticle α) : PoolCore.Step st.core (AddParticles.body N X st p).core := by
  by_cases hf : p.status = 1
  · by_cases hg : X.IsGoodParticle p = false
    · left; simp [AddParticles.body, hf, hg, CollectorLoop.core]
    · right
      exact ⟨{ px := p.px, py := p.py, pz := p.pz, E := p.e, user_index := (st.iPart : Int) },
             (SRC.PARTICLE, p.barcode), rfl,
             by simp [AddParticles.body, hf, hg, CollectorLoop.core]⟩
  · left; simp [AddParticles.body, hf, CollectorLoop.core]

theorem AddClusters.cluster_body_is_step (N : Numerics α) (X : Externals α)
    (isGood : Hep3Vector α → Bool) (src : SRC) (obj : OBJECT) (em : Bool)
    (vtx : GlobalVertex α) (st : ClusterLoop α) (entry : Option (RawCluster α)) :
    PoolCore.Step st.core (AddClusters.body N X isGood src obj em vtx st entry).core := by
  cases entry with
  | none => exact Or.inl rfl
  | some cluster =>
    by_cases hg : isGood (X.GetECoreVec cluster { x := vtx.x, y := vtx.y, z := vtx.z }) = false
    · left; simp [AddClusters.body, hg, ClusterLoop.core]
    · right
      refine ⟨((AddClusters.body N X isGood src obj em vtx st (some cluster)).particles.drop
                st.particles.length).headD
                { px := cluster.x, py := cluster.x, pz := cluster.x, E := cluster.x,
                  user_index := 0 },
              (src, cluster.id), ?_, ?_⟩
      · simp [AddClusters.body, hg, ClusterLoop.core]
      · simp [AddClusters.body, hg, ClusterLoop.core]

/-! ## The collectors as a whole -/

theorem AddTracks_total (N : Numerics α) (X : Externals α) (C : Config α)
    (topNode : PHCompositeNode α) (s : Collection α) :
    ∃ r, AddTracks N X C topNode s = Except.ok r := by
  unfold AddTracks
  cases topNode.SvtxTrackMap with
  | none => exact ⟨_, rfl⟩
  | some trackmap => exact ⟨_, rfl⟩

theorem AddParticles_total (N : Numerics α) (X : Externals α)
    (topNode : PHCompositeNode α) (s : Collection α) :
    ∃ r, AddParticles N X topNode s = Except.ok r := by
  unfold AddParticles
  cases hm : topNode.PHHepMCGenEventMap with
  | none => exact ⟨_, rfl⟩
  | some hepmceventmap =>
    cases he : hepmceventmap.lookup 1 with
    | none => simp only [he]; exact ⟨_, rfl⟩
    | some hepmcevent =>
      cases hg : hepmcevent.getEvent with
      | none => simp only [he, hg]; exact ⟨_, rfl⟩
      | some hepMCevent => simp only [he, hg]; exact ⟨_, rfl⟩

theorem AddParticleFlow_returns (N : Numerics α) (X : Externals α)
    (topNode : PHCompositeNode α) (s : Collection α)
    (h : topNode.ParticleFlowElements.isSome = true) :
    ∃ r, AddParticleFlow N X topNode s = Except.ok r := by
  unfold AddParticleFlow
  cases hc : topNode.ParticleFlowElements with
  | none => simp [hc] at h
  | some pflowContainer => exact ⟨_, rfl⟩

theorem AddClusters_returns (N : Numerics α) (X : Externals α) (C : Config α)
    (topNode : PHCompositeNode α) (s : Collection α)
    (h : topNode.GlobalVertexMap.isSome = true) :
    ∃ r, AddClusters N X C topNode s = Except.ok r := by
  unfold AddClusters
  cases hv : topNode.GlobalVertexMap with
  | none => simp [hv] at h
  | some vertexmap =>
    cases vertexmap with
    | nil => exact ⟨_, rfl⟩
    | cons first rest =>
      cases first with
      | none => exact ⟨_, rfl⟩
      | some vtx =>
        cases hem : AddClusters.emBlock N X C topNode vtx (ClusterLoop.init s) with
        | none => simp only [hem]; exact ⟨_, rfl⟩
        | some st1 => simp only [hem]; exact ⟨_, rfl⟩

theorem AddClusters_missing_vertexmap (N : Numerics α) (X : Externals α) (C : Config α)
    (topNode : PHCompositeNode α) (s : Collection α) (h : topNode.GlobalVertexMap = none) :
    AddClusters N X C topNode s = Except.error Fault.assertionFailure := by
  unfold AddClusters
  rw [h]

theorem AddParticleFlow_reached (N : Numerics α) (X : Externals α)
    (topNode : PHCompositeNode α) (s : Collection α) (r : Returned α)
    (h : AddParticleFlow N X topNode s = Except.ok r) : r.Reached s := by
  unfold AddParticleFlow at h
  cases hc : topNode.ParticleFlowElements with
  | none => simp [hc] at h
  | some pflowContainer =>
    simp only [hc, Except.ok.injEq] at h
    subst h
    exact ⟨_, foldl_reach CollectorLoop.core _ (AddParticleFlow.body_is_step N X)
      pflowContainer (CollectorLoop.init s)⟩

theorem AddTracks_reached (N : Numerics α) (X : Externals α) (C : Config α)
    (topNode : PHCompositeNode α) (s : Collection α) (r : Returned α)
    (h : AddTracks N X C topNode s = Except.ok r) : r.Reached s := by
  unfold AddTracks at h
  cases hm : topNode.SvtxTrackMap with
  | none =>
    simp only [hm, Except.ok.injEq] at h
    subst h
    exact Returned.unchanged_reached s
  | some trackmap =>
    simp only [hm, Except.ok.injEq] at h
    subst h
    exact ⟨_, foldl_reach CollectorLoop.core _ (AddTracks.track_body_is_step N X C)
      trackmap (CollectorLoop.init s)⟩

theorem AddParticles_reached (N : Numerics α) (X : Externals α)
    (topNode : PHCompositeNode α) (s : Collection α) (r : Returned α)
    (h : AddParticles N X topNode s = Except.ok r) : r.Reached s := by
  unfold AddParticles at h
  cases hm : topNode.PHHepMCGenEventMap with
  | none =>
    simp only [hm, Except.ok.injEq] at h
    subst h
    exact Returned.unchanged_reached s
  | some hepmceventmap =>
    cases he : hepmceventmap.lookup 1 with
    | none =>
      simp only [hm, he, Except.ok.injEq] at h
      subst h
      exact Returned.unchanged_reached s
    | some hepmcevent =>
      cases hg : hepmcevent.getEvent with
      | none =>
        simp only [hm, he, hg, Except.ok.injEq] at h
        subst h
        exact Returned.unchanged_reached s
      | some hepMCevent =>
        simp only [hm, he, hg, Except.ok.injEq] at h
        subst h
        exact ⟨_, foldl_reach CollectorLoop.core _ (AddParticles.particle_body_is_step N X)
          hepMCevent (CollectorLoop.init s)⟩

theorem AddClusters.emBlock_reach (N : Numerics α) (X : Externals α) (C : Config α)
    (topNode : PHCompositeNode α) (vtx : GlobalVertex α) (st st1 : ClusterLoop α)
    (h : AddClusters.emBlock N X C topNode vtx st = some st1) :
    Relation.ReflTransGen PoolCore.Step st.core st1.core := by
  unfold AddClusters.emBlock at h
  by_cases hem : C.m_add_EMCal_clusters = true
  · cases hc : topNode.CLUSTER_CEMC with
    | none => simp [hem, hc] at h
    | some clustersEMC =>
      simp only [hem, hc, if_true, Option.some.injEq] at h
      subst h
      exact foldl_reach ClusterLoop.core _
        (AddClusters.cluster_body_is_step N X X.IsGoodEMCalCluster SRC.CEMC_CLUSTER OBJECT.ECLUST true vtx)
        clustersEMC st
  · simp only [hem, Bool.false_eq_true, if_false, Option.some.injEq] at h
    subst h
    exact Relation.ReflTransGen.refl

theorem AddClusters.hBlock_reach (N : Numerics α) (X : Externals α) (C : Config α)
    (topNode : PHCompositeNode α) (vtx : GlobalVertex α) (st : ClusterLoop α) :
    ∃ i : Nat, Relation.ReflTransGen PoolCore.Step st.core
      { particles := (AddClusters.hBlock N X C topNode vtx st).out.particles,
        fjMap := (AddClusters.hBlock N X C topNode vtx st).out.fjMap,
        iPart := i, nAcc := (AddClusters.hBlock N X C topNode vtx st).nAcc } := by
  unfold AddClusters.hBlock
  by_cases hh : C.m_add_HCal_clusters = true
  · cases hin : topNode.CLUSTER_HCALIN with
    | none =>
      simp only [hh, if_true]
      exact ⟨st.iPart, Relation.ReflTransGen.refl⟩
    | some clustersHCALIN =>
      have r1 := foldl_reach ClusterLoop.core _
        (AddClusters.cluster_body_is_step N X X.IsGoodHCalCluster SRC.HCALIN_CLUSTER OBJECT.HCLUST false
          vtx) clustersHCALIN st
      cases hout : topNode.CLUSTER_HCALOUT with
      | none =>
        simp only [hh, if_true]
        exact ⟨_, r1⟩
      | some clustersHCALOUT =>
        simp only [hh, if_true]
        exact ⟨_, r1.trans (foldl_reach ClusterLoop.core _
          (AddClusters.cluster_body_is_step N X X.IsGoodHCalCluster SRC.HCALOUT_CLUSTER OBJECT.HCLUST
            false vtx) clustersHCALOUT _)⟩
  · simp only [hh]
    exact ⟨st.iPart, Relation.ReflTransGen.refl⟩

theorem AddClusters_reached (N : Numerics α) (X : Externals α) (C : Config α)
    (topNode : PHCompositeNode α) (s : Collection α) (r : Returned α)
    (h : AddClusters N X C topNode s = Except.ok r) : r.Reached s := by
  unfold AddClusters at h
  cases hv : topNode.GlobalVertexMap with
  | none => simp [hv] at h
  | some vertexmap =>
    cases vertexmap with
    | nil =>
      simp only [hv, Except.ok.injEq] at h
      subst h
      exact Returned.unchanged_reached s
    | cons first rest =>
      cases first with
      | none =>
        simp only [hv, Except.ok.injEq] at h
        subst h
        exact Returned.unchanged_reached s
      | some vtx =>
        cases hem : AddClusters.emBlock N X C topNode vtx (ClusterLoop.init s) with
        | none =>
          simp only [hv, hem, Except.ok.injEq] at h
          subst h
          exact ⟨s.particles.length, Relation.ReflTransGen.refl⟩
        | some st1 =>
          simp only [hv, hem, Except.ok.injEq] at h
          subst h
          obtain ⟨i, hi⟩ := AddClusters.hBlock_reach N X C topNode vtx st1
          exact ⟨i, (AddClusters.emBlock_reach N X C topNode vtx _ st1 hem).trans hi⟩

theorem PoolCanon.empty_start : PoolCanon ([] : List (PseudoJet α)) FjMap.empty :=
  ⟨rfl, rfl⟩

theorem Returned.Reached.preserves {s : Collection α} {r : Returned α} (h : r.Reached s)
    (hs : PoolInv s) :
    PoolInv r.out ∧ r.out.fjMap.size = r.out.particles.length ∧
      r.out.fjMap.size = s.fjMap.size + r.nAcc := by
  have hc := h.canon_out hs.to_canon
  refine ⟨PoolInv.of_canon hc, hc.size, ?_⟩
  rw [hc.size, hs.to_canon.size, h.length_out]

theorem runIf_reached (b : Bool) (collector : Collection α → Except Fault (Returned α))
    (s : Collection α) (hrun : ∀ r, collector s = Except.ok r → r.Reached s) (r : Returned α)
    (h : runIf b collector s = Except.ok r) : r.Reached s := by
  unfold runIf at h
  cases b with
  | true => exact hrun r (by simpa using h)
  | false =>
    have h2 : Returned.unchanged s = r := by simpa using h
    subst h2
    exact Returned.unchanged_reached s

theorem runIf_returns (b : Bool) (collector : Collection α → Except Fault (Returned α))
    (s : Collection α) (hrun : b = true → ∃ r, collector s = Except.ok r) :
    ∃ r, runIf b collector s = Except.ok r := by
  unfold runIf
  cases b with
  | true => simpa using hrun rfl
  | false => exact ⟨_, rfl⟩

theorem FindJets.addConstituents_ok (N : Numerics α) (X : Externals α) (C : Config α)
    (topNode : PHCompositeNode α) (qa : List (QAFill α)) (c : Constituents α)
    (h : FindJets.addConstituents N X C topNode qa = Except.ok c) :
    ∃ r1 r2 r3 : Returned α,
      r1.Reached { particles := [], fjMap := FjMap.empty, qa := qa } ∧
      r2.Reached r1.out ∧ r3.Reached r2.out ∧
      c = { out := r3.out, nFlowAcc := r1.nAcc, nTrkAcc := r2.nAcc, nClustAcc := r3.nAcc } := by
  unfold FindJets.addConstituents at h
  simp only at h
  cases h1 : runIf C.m_add_particleflow (AddParticleFlow N X topNode)
      { particles := [], fjMap := FjMap.empty, qa := qa } with
  | error e => simp [h1] at h
  | ok r1 =>
    cases h2 : runIf C.m_add_tracks (AddTracks N X C topNode) r1.out with
    | error e => simp [h1, h2] at h
    | ok r2 =>
      cases h3 : runIf (C.m_add_EMCal_clusters || C.m_add_HCal_clusters)
          (AddClusters N X C topNode) r2.out with
      | error e => simp [h1, h2, h3] at h
      | ok r3 =>
        simp only [h1, h2, h3, Except.ok.injEq] at h
        exact ⟨r1, r2, r3,
          runIf_reached _ _ _ (AddParticleFlow_reached N X topNode _) r1 h1,
          runIf_reached _ _ _ (AddTracks_reached N X C topNode _) r2 h2,
          runIf_reached _ _ _ (AddClusters_reached N X C topNode _) r3 h3, h.symm⟩

theorem FindJets.addConstituents_returns (N : Numerics α) (X : Externals α) (C : Config α)
    (topNode : PHCompositeNode α) (qa : List (QAFill α)) (h : SourcesPresent C topNode) :
    ∃ c, FindJets.addConstituents N X C topNode qa = Except.ok c := by
  obtain ⟨hflow, hcalo⟩ := h
  obtain ⟨r1, h1⟩ := runIf_returns C.m_add_particleflow (AddParticleFlow N X topNode)
    { particles := [], fjMap := FjMap.empty, qa := qa }
    (fun hb => AddParticleFlow_returns N X topNode _ (hflow hb))
  obtain ⟨r2, h2⟩ := runIf_returns C.m_add_tracks (AddTracks N X C topNode) r1.out
    (fun _ => AddTracks_total N X C topNode _)
  obtain ⟨r3, h3⟩ := runIf_returns (C.m_add_EMCal_clusters || C.m_add_HCal_clusters)
    (AddClusters N X C topNode) r2.out
    (fun hb => AddClusters_returns N X C topNode _ (hcalo hb))
  refine ⟨{ out := r3.out, nFlowAcc := r1.nAcc, nTrkAcc := r2.nAcc, nClustAcc := r3.nAcc }, ?_⟩
  unfold FindJets.addConstituents
  simp only [h1, h2, h3]

/-- C1: from an empty pool and an empty provenance map, whatever collectors are enabled,
when the collection phase of `FindJets` hands over to the clustering the number of
provenance-map entries equals the pool size, and the pool size equals
`nFlowAcc + nTrkAcc + nClustAcc` (a collector that did not run contributes 0); the
collection phase does hand over whenever no hard failure is on its way. The same holds
for `AddParticles` in `FindMcJets`, which always hands over. -/
theorem C1_provenance_entries_equal_pool_size (N : Numerics α) (X : Externals α)
    (C : Config α) (topNode : PHCompositeNode α) (qa : List (QAFill α)) :
    (∀ c, FindJets.addConstituents N X C topNode qa = Except.ok c →
      c.out.fjMap.size = c.out.particles.length ∧
      c.out.particles.length = c.nFlowAcc + c.nTrkAcc + c.nClustAcc) ∧
    (SourcesPresent C topNode →
      ∃ c, FindJets.addConstituents N X C topNode qa = Except.ok c) ∧
    (∃ r, FindMcJets.addConstituents N X topNode qa = Except.ok r ∧
      r.out.fjMap.size = r.out.particles.length ∧ r.out.particles.length = r.nAcc) := by
  refine ⟨?_, FindJets.addConstituents_returns N X C topNode qa, ?_⟩
  · intro c hc
    obtain ⟨r1, r2, r3, h1, h2, h3, rfl⟩ := FindJets.addConstituents_ok N X C topNode qa c hc
    have c1 := h1.canon_out PoolCanon.empty_start
    have c3 := h3.canon_out (h2.canon_out c1)
    refine ⟨c3.size, ?_⟩
    have l1 := h1.length_out
    have l2 := h2.length_out
    have l3 := h3.length_out
    simp only [List.length_nil] at l1
    simp only
    omega
  · obtain ⟨r, hr⟩ := AddParticles_total N X topNode
      { particles := [], fjMap := FjMap.empty, qa := qa }
    have hreach := AddParticles_reached N X topNode _ r hr
    refine ⟨r, hr, (hreach.canon_out PoolCanon.empty_start).size, ?_⟩
    simpa using hreach.length_out

/-- Witness of C1: the event with one object in every container, all collectors enabled. -/
theorem C1_witness :
    SourcesPresent Ex.cfgAll Ex.evFull ∧
    ∃ c, FindJets.addConstituents Ex.num Ex.ext Ex.cfgAll Ex.evFull [] = Except.ok c ∧
      c.out.fjMap.size = c.out.particles.length ∧
      c.out.particles.length = c.nFlowAcc + c.nTrkAcc + c.nClustAcc := by
  have hp : SourcesPresent Ex.cfgAll Ex.evFull := ⟨fun _ => rfl, fun _ => rfl⟩
  obtain ⟨c, hc⟩ :=
    (C1_provenance_entries_equal_pool_size Ex.num Ex.ext Ex.cfgAll Ex.evFull []).2.1 hp
  exact ⟨hp, c, hc,
    (C1_provenance_entries_equal_pool_size Ex.num Ex.ext Ex.cfgAll Ex.evFull []).1 c hc⟩

/-- C2: every collector preserves the invariant `PoolInv` (the key set of the provenance
map is exactly `{0, ..., pool size - 1}` and the pooled particle at position `i` carries
user index `i`) on every path on which it returns, each of its `nAcc` inserts adds a new
entry, and the map ends with one entry per pool element. `AddTracks` and `AddParticles`
return on every input, `AddParticleFlow` whenever its container is there and `AddClusters`
whenever the vertex map is there. -/
theorem C2_collectors_preserve_pool_invariant (N : Numerics α) (X : Externals α)
    (C : Config α) (topNode : PHCompositeNode α) (s : Collection α) (hs : PoolInv s) :
    (∃ r, AddTracks N X C topNode s = Except.ok r ∧ PoolInv r.out ∧
      r.out.fjMap.size = r.out.particles.length ∧
      r.out.fjMap.size = s.fjMap.size + r.nAcc) ∧
    (∃ r, AddParticles N X topNode s = Except.ok r ∧ PoolInv r.out ∧
      r.out.fjMap.size = r.out.particles.length ∧
      r.out.fjMap.size = s.fjMap.size + r.nAcc) ∧
    (∀ r, AddParticleFlow N X topNode s = Except.ok r → PoolInv r.out ∧
      r.out.fjMap.size = r.out.particles.length ∧
      r.out.fjMap.size = s.fjMap.size + r.nAcc) ∧
    (topNode.ParticleFlowElements.isSome = true →
      ∃ r, AddParticleFlow N X topNode s = Except.ok r) ∧
    (∀ r, AddClusters N X C topNode s = Except.ok r → PoolInv r.out ∧
      r.out.fjMap.size = r.out.particles.length ∧
      r.out.fjMap.size = s.fjMap.size + r.nAcc) ∧
    (topNode.GlobalVertexMap.isSome = true →
      ∃ r, AddClusters N X C topNode s = Except.ok r) := by
  refine ⟨?_, ?_, ?_, AddParticleFlow_returns N X topNode s, ?_,
    AddClusters_returns N X C topNode s⟩
  · obtain ⟨r, hr⟩ := AddTracks_total N X C topNode s
    exact ⟨r, hr, (AddTracks_reached N X C topNode s r hr).preserves hs⟩
  · obtain ⟨r, hr⟩ := AddParticles_total N X topNode s
    exact ⟨r, hr, (AddParticles_reached N X topNode s r hr).preserves hs⟩
  · intro r hr
    exact (AddParticleFlow_reached N X topNode s r hr).preserves hs
  · intro r hr
    exact (AddClusters_reached N X C topNode s r hr).preserves hs

/-- Witness of C2: the empty pool with the empty map satisfies the invariant, and on the
event with one object in every container all four collectors return. -/
theorem C2_witness :
    PoolInv Ex.emptyCollection ∧
    (∃ r, AddTracks Ex.num Ex.ext Ex.cfgAll Ex.evFull Ex.emptyCollection = Except.ok r ∧
      PoolInv r.out) ∧
    (∃ r, AddParticleFlow Ex.num Ex.ext Ex.evFull Ex.emptyCollection = Except.ok r ∧
      PoolInv r.out) ∧
    (∃ r, AddClusters Ex.num Ex.ext Ex.cfgAll Ex.evFull Ex.emptyCollection = Except.ok r ∧
      PoolInv r.out) := by
  have hinv : PoolInv Ex.emptyCollection := PoolInv.of_canon ⟨rfl, rfl⟩
  have h := C2_collectors_preserve_pool_invariant Ex.num Ex.ext Ex.cfgAll Ex.evFull
    Ex.emptyCollection hinv
  obtain ⟨rt, hrt, hit, _⟩ := h.1
  obtain ⟨rf, hrf⟩ := h.2.2.2.1 rfl
  obtain ⟨rc, hrc⟩ := h.2.2.2.2.2 rfl
  exact ⟨hinv, ⟨rt, hrt, hit⟩, ⟨rf, hrf, (h.2.2.1 rf hrf).1⟩, ⟨rc, hrc, (h.2.2.2.2.1 rc hrc).1⟩⟩

theorem AddTracks.fold_counts (N : Numerics α) (X : Externals α) (C : Config α)
    (trackmap : List (Option (SvtxTrack α))) (st : CollectorLoop α) :
    (trackmap.foldl (AddTracks.body N X C) st).nTot = st.nTot + trackmap.reduceOption.length ∧
    (trackmap.foldl (AddTracks.body N X C) st).nAcc
      = st.nAcc + trackmap.reduceOption.countP X.IsGoodTrack := by
  induction trackmap generalizing st with
  | nil => simp
  | cons entry rest ih =>
    rw [List.foldl_cons]
    obtain ⟨ih1, ih2⟩ := ih (AddTracks.body N X C st entry)
    rw [ih1, ih2]
    cases entry with
    | none => simp [AddTracks.body]
    | some track =>
      by_cases hg : X.IsGoodTrack track = false
      · simp [AddTracks.body, hg, List.reduceOption_cons_of_some]
        omega
      · have hg2 : X.IsGoodTrack track = true := by simpa using hg
        simp [AddTracks.body, hg2, List.reduceOption_cons_of_some]
        omega

/-- C3: for `AddTracks` over a track map, the `seen` count it records is the number of
tracks in the map (null entries are no tracks), the `accepted` count is the number of
those for which `IsGoodTrack` holds, and the pool grows by exactly the accepted count; a
track rejected by `IsGoodTrack` increments `seen`, does not increment `accepted`, and
leaves the pool and the provenance map as they are. -/
theorem C3_track_counts (N : Numerics α) (X : Externals α) (C : Config α)
    (topNode : PHCompositeNode α) (s : Collection α)
    (trackmap : List (Option (SvtxTrack α))) (hmap : topNode.SvtxTrackMap = some trackmap) :
    (∃ r, AddTracks N X C topNode s = Except.ok r ∧
      r.nTot = trackmap.reduceOption.length ∧
      r.nAcc = trackmap.reduceOption.countP X.IsGoodTrack ∧
      r.out.particles.length = s.particles.length + r.nAcc ∧
      ∃ fills eSum, r.out.qa = fills ++
        [QAFill.hNumObject OBJECT.TRACK r.nAcc,
         QAFill.hNumCstAccept CST_TYPE.TRACK_CST 0 r.nTot,
         QAFill.hNumCstAccept CST_TYPE.TRACK_CST 1 r.nAcc,
         QAFill.hSumCstEne CST_TYPE.TRACK_CST eSum]) ∧
    (∀ (st : CollectorLoop α) (track : SvtxTrack α), X.IsGoodTrack track = false →
      (AddTracks.body N X C st (some track)).nTot = st.nTot + 1 ∧
      (AddTracks.body N X C st (some track)).nAcc = st.nAcc ∧
      (AddTracks.body N X C st (some track)).particles = st.particles ∧
      (AddTracks.body N X C st (some track)).fjMap = st.fjMap) := by
  refine ⟨?_, ?_⟩
  · obtain ⟨r, hr⟩ := AddTracks_total N X C topNode s
    have hlen := (AddTracks_reached N X C topNode s r hr).length_out
    refine ⟨r, hr, ?_⟩
    unfold AddTracks at hr
    simp only [hmap, Except.ok.injEq] at hr
    subst hr
    have hc := AddTracks.fold_counts N X C trackmap (CollectorLoop.init s)
    refine ⟨?_, ?_, hlen, _, _, rfl⟩
    · simpa [CollectorLoop.init] using hc.1
    · simpa [CollectorLoop.init] using hc.2
  · intro st track hg
    simp [AddTracks.body, hg]

/-- Witness of C3: a track map with a rejected track, a null entry and an accepted track. -/
theorem C3_witness :
    Ex.evThreeTracks.SvtxTrackMap = some [some Ex.badTrack, none, some Ex.goodTrack] ∧
    Ex.ext.IsGoodTrack Ex.badTrack = false ∧
    (∃ r, AddTracks Ex.num Ex.ext Ex.cfgTracks Ex.evThreeTracks Ex.emptyCollection
        = Except.ok r ∧ r.nTot = 2 ∧ r.nAcc = 1 ∧ r.out.particles.length = 1) ∧
    (AddTracks.body Ex.num Ex.ext Ex.cfgTracks (CollectorLoop.init Ex.emptyCollection)
      (some Ex.badTrack)).nTot = 1 := by
  have h := C3_track_counts Ex.num Ex.ext Ex.cfgTracks Ex.evThreeTracks Ex.emptyCollection
    [some Ex.badTrack, none, some Ex.goodTrack] rfl
  obtain ⟨r, hr, h1, h2, h3, _⟩ := h.1
  refine ⟨rfl, rfl, ⟨r, hr, ?_, ?_, ?_⟩, ?_⟩
  · rw [h1]; rfl
  · rw [h2]; rfl
  · rw [h3, h2]; rfl
  · exact (h.2 (CollectorLoop.init Ex.emptyCollection) Ex.badTrack rfl).1

theorem foldl_skip {σ ι : Type} (f : σ → Option ι → σ) (hf : ∀ st, f st none = st)
    (before after : List (Option ι)) (st : σ) :
    (before ++ none :: after).foldl f st = (before ++ after).foldl f st := by
  simp [List.foldl_append, hf]

/-- C4, as the claim states it, fails: over a track map whose only entry is a null pointer
`AddTracks` returns with a `seen` total of 0 and fills 0 into the `seen` histogram; the
null object is not counted as seen. -/
theorem C4_counterexample_null_track_not_seen :
    ∃ r, AddTracks Ex.num Ex.ext Ex.cfgTracks Ex.evNullTrack Ex.emptyCollection = Except.ok r ∧
      r.nTot = 0 ∧ r.nTot ≠ 1 ∧
      QAFill.hNumCstAccept CST_TYPE.TRACK_CST 0 0 ∈ r.out.qa ∧
      QAFill.hNumCstAccept CST_TYPE.TRACK_CST 0 1 ∉ r.out.qa :=
  ⟨_, rfl, rfl, by decide, by decide, by decide⟩

/-- C4 (amended): a null object inside an otherwise valid source is skipped without a
trace: `AddTracks`, `AddParticleFlow` and `AddClusters` (for each of its three cluster
containers) return exactly what they return on the source with the null object taken
out, so the null object is counted neither as seen nor as accepted, adds nothing to the
pool or the provenance map, and the objects after it are processed as usual. -/
theorem C4_null_objects_are_skipped (N : Numerics α) (X : Externals α) (C : Config α)
    (topNode : PHCompositeNode α) (s : Collection α)
    (trkBefore trkAfter : List (Option (SvtxTrack α)))
    (pfBefore pfAfter : List (Option (ParticleFlowElement α)))
    (clBefore clAfter : List (Option (RawCluster α))) :
    AddTracks N X C { topNode with SvtxTrackMap := some (trkBefore ++ none :: trkAfter) } s
      = AddTracks N X C { topNode with SvtxTrackMap := some (trkBefore ++ trkAfter) } s ∧
    AddParticleFlow N X
        { topNode with ParticleFlowElements := some (pfBefore ++ none :: pfAfter) } s
      = AddParticleFlow N X
        { topNode with ParticleFlowElements := some (pfBefore ++ pfAfter) } s ∧
    AddClusters N X C { topNode with CLUSTER_CEMC := some (clBefore ++ none :: clAfter) } s
      = AddClusters N X C { topNode with CLUSTER_CEMC := some (clBefore ++ clAfter) } s ∧
    AddClusters N X C { topNode with CLUSTER_HCALIN := some (clBefore ++ none :: clAfter) } s
      = AddClusters N X C { topNode with CLUSTER_HCALIN := some (clBefore ++ clAfter) } s ∧
    AddClusters N X C { topNode with CLUSTER_HCALOUT := some (clBefore ++ none :: clAfter) } s
      = AddClusters N X C { topNode with CLUSTER_HCALOUT := some (clBefore ++ clAfter) } s := by
  refine ⟨?_, ?_, ?_, ?_, ?_⟩
  · simp only [AddTracks]
    rw [foldl_skip (AddTracks.body N X C) (fun _ => rfl)]
  · simp only [AddParticleFlow]
    rw [foldl_skip (AddParticleFlow.body N X) (fun _ => rfl)]
  · simp only [AddClusters, AddClusters.emBlock, AddClusters.hBlock]
    simp only [foldl_skip (AddClusters.bodyEMC N X _) (fun _ => rfl)]
  · simp only [AddClusters, AddClusters.emBlock, AddClusters.hBlock]
    simp only [foldl_skip (AddClusters.bodyHCALIN N X _) (fun _ => rfl)]
  · simp only [AddClusters, AddClusters.emBlock, AddClusters.hBlock]
    simp only [foldl_skip (AddClusters.bodyHCALOUT N X _) (fun _ => rfl)]

/-- C5: when the source of a collector is absent or empty, the collector returns with the
particle pool and the provenance map exactly as they were on entry: `AddTracks` without a
track map; `AddParticles` without an event map, without the entry 1 in it, or without a
generator event in that entry; `AddClusters` with an empty vertex map or a null first
vertex. -/
theorem C5_absent_source_leaves_pool_unchanged (N : Numerics α) (X : Externals α)
    (C : Config α) (topNode : PHCompositeNode α) (s : Collection α) :
    (topNode.SvtxTrackMap = none →
      ∃ r, AddTracks N X C topNode s = Except.ok r ∧
        r.out.particles = s.particles ∧ r.out.fjMap = s.fjMap) ∧
    (topNode.PHHepMCGenEventMap = none →
      ∃ r, AddParticles N X topNode s = Except.ok r ∧
        r.out.particles = s.particles ∧ r.out.fjMap = s.fjMap) ∧
    (∀ hepmceventmap, topNode.PHHepMCGenEventMap = some hepmceventmap →
      hepmceventmap.lookup 1 = none →
      ∃ r, AddParticles N X topNode s = Except.ok r ∧
        r.out.particles = s.particles ∧ r.out.fjMap = s.fjMap) ∧
    (∀ hepmceventmap hepmcevent, topNode.PHHepMCGenEventMap = some hepmceventmap →
      hepmceventmap.lookup 1 = some hepmcevent → hepmcevent.getEvent = none →
      ∃ r, AddParticles N X topNode s = Except.ok r ∧
        r.out.particles = s.particles ∧ r.out.fjMap = s.fjMap) ∧
    (topNode.GlobalVertexMap = some [] →
      ∃ r, AddClusters N X C topNode s = Except.ok r ∧
        r.out.particles = s.particles ∧ r.out.fjMap = s.fjMap) ∧
    (∀ rest, topNode.GlobalVertexMap = some (none :: rest) →
      ∃ r, AddClusters N X C topNode s = Except.ok r ∧
        r.out.particles = s.particles ∧ r.out.fjMap = s.fjMap) := by
  refine ⟨?_, ?_, ?_, ?_, ?_, ?_⟩
  · intro h
    exact ⟨Returned.unchanged s, by simp only [AddTracks, h], rfl, rfl⟩
  · intro h
    exact ⟨Returned.unchanged s, by simp only [AddParticles, h], rfl, rfl⟩
  · intro m h h1
    exact ⟨Returned.unchanged s, by simp only [AddParticles, h, h1], rfl, rfl⟩
  · intro m e h h1 h2
    exact ⟨Returned.unchanged s, by simp only [AddParticles, h, h1, h2], rfl, rfl⟩
  · intro h
    exact ⟨Returned.unchanged s, by simp only [AddClusters, h], rfl, rfl⟩
  · intro rest h
    exact ⟨Returned.unchanged s, by simp only [AddClusters, h], rfl, rfl⟩

/-- Witness of C5: one event for each way a source can be absent or empty. -/
theorem C5_witness :
    (∃ r, AddTracks Ex.num Ex.ext Ex.cfgAll Ex.noNodes Ex.emptyCollection = Except.ok r ∧
      r.out.particles = [] ∧ r.out.fjMap = FjMap.empty) ∧
    (∃ r, AddParticles Ex.num Ex.ext Ex.noNodes Ex.emptyCollection = Except.ok r ∧
      r.out.particles = [] ∧ r.out.fjMap = FjMap.empty) ∧
    (∃ r, AddParticles Ex.num Ex.ext Ex.evNoGenEntry Ex.emptyCollection = Except.ok r ∧
      r.out.particles = [] ∧ r.out.fjMap = FjMap.empty) ∧
    (∃ r, AddParticles Ex.num Ex.ext Ex.evNoGenEvent Ex.emptyCollection = Except.ok r ∧
      r.out.particles = [] ∧ r.out.fjMap = FjMap.empty) ∧
    (∃ r, AddClusters Ex.num Ex.ext Ex.cfgAll Ex.evEmptyVertexMap Ex.emptyCollection
      = Except.ok r ∧ r.out.particles = [] ∧ r.out.fjMap = FjMap.empty) ∧
    (∃ r, AddClusters Ex.num Ex.ext Ex.cfgAll Ex.evNullVertex Ex.emptyCollection
      = Except.ok r ∧ r.out.particles = [] ∧ r.out.fjMap = FjMap.empty) :=
  ⟨(C5_absent_source_leaves_pool_unchanged Ex.num Ex.ext Ex.cfgAll Ex.noNodes
      Ex.emptyCollection).1 rfl,
   (C5_absent_source_leaves_pool_unchanged Ex.num Ex.ext Ex.cfgAll Ex.noNodes
      Ex.emptyCollection).2.1 rfl,
   (C5_absent_source_leaves_pool_unchanged Ex.num Ex.ext Ex.cfgAll Ex.evNoGenEntry
      Ex.emptyCollection).2.2.1 _ rfl rfl,
   (C5_absent_source_leaves_pool_unchanged Ex.num Ex.ext Ex.cfgAll Ex.evNoGenEvent
      Ex.emptyCollection).2.2.2.1 _ _ rfl rfl rfl,
   (C5_absent_source_leaves_pool_unchanged Ex.num Ex.ext Ex.cfgAll Ex.evEmptyVertexMap
      Ex.emptyCollection).2.2.2.2.1 rfl,
   (C5_absent_source_leaves_pool_unchanged Ex.num Ex.ext Ex.cfgAll Ex.evNullVertex
      Ex.emptyCollection).2.2.2.2.2 _ rfl⟩

/-! ## Jet finding: what is committed -/

theorem FindJets.jetLoop_reco_spec (N : Numerics α) (fastjets : List (ClusteredJet α))
    (st : RecoJetLoop α) (n : Nat) (h : st.out.SequencesHaveLength n) :
    (fastjets.foldl (FindJets.jetBody N) st).nRecJet = st.nRecJet + fastjets.length ∧
    (fastjets.foldl (FindJets.jetBody N) st).out.SequencesHaveLength (n + fastjets.length) ∧
    (fastjets.foldl (FindJets.jetBody N) st).out.m_recoCstMatchID
      = st.out.m_recoCstMatchID := by
  induction fastjets generalizing st n with
  | nil => exact ⟨rfl, h, rfl⟩
  | cons fj rest ih =>
    rw [List.foldl_cons]
    have hstep : (FindJets.jetBody N st fj).out.SequencesHaveLength (n + 1) := by
      obtain ⟨h1, h2, h3, h4, h5, h6, h7, h8, h9, h10, h11, h12, h13, h14⟩ := h
      simp [RecoOutput.SequencesHaveLength, FindJets.jetBody, h1, h2, h3, h4, h5, h6, h7, h8,
        h9, h10, h11, h12, h13, h14]
    obtain ⟨i1, i2, i3⟩ := ih (FindJets.jetBody N st fj) (n + 1) hstep
    refine ⟨?_, ?_, ?_⟩
    · rw [i1]
      simp [FindJets.jetBody]
      omega
    · have e : n + (fj :: rest).length = n + 1 + rest.length := by
        simp only [List.length_cons]; omega
      rw [e]
      exact i2
    · rw [i3]
      simp [FindJets.jetBody]

theorem FindMcJets.jetLoop_true_spec (N : Numerics α) (mcfastjets : List (ClusteredJet α))
    (st : TrueJetLoop α) (n : Nat) (h : st.out.SequencesHaveLength n) :
    (mcfastjets.foldl (FindMcJets.jetBody N) st).nTruJet = st.nTruJet + mcfastjets.length ∧
    (mcfastjets.foldl (FindMcJets.jetBody N) st).out.SequencesHaveLength
      (n + mcfastjets.length) ∧
    (mcfastjets.foldl (FindMcJets.jetBody N) st).out.m_trueCstID = st.out.m_trueCstID := by
  induction mcfastjets generalizing st n with
  | nil => exact ⟨rfl, h, rfl⟩
  | cons fj rest ih =>
    rw [List.foldl_cons]
    have hstep : (FindMcJets.jetBody N st fj).out.SequencesHaveLength (n + 1) := by
      obtain ⟨h1, h2, h3, h4, h5, h6, h7, h8, h9, h10, h11, h12, h13, h14⟩ := h
      simp [TrueOutput.SequencesHaveLength, FindMcJets.jetBody, h1, h2, h3, h4, h5, h6, h7,
        h8, h9, h10, h11, h12, h13, h14]
    obtain ⟨i1, i2, i3⟩ := ih (FindMcJets.jetBody N st fj) (n + 1) hstep
    refine ⟨?_, ?_, ?_⟩
    · rw [i1]
      simp [FindMcJets.jetBody]
      omega
    · have e : n + (fj :: rest).length = n + 1 + rest.length := by
        simp only [List.length_cons]; omega
      rw [e]
      exact i2
    · rw [i3]
      simp [FindMcJets.jetBody]

theorem FindJets.fillOutput_reco_spec (N : Numerics α) (fastjets : List (ClusteredJet α))
    (o : RecoOutput α) (qa : List (QAFill α)) :
    (FindJets.fillOutput N fastjets o qa).1.m_recoNumJets = fastjets.length ∧
    (FindJets.fillOutput N fastjets o qa).1.SequencesHaveLength fastjets.length ∧
    (FindJets.fillOutput N fastjets o qa).1.m_recoCstMatchID = o.m_recoCstMatchID := by
  have h0 : (FindJets.cleared o).SequencesHaveLength 0 := by
    simp [RecoOutput.SequencesHaveLength, FindJets.cleared]
  obtain ⟨h1, h2, h3⟩ := FindJets.jetLoop_reco_spec N fastjets
    { out := FindJets.cleared o, qa := qa, iJet := 0, nRecJet := 0, nRecCst := 0 } 0 h0
  refine ⟨?_, ?_, ?_⟩
  · simpa [FindJets.fillOutput] using h1
  · simpa [FindJets.fillOutput, RecoOutput.SequencesHaveLength] using h2
  · simpa [FindJets.fillOutput, FindJets.cleared] using h3

theorem FindMcJets.fillOutput_true_spec (N : Numerics α) (mcfastjets : List (ClusteredJet α))
    (o : TrueOutput α) (qa : List (QAFill α)) :
    (FindMcJets.fillOutput N mcfastjets o qa).1.m_trueNumJets = mcfastjets.length ∧
    (FindMcJets.fillOutput N mcfastjets o qa).1.SequencesHaveLength mcfastjets.length ∧
    (FindMcJets.fillOutput N mcfastjets o qa).1.m_trueCstID = o.m_trueCstID := by
  have h0 : (FindMcJets.cleared o).SequencesHaveLength 0 := by
    simp [TrueOutput.SequencesHaveLength, FindMcJets.cleared]
  obtain ⟨h1, h2, h3⟩ := FindMcJets.jetLoop_true_spec N mcfastjets
    { out := FindMcJets.cleared o, qa := qa, iTruJet := 0, nTruJet := 0, nTruCst := 0 } 0 h0
  refine ⟨?_, ?_, ?_⟩
  · simpa [FindMcJets.fillOutput] using h1
  · simpa [FindMcJets.fillOutput, TrueOutput.SequencesHaveLength] using h2
  · simpa [FindMcJets.fillOutput, FindMcJets.cleared] using h3

theorem FindJets_of_collected (N : Numerics α) (X : Externals α) (C : Config α)
    (topNode : PHCompositeNode α) (s : State α) (c : Constituents α)
    (h : FindJets.addConstituents N X C topNode s.qa = Except.ok c) :
    FindJets N X C topNode s = Except.ok
      { s with
        reco := (FindJets.fillOutput N
          (X.inclusive_jets C.m_jetalgo C.m_jetr C.m_recomb_scheme c.out.particles)
          s.reco c.out.qa).1,
        m_recoTree := s.m_recoTree ++ [(FindJets.fillOutput N
          (X.inclusive_jets C.m_jetalgo C.m_jetr C.m_recomb_scheme c.out.particles)
          s.reco c.out.qa).1],
        qa := (FindJets.fillOutput N
          (X.inclusive_jets C.m_jetalgo C.m_jetr C.m_recomb_scheme c.out.particles)
          s.reco c.out.qa).2 } := by
  unfold FindJets
  simp only [h]

theorem FindJets_of_fault (N : Numerics α) (X : Externals α) (C : Config α)
    (topNode : PHCompositeNode α) (s : State α) (fault : Fault)
    (h : FindJets.addConstituents N X C topNode s.qa = Except.error fault) :
    FindJets N X C topNode s = Except.error fault := by
  unfold FindJets
  simp only [h]

theorem FindJets_ok_inv (N : Numerics α) (X : Externals α) (C : Config α)
    (topNode : PHCompositeNode α) (s s1 : State α)
    (h : FindJets N X C topNode s = Except.ok s1) :
    ∃ c, FindJets.addConstituents N X C topNode s.qa = Except.ok c ∧
      s1.m_recoTree = s.m_recoTree ++ [s1.reco] ∧ s1.m_trueTree = s.m_trueTree ∧
      s1.tru = s.tru ∧
      s1.reco = (FindJets.fillOutput N
          (X.inclusive_jets C.m_jetalgo C.m_jetr C.m_recomb_scheme c.out.particles)
          s.reco c.out.qa).1 := by
  cases hc : FindJets.addConstituents N X C topNode s.qa with
  | error e =>
    rw [FindJets_of_fault N X C topNode s e hc] at h
    exact absurd h (by simp)
  | ok c =>
    rw [FindJets_of_collected N X C topNode s c hc] at h
    simp only [Except.ok.injEq] at h
    subst h
    exact ⟨c, rfl, rfl, rfl, rfl, rfl⟩

theorem FindMcJets_ok (N : Numerics α) (X : Externals α) (C : Config α)
    (topNode : PHCompositeNode α) (s : State α) :
    ∃ r s1, FindMcJets.addConstituents N X topNode s.qa = Except.ok r ∧
      FindMcJets N X C topNode s = Except.ok s1 ∧
      s1.m_trueTree = s.m_trueTree ++ [s1.tru] ∧ s1.m_recoTree = s.m_recoTree ∧
      s1.reco = s.reco ∧
      s1.tru = (FindMcJets.fillOutput N
          (X.inclusive_jets C.m_jetalgo C.m_jetr C.m_recomb_scheme r.out.particles)
          s.tru r.out.qa).1 := by
  obtain ⟨r, hr⟩ := AddParticles_total N X topNode
    { particles := [], fjMap := FjMap.empty, qa := s.qa }
  have hr2 : FindMcJets.addConstituents N X topNode s.qa = Except.ok r := hr
  refine ⟨r,
    { s with
      tru := (FindMcJets.fillOutput N
        (X.inclusive_jets C.m_jetalgo C.m_jetr C.m_recomb_scheme r.out.particles)
        s.tru r.out.qa).1,
      m_trueTree := s.m_trueTree ++ [(FindMcJets.fillOutput N
        (X.inclusive_jets C.m_jetalgo C.m_jetr C.m_recomb_scheme r.out.particles)
        s.tru r.out.qa).1],
      qa := (FindMcJets.fillOutput N
        (X.inclusive_jets C.m_jetalgo C.m_jetr C.m_recomb_scheme r.out.particles)
        s.tru r.out.qa).2 }, hr2, ?_, rfl, rfl, rfl, rfl⟩
  unfold FindMcJets
  simp only [hr2]

/-- C6, as the claim states it, fails: with tracks enabled (and nothing else) and the track
map missing, `FindJets` returns and has filled the reco tree, which was empty, with one
record. -/
theorem C6_counterexample_record_committed_without_track_map :
    Ex.cfgTracks.m_add_tracks = true ∧ Ex.noNodes.SvtxTrackMap = none ∧
    Ex.stateInit.m_recoTree = [] ∧
    ∃ s1, FindJets Ex.num Ex.ext Ex.cfgTracks Ex.noNodes Ex.stateInit = Except.ok s1 ∧
      s1.m_recoTree = [s1.reco] ∧ s1.m_recoTree.length = 1 :=
  ⟨rfl, rfl, rfl, _, rfl, rfl, rfl⟩

/-- C6 (amended): when tracks are enabled and the track map is missing, `FindJets` does
what it does with tracks disabled: it clusters what the other enabled collectors pooled
and, whenever it returns, has filled the reco tree with the record of that event; it
returns whenever no hard failure is on the way of the other collectors. -/
theorem C6_missing_track_map_acts_as_tracks_disabled (N : Numerics α) (X : Externals α)
    (C : Config α) (topNode : PHCompositeNode α) (s : State α)
    (htrk : C.m_add_tracks = true) (hmap : topNode.SvtxTrackMap = none) :
    FindJets N X C topNode s = FindJets N X { C with m_add_tracks := false } topNode s ∧
    (∀ s1, FindJets N X C topNode s = Except.ok s1 →
      s1.m_recoTree = s.m_recoTree ++ [s1.reco]) ∧
    (SourcesPresent C topNode →
      ∃ s1, FindJets N X C topNode s = Except.ok s1 ∧
        s1.m_recoTree = s.m_recoTree ++ [s1.reco]) := by
  refine ⟨?_, ?_, ?_⟩
  · simp only [FindJets, FindJets.addConstituents, runIf, AddTracks, htrk, hmap,
      AddClusters, AddClusters.emBlock, AddClusters.hBlock, if_true, Bool.false_eq_true,
      if_false]
  · intro s1 h1
    obtain ⟨c, _, ht, _⟩ := FindJets_ok_inv N X C topNode s s1 h1
    exact ht
  · intro hp
    obtain ⟨c, hc⟩ := FindJets.addConstituents_returns N X C topNode s.qa hp
    exact ⟨_, FindJets_of_collected N X C topNode s c hc, rfl⟩

/-- Witness of C6: tracks and calorimeter clusters enabled, the track map missing, the
vertex map empty. -/
theorem C6_witness :
    Ex.cfgCalo.m_add_tracks = true ∧ Ex.evEmptyVertexMap.SvtxTrackMap = none ∧
    SourcesPresent Ex.cfgCalo Ex.evEmptyVertexMap ∧
    ∃ s1, FindJets Ex.num Ex.ext Ex.cfgCalo Ex.evEmptyVertexMap Ex.stateInit = Except.ok s1 ∧
      s1.m_recoTree = Ex.stateInit.m_recoTree ++ [s1.reco] :=
  ⟨rfl, rfl, by unfold SourcesPresent; decide,
    (C6_missing_track_map_acts_as_tracks_disabled Ex.num Ex.ext Ex.cfgCalo
      Ex.evEmptyVertexMap Ex.stateInit rfl rfl).2.2 (by unfold SourcesPresent; decide)⟩

/-- C7, as the claim states it, fails: without a vertex map `AddClusters` does not return
normally, it runs into the failing `assert(vertexmap)`. -/
theorem C7_counterexample_missing_vertex_map_is_fatal :
    Ex.noNodes.GlobalVertexMap = none ∧
    AddClusters Ex.num Ex.ext Ex.cfgCalo Ex.noNodes Ex.emptyCollection
      = Except.error Fault.assertionFailure :=
  ⟨rfl, rfl⟩

/-- C7 (amended): `AddTracks` and `AddParticles` return normally on every input;
`AddClusters` returns normally whenever the vertex map is there (be it empty, its first
vertex null, or a cluster container missing) and stops in the failing assertion when the
vertex map is absent; `AddParticleFlow` returns normally whenever its container is there. -/
theorem C7_collectors_return_except_on_missing_vertex_map (N : Numerics α)
    (X : Externals α) (C : Config α) (topNode : PHCompositeNode α) (s : Collection α) :
    (∃ r, AddTracks N X C topNode s = Except.ok r) ∧
    (∃ r, AddParticles N X topNode s = Except.ok r) ∧
    (topNode.GlobalVertexMap.isSome = true → ∃ r, AddClusters N X C topNode s = Except.ok r) ∧
    (topNode.GlobalVertexMap = none →
      AddClusters N X C topNode s = Except.error Fault.assertionFailure) ∧
    (topNode.ParticleFlowElements.isSome = true →
      ∃ r, AddParticleFlow N X topNode s = Except.ok r) :=
  ⟨AddTracks_total N X C topNode s, AddParticles_total N X topNode s,
    AddClusters_returns N X C topNode s, AddClusters_missing_vertexmap N X C topNode s,
    AddParticleFlow_returns N X topNode s⟩

/-- Witness of C7: a vertex map that is there but empty, a vertex map that is missing, and
a particle-flow container that is there. -/
theorem C7_witness :
    (∃ r, AddClusters Ex.num Ex.ext Ex.cfgCalo Ex.evEmptyVertexMap Ex.emptyCollection
      = Except.ok r) ∧
    AddClusters Ex.num Ex.ext Ex.cfgCalo Ex.evOneTrack Ex.emptyCollection
      = Except.error Fault.assertionFailure ∧
    (∃ r, AddParticleFlow Ex.num Ex.ext Ex.evOneFlow Ex.emptyCollection = Except.ok r) :=
  ⟨(C7_collectors_return_except_on_missing_vertex_map Ex.num Ex.ext Ex.cfgCalo
      Ex.evEmptyVertexMap Ex.emptyCollection).2.2.1 rfl,
   (C7_collectors_return_except_on_missing_vertex_map Ex.num Ex.ext Ex.cfgCalo
      Ex.evOneTrack Ex.emptyCollection).2.2.2.1 rfl,
   (C7_collectors_return_except_on_missing_vertex_map Ex.num Ex.ext Ex.cfgCalo
      Ex.evOneFlow Ex.emptyCollection).2.2.2.2 rfl⟩

/-- C8, as the claim states it, fails: with calorimeter clusters enabled and no vertex
map, the invocation of `FindJets` ends in the failing assertion of `AddClusters` and
commits no record. -/
theorem C8_counterexample_aborted_invocation_commits_nothing :
    (Ex.cfgCalo.m_add_EMCal_clusters || Ex.cfgCalo.m_add_HCal_clusters) = true ∧
    Ex.evOneTrack.GlobalVertexMap = none ∧
    FindJets Ex.num Ex.ext Ex.cfgCalo Ex.evOneTrack Ex.stateInit
      = Except.error Fault.assertionFailure :=
  ⟨rfl, rfl, rfl⟩

/-- C8 (amended): every invocation of `FindMcJets` returns and has filled the truth tree
exactly once, and every invocation of `FindJets` that returns has filled the reco tree
exactly once; `FindJets` returns whenever no hard failure is on its way, and with
calorimeter clusters enabled and the vertex map absent it stops in the failing assertion
of `AddClusters` and commits nothing, whenever it gets as far as `AddClusters` (particle
flow is disabled or its container is there). The record that is filled holds the output
members as the call leaves them: the jet count and all jet-level and constituent-level sequences are
those of the jets clustered for that event. The tree of the other view is not touched. -/
theorem C8_record_committed_once_per_returning_invocation (N : Numerics α)
    (X : Externals α) (C : Config α) (topNode : PHCompositeNode α) (s : State α) :
    (∃ r s1, FindMcJets.addConstituents N X topNode s.qa = Except.ok r ∧
      FindMcJets N X C topNode s = Except.ok s1 ∧
      s1.m_trueTree = s.m_trueTree ++ [s1.tru] ∧ s1.m_recoTree = s.m_recoTree ∧
      s1.tru.m_trueNumJets
        = (X.inclusive_jets C.m_jetalgo C.m_jetr C.m_recomb_scheme r.out.particles).length ∧
      s1.tru.SequencesHaveLength
        (X.inclusive_jets C.m_jetalgo C.m_jetr C.m_recomb_scheme r.out.particles).length) ∧
    (∀ s1, FindJets N X C topNode s = Except.ok s1 →
      ∃ c, FindJets.addConstituents N X C topNode s.qa = Except.ok c ∧
        s1.m_recoTree = s.m_recoTree ++ [s1.reco] ∧ s1.m_trueTree = s.m_trueTree ∧
        s1.reco.m_recoNumJets
          = (X.inclusive_jets C.m_jetalgo C.m_jetr C.m_recomb_scheme c.out.particles).length ∧
        s1.reco.SequencesHaveLength
          (X.inclusive_jets C.m_jetalgo C.m_jetr C.m_recomb_scheme c.out.particles).length) ∧
    (SourcesPresent C topNode → ∃ s1, FindJets N X C topNode s = Except.ok s1) ∧
    ((C.m_add_particleflow = true → topNode.ParticleFlowElements.isSome = true) →
      (C.m_add_EMCal_clusters || C.m_add_HCal_clusters) = true →
      topNode.GlobalVertexMap = none →
      FindJets N X C topNode s = Except.error Fault.assertionFailure) := by
  refine ⟨?_, ?_, ?_, ?_⟩
  · obtain ⟨r, s1, hr, hs1, ht, hreco, _, htru⟩ := FindMcJets_ok N X C topNode s
    have hspec := FindMcJets.fillOutput_true_spec N
      (X.inclusive_jets C.m_jetalgo C.m_jetr C.m_recomb_scheme r.out.particles) s.tru r.out.qa
    rw [← htru] at hspec
    exact ⟨r, s1, hr, hs1, ht, hreco, hspec.1, hspec.2.1⟩
  · intro s1 h1
    obtain ⟨c, hc, ht, htrue, _, hreco⟩ := FindJets_ok_inv N X C topNode s s1 h1
    have hspec := FindJets.fillOutput_reco_spec N
      (X.inclusive_jets C.m_jetalgo C.m_jetr C.m_recomb_scheme c.out.particles) s.reco c.out.qa
    rw [← hreco] at hspec
    exact ⟨c, hc, ht, htrue, hspec.1, hspec.2.1⟩
  · intro hp
    obtain ⟨c, hc⟩ := FindJets.addConstituents_returns N X C topNode s.qa hp
    exact ⟨_, FindJets_of_collected N X C topNode s c hc⟩
  · intro hflow hcalo hv
    apply FindJets_of_fault
    obtain ⟨r1, h1⟩ := runIf_returns C.m_add_particleflow (AddParticleFlow N X topNode)
      { particles := [], fjMap := FjMap.empty, qa := s.qa }
      (fun hb => AddParticleFlow_returns N X topNode _ (hflow hb))
    obtain ⟨r2, h2⟩ := runIf_returns C.m_add_tracks (AddTracks N X C topNode) r1.out
      (fun _ => AddTracks_total N X C topNode _)
    have h3 : runIf (C.m_add_EMCal_clusters || C.m_add_HCal_clusters)
        (AddClusters N X C topNode) r2.out = Except.error Fault.assertionFailure := by
      unfold runIf
      rw [if_pos hcalo]
      exact AddClusters_missing_vertexmap N X C topNode r2.out hv
    unfold FindJets.addConstituents
    simp only [h1, h2, h3]

/-- Witness of C8: an event with a track on which `FindJets` returns, the same event with
calorimeter clusters enabled and no vertex map, on which it is aborted, and an event with
a particle-flow container and no vertex map on which it is aborted with particle flow and
calorimeter clusters enabled. -/
theorem C8_witness :
    (∃ s1, FindJets Ex.num Ex.ext Ex.cfgTracks Ex.evOneTrack Ex.stateInit = Except.ok s1 ∧
      s1.m_recoTree = Ex.stateInit.m_recoTree ++ [s1.reco] ∧ s1.reco.m_recoNumJets = 1) ∧
    FindJets Ex.num Ex.ext Ex.cfgCalo Ex.evOneTrack Ex.stateInit
      = Except.error Fault.assertionFailure ∧
    (Ex.cfgAll.m_add_particleflow = true ∧ Ex.evOneFlow.ParticleFlowElements.isSome = true ∧
      FindJets Ex.num Ex.ext Ex.cfgAll Ex.evOneFlow Ex.stateInit
        = Except.error Fault.assertionFailure) := by
  have h := C8_record_committed_once_per_returning_invocation Ex.num Ex.ext Ex.cfgTracks
    Ex.evOneTrack Ex.stateInit
  obtain ⟨s1, hs1⟩ := h.2.2.1 (by unfold SourcesPresent; decide)
  obtain ⟨c, hc, ht, _, hn, _⟩ := h.2.1 s1 hs1
  have hc2 : c = { out := _, nFlowAcc := _, nTrkAcc := _, nClustAcc := _ } :=
    Except.ok.inj (hc.symm.trans (rfl : FindJets.addConstituents Ex.num Ex.ext Ex.cfgTracks
      Ex.evOneTrack Ex.stateInit.qa = Except.ok _))
  refine ⟨⟨s1, hs1, ht, ?_⟩, ?_, rfl, rfl, ?_⟩
  · rw [hn, hc2]; rfl
  · exact (C8_record_committed_once_per_returning_invocation Ex.num Ex.ext Ex.cfgCalo
      Ex.evOneTrack Ex.stateInit).2.2.2 (fun hb => absurd hb (by decide)) rfl rfl
  · exact (C8_record_committed_once_per_returning_invocation Ex.num Ex.ext Ex.cfgAll
      Ex.evOneFlow Ex.stateInit).2.2.2 (fun _ => rfl) rfl rfl

theorem FindJets_leaves_match_ids (N : Numerics α) (X : Externals α) (C : Config α)
    (topNode : PHCompositeNode α) (s s1 : State α)
    (h : FindJets N X C topNode s = Except.ok s1) :
    s1.reco.m_recoCstMatchID = s.reco.m_recoCstMatchID := by
  obtain ⟨c, _, _, _, _, hreco⟩ := FindJets_ok_inv N X C topNode s s1 h
  rw [hreco]
  exact (FindJets.fillOutput_reco_spec N _ s.reco c.out.qa).2.2

/-- C9, the code at a failing input: on an event with one accepted track (id 7) the
provenance map holds `(TRACK, 7)` under the pool index 0 when clustering starts, and the
record that `FindJets` commits has one jet with one constituent but an empty
`m_recoCstMatchID`: no provenance identifier is written. Likewise `FindMcJets` on an event
with one final-state particle (barcode 11) commits a record with an empty `m_trueCstID`. -/
theorem C9_committed_record_has_no_provenance_identifier :
    (∃ c s1, FindJets.addConstituents Ex.num Ex.ext Ex.cfgTracks Ex.evOneTrack
        Ex.stateInit.qa = Except.ok c ∧
      c.out.fjMap.find 0 = some (SRC.TRACK, 7) ∧
      FindJets Ex.num Ex.ext Ex.cfgTracks Ex.evOneTrack Ex.stateInit = Except.ok s1 ∧
      s1.m_recoTree = [s1.reco] ∧ s1.reco.m_recoJetNCst = [1] ∧
      s1.reco.m_recoCstZ.map List.length = [1] ∧ s1.reco.m_recoCstMatchID = []) ∧
    (∃ r s1, FindMcJets.addConstituents Ex.num Ex.ext Ex.evOneParticle
        Ex.stateInit.qa = Except.ok r ∧
      r.out.fjMap.find 0 = some (SRC.PARTICLE, 11) ∧
      FindMcJets Ex.num Ex.ext Ex.cfgTracks Ex.evOneParticle Ex.stateInit = Except.ok s1 ∧
      s1.m_trueTree = [s1.tru] ∧ s1.tru.m_trueJetNCst = [1] ∧
      s1.tru.m_trueCstZ.map List.length = [1] ∧ s1.tru.m_trueCstID = []) :=
  ⟨⟨_, _, rfl, rfl, rfl, rfl, rfl, rfl, rfl⟩, ⟨_, _, rfl, rfl, rfl, rfl, rfl, rfl, rfl⟩⟩

/-- C10, as the claim states it, fails: the entry that `AddParticleFlow` makes for a
particle-flow element and the entry that `AddParticles` makes for a generator particle
carry the same source-kind tag, `PARTICLE`. -/
theorem C10_counterexample_flow_and_generator_share_tag :
    ∃ rf rp, AddParticleFlow Ex.num Ex.ext Ex.evOneFlow Ex.emptyCollection = Except.ok rf ∧
      AddParticles Ex.num Ex.ext Ex.evOneParticle Ex.emptyCollection = Except.ok rp ∧
      rf.out.fjMap.find 0 = some (SRC.PARTICLE, 5) ∧
      rp.out.fjMap.find 0 = some (SRC.PARTICLE, 11) ∧
      (rf.out.fjMap.find 0).map Prod.fst = (rp.out.fjMap.find 0).map Prod.fst :=
  ⟨_, _, rfl, rfl, rfl, rfl, rfl⟩

/-- C10 (amended): every loop inserts, for an object it accepts, an entry under the key
`iPart` whose source-kind tag is the one of `CollectorLoopKind.tag` (`TRACK` for
`AddTracks`, `PARTICLE` for `AddParticleFlow` and for `AddParticles`, `CEMC_CLUSTER`,
`HCALIN_CLUSTER`, `HCALOUT_CLUSTER` for the three loops of `AddClusters`) and whose
identifier is the id of the object; two loops write the same tag exactly when they are
the same loop or are the particle-flow and the generator-particle loop. -/
theorem C10_source_kind_tags (N : Numerics α) (X : Externals α) (C : Config α)
    (st : CollectorLoop α) (cl : ClusterLoop α) (vtx : GlobalVertex α) :
    (∀ track, X.IsGoodTrack track = true →
      (AddTracks.body N X C st (some track)).fjMap
        = st.fjMap.insert (st.iPart : Int) (CollectorLoopKind.tracks.tag, track.id)) ∧
    (∀ pflow, X.IsGoodParticleFlow pflow = true →
      (AddParticleFlow.body N X st (some pflow)).fjMap
        = st.fjMap.insert (st.iPart : Int) (CollectorLoopKind.particleFlow.tag, pflow.id)) ∧
    (∀ cluster,
      X.IsGoodEMCalCluster (X.GetECoreVec cluster { x := vtx.x, y := vtx.y, z := vtx.z })
        = true →
      (AddClusters.bodyEMC N X vtx cl (some cluster)).fjMap
        = cl.fjMap.insert (cl.iPart : Int) (CollectorLoopKind.emCalClusters.tag, cluster.id)) ∧
    (∀ cluster,
      X.IsGoodHCalCluster (X.GetECoreVec cluster { x := vtx.x, y := vtx.y, z := vtx.z })
        = true →
      (AddClusters.bodyHCALIN N X vtx cl (some cluster)).fjMap
        = cl.fjMap.insert (cl.iPart : Int)
            (CollectorLoopKind.innerHCalClusters.tag, cluster.id)) ∧
    (∀ cluster,
      X.IsGoodHCalCluster (X.GetECoreVec cluster { x := vtx.x, y := vtx.y, z := vtx.z })
        = true →
      (AddClusters.bodyHCALOUT N X vtx cl (some cluster)).fjMap
        = cl.fjMap.insert (cl.iPart : Int)
            (CollectorLoopKind.outerHCalClusters.tag, cluster.id)) ∧
    (∀ p : GenParticle α, p.status = 1 → X.IsGoodParticle p = true →
      (AddParticles.body N X st p).fjMap
        = st.fjMap.insert (st.iPart : Int)
            (CollectorLoopKind.generatorParticles.tag, p.barcode)) ∧
    (∀ k1 k2 : CollectorLoopKind, k1.tag = k2.tag ↔
      (k1 = k2 ∨
       (k1 = CollectorLoopKind.particleFlow ∧ k2 = CollectorLoopKind.generatorParticles) ∨
       (k1 = CollectorLoopKind.generatorParticles ∧ k2 = CollectorLoopKind.particleFlow))) := by
  refine ⟨?_, ?_, ?_, ?_, ?_, ?_, ?_⟩
  · intro track hg
    simp [AddTracks.body, hg, CollectorLoopKind.tag]
  · intro pflow hg
    simp [AddParticleFlow.body, hg, CollectorLoopKind.tag]
  · intro cluster hg
    simp [AddClusters.bodyEMC, AddClusters.body, hg, CollectorLoopKind.tag]
  · intro cluster hg
    simp [AddClusters.bodyHCALIN, AddClusters.body, hg, CollectorLoopKind.tag]
  · intro cluster hg
    simp [AddClusters.bodyHCALOUT, AddClusters.body, hg, CollectorLoopKind.tag]
  · intro p hf hg
    simp [AddParticles.body, hf, hg, CollectorLoopKind.tag]
  · intro k1 k2
    cases k1 <;> cases k2 <;> simp [CollectorLoopKind.tag]

/-- Witness of C10: one accepted object for each of the six loops. -/
theorem C10_witness :
    (AddTracks.body Ex.num Ex.ext Ex.cfgAll (CollectorLoop.init Ex.emptyCollection)
      (some Ex.goodTrack)).fjMap.find 0 = some (SRC.TRACK, 7) ∧
    (AddParticleFlow.body Ex.num Ex.ext (CollectorLoop.init Ex.emptyCollection)
      (some Ex.flowElement)).fjMap.find 0 = some (SRC.PARTICLE, 5) ∧
    (AddClusters.bodyEMC Ex.num Ex.ext Ex.vertex (ClusterLoop.init Ex.emptyCollection)
      (some Ex.cluster)).fjMap.find 0 = some (SRC.CEMC_CLUSTER, 3) ∧
    (AddClusters.bodyHCALIN Ex.num Ex.ext Ex.vertex (ClusterLoop.init Ex.emptyCollection)
      (some Ex.cluster)).fjMap.find 0 = some (SRC.HCALIN_CLUSTER, 3) ∧
    (AddClusters.bodyHCALOUT Ex.num Ex.ext Ex.vertex (ClusterLoop.init Ex.emptyCollection)
      (some Ex.cluster)).fjMap.find 0 = some (SRC.HCALOUT_CLUSTER, 3) ∧
    (AddParticles.body Ex.num Ex.ext (CollectorLoop.init Ex.emptyCollection)
      Ex.genParticle).fjMap.find 0 = some (SRC.PARTICLE, 11) := by
  have h := C10_source_kind_tags Ex.num Ex.ext Ex.cfgAll
    (CollectorLoop.init Ex.emptyCollection) (ClusterLoop.init Ex.emptyCollection) Ex.vertex
  refine ⟨?_, ?_, ?_, ?_, ?_, ?_⟩
  · rw [h.1 Ex.goodTrack rfl]; rfl
  · rw [h.2.1 Ex.flowElement rfl]; rfl
  · rw [h.2.2.1 Ex.cluster rfl]; rfl
  · rw [h.2.2.2.1 Ex.cluster rfl]; rfl
  · rw [h.2.2.2.2.1 Ex.cluster rfl]; rfl
  · rw [h.2.2.2.2.2.1 Ex.genParticle rfl rfl]; rfl

end Loops

/-! ## Jet finding: the features that are written -/

section Features

set_option linter.unusedSectionVars false

variable {α : Type} [Add α] [Sub α] [Mul α] [Div α] [IntCast α]

theorem FindJets.cstLoop_reco_closed (N : Numerics α) (jet : PseudoJet α)
    (csts : List (PseudoJet α)) (st : CstLoop α) :
    csts.foldl (FindJets.cstBody N
        (N.sqrt ((jet.px * jet.px) + (jet.py * jet.py) + (jet.pz * jet.pz)))
        (jet.phi_std N) (jet.pseudorapidity N)) st =
      { vecCstZ := st.vecCstZ ++ csts.map (featureZ N jet),
        vecCstDr := st.vecCstDr ++ csts.map (featureDr N jet),
        vecCstE := st.vecCstE ++ csts.map (fun c => c.E),
        vecCstJt := st.vecCstJt ++ csts.map (fun c => c.perp N),
        vecCstEta := st.vecCstEta ++ csts.map (fun c => c.pseudorapidity N),
        vecCstPhi := st.vecCstPhi ++ csts.map (fun c => c.phi_std N),
        qa := st.qa ++ csts.flatMap (fun c => objectFills N OBJECT.RCST c),
        nCst := st.nCst + csts.length } := by
  induction csts generalizing st with
  | nil => simp
  | cons c rest ih =>
    rw [List.foldl_cons, ih]
    simp [FindJets.cstBody, featureZ, featureDr, objectFills, List.append_assoc]
    omega

theorem FindMcJets.cstLoop_true_closed (N : Numerics α) (jet : PseudoJet α)
    (csts : List (PseudoJet α)) (st : CstLoop α) :
    csts.foldl (FindMcJets.cstBody N
        (N.sqrt ((jet.px * jet.px) + (jet.py * jet.py) + (jet.pz * jet.pz)))
        (jet.phi_std N) (jet.pseudorapidity N)) st =
      { vecCstZ := st.vecCstZ ++ csts.map (featureZ N jet),
        vecCstDr := st.vecCstDr ++ csts.map (featureDr N jet),
        vecCstE := st.vecCstE ++ csts.map (fun c => c.E),
        vecCstJt := st.vecCstJt ++ csts.map (fun c => c.perp N),
        vecCstEta := st.vecCstEta ++ csts.map (fun c => c.pseudorapidity N),
        vecCstPhi := st.vecCstPhi ++ csts.map (fun c => c.phi_std N),
        qa := st.qa ++ csts.flatMap (fun c => objectFills N OBJECT.TCST c),
        nCst := st.nCst + csts.length } := by
  induction csts generalizing st with
  | nil => simp
  | cons c rest ih =>
    rw [List.foldl_cons, ih]
    simp [FindMcJets.cstBody, featureZ, featureDr, objectFills, List.append_assoc]
    omega

theorem FindJets.jetBody_reco_closed (N : Numerics α) (st : RecoJetLoop α) (fj : ClusteredJet α) :
    FindJets.jetBody N st fj =
      { out :=
          { st.out with
            m_recoJetNCst := st.out.m_recoJetNCst ++ [fj.constituents.length],
            m_recoJetId := st.out.m_recoJetId ++ [st.iJet],
            m_recoJetTruId := st.out.m_recoJetTruId ++ [99999],
            m_recoJetE := st.out.m_recoJetE ++ [fj.jet.E],
            m_recoJetPt := st.out.m_recoJetPt ++ [fj.jet.perp N],
            m_recoJetEta := st.out.m_recoJetEta ++ [fj.jet.pseudorapidity N],
            m_recoJetPhi := st.out.m_recoJetPhi ++ [fj.jet.phi_std N],
            m_recoJetArea := st.out.m_recoJetArea ++ [((0 : Int) : α)],
            m_recoCstZ := st.out.m_recoCstZ ++ [fj.constituents.map (featureZ N fj.jet)],
            m_recoCstDr := st.out.m_recoCstDr ++ [fj.constituents.map (featureDr N fj.jet)],
            m_recoCstE := st.out.m_recoCstE ++ [fj.constituents.map (fun c => c.E)],
            m_recoCstJt := st.out.m_recoCstJt ++ [fj.constituents.map (fun c => c.perp N)],
            m_recoCstEta := st.out.m_recoCstEta
              ++ [fj.constituents.map (fun c => c.pseudorapidity N)],
            m_recoCstPhi := st.out.m_recoCstPhi
              ++ [fj.constituents.map (fun c => c.phi_std N)] },
        qa := st.qa ++ jetFills N 1 OBJECT.RJET OBJECT.RCST fj,
        iJet := st.iJet + 1,
        nRecJet := st.nRecJet + 1,
        nRecCst := st.nRecCst + fj.constituents.length } := by
  unfold FindJets.jetBody
  simp only [FindJets.cstLoop_reco_closed, jetFills, objectFills, List.nil_append,
    List.append_assoc]
  rfl

theorem range_shift_cons (a n : Nat) :
    a :: List.map (fun i => a + 1 + i) (List.range n)
      = List.map (fun i => a + i) (List.range (n + 1)) := by
  rw [List.range_succ_eq_map, List.map_cons, List.map_map]
  simp only [Nat.add_zero, List.cons.injEq, true_and]
  apply List.map_congr_left
  intro i _
  simp only [Function.comp_apply]
  omega

theorem FindJets.jetLoop_reco_closed (N : Numerics α) (fastjets : List (ClusteredJet α))
    (st : RecoJetLoop α) :
    fastjets.foldl (FindJets.jetBody N) st =
      { out :=
          { st.out with
            m_recoJetNCst := st.out.m_recoJetNCst
              ++ fastjets.map (fun fj => fj.constituents.length),
            m_recoJetId := st.out.m_recoJetId
              ++ (List.range fastjets.length).map (fun i => st.iJet + i),
            m_recoJetTruId := st.out.m_recoJetTruId ++ fastjets.map (fun _ => 99999),
            m_recoJetE := st.out.m_recoJetE ++ fastjets.map (fun fj => fj.jet.E),
            m_recoJetPt := st.out.m_recoJetPt ++ fastjets.map (fun fj => fj.jet.perp N),
            m_recoJetEta := st.out.m_recoJetEta
              ++ fastjets.map (fun fj => fj.jet.pseudorapidity N),
            m_recoJetPhi := st.out.m_recoJetPhi ++ fastjets.map (fun fj => fj.jet.phi_std N),
            m_recoJetArea := st.out.m_recoJetArea ++ fastjets.map (fun _ => ((0 : Int) : α)),
            m_recoCstZ := st.out.m_recoCstZ
              ++ fastjets.map (fun fj => fj.constituents.map (featureZ N fj.jet)),
            m_recoCstDr := st.out.m_recoCstDr
              ++ fastjets.map (fun fj => fj.constituents.map (featureDr N fj.jet)),
            m_recoCstE := st.out.m_recoCstE
              ++ fastjets.map (fun fj => fj.constituents.map (fun c => c.E)),
            m_recoCstJt := st.out.m_recoCstJt
              ++ fastjets.map (fun fj => fj.constituents.map (fun c => c.perp N)),
            m_recoCstEta := st.out.m_recoCstEta
              ++ fastjets.map (fun fj => fj.constituents.map (fun c => c.pseudorapidity N)),
            m_recoCstPhi := st.out.m_recoCstPhi
              ++ fastjets.map (fun fj => fj.constituents.map (fun c => c.phi_std N)) },
        qa := st.qa ++ fastjets.flatMap (jetFills N 1 OBJECT.RJET OBJECT.RCST),
        iJet := st.iJet + fastjets.length,
        nRecJet := st.nRecJet + fastjets.length,
        nRecCst := st.nRecCst + (fastjets.map (fun fj => fj.constituents.length)).sum } := by
  induction fastjets generalizing st with
  | nil => simp
  | cons fj rest ih =>
    rw [List.foldl_cons, ih, FindJets.jetBody_reco_closed]
    simp only [List.map_cons, List.length_cons, List.append_assoc, List.singleton_append,
      List.flatMap_cons, List.sum_cons, range_shift_cons]
    congr 1 <;> omega

theorem FindMcJets.jetBody_true_closed (N : Numerics α) (st : TrueJetLoop α) (fj : ClusteredJet α) :
    FindMcJets.jetBody N st fj =
      { out :=
          { st.out with
            m_trueJetNCst := st.out.m_trueJetNCst ++ [fj.constituents.length],
            m_trueJetId := st.out.m_trueJetId ++ [9999],
            m_trueJetTruId := st.out.m_trueJetTruId ++ [st.iTruJet],
            m_trueJetE := st.out.m_trueJetE ++ [fj.jet.E],
            m_trueJetPt := st.out.m_trueJetPt ++ [fj.jet.perp N],
            m_trueJetEta := st.out.m_trueJetEta ++ [fj.jet.pseudorapidity N],
            m_trueJetPhi := st.out.m_trueJetPhi ++ [fj.jet.phi_std N],
            m_trueJetArea := st.out.m_trueJetArea ++ [((0 : Int) : α)],
            m_trueCstZ := st.out.m_trueCstZ ++ [fj.constituents.map (featureZ N fj.jet)],
            m_trueCstDr := st.out.m_trueCstDr ++ [fj.constituents.map (featureDr N fj.jet)],
            m_trueCstE := st.out.m_trueCstE ++ [fj.constituents.map (fun c => c.E)],
            m_trueCstJt := st.out.m_trueCstJt ++ [fj.constituents.map (fun c => c.perp N)],
            m_trueCstEta := st.out.m_trueCstEta
              ++ [fj.constituents.map (fun c => c.pseudorapidity N)],
            m_trueCstPhi := st.out.m_trueCstPhi
              ++ [fj.constituents.map (fun c => c.phi_std N)] },
        qa := st.qa ++ jetFills N 0 OBJECT.TJET OBJECT.TCST fj,
        iTruJet := st.iTruJet + 1,
        nTruJet := st.nTruJet + 1,
        nTruCst := st.nTruCst + fj.constituents.length } := by
  unfold FindMcJets.jetBody
  simp only [FindMcJets.cstLoop_true_closed, jetFills, objectFills, List.nil_append,
    List.append_assoc]
  rfl

theorem FindMcJets.jetLoop_true_closed (N : Numerics α) (mcfastjets : List (ClusteredJet α))
    (st : TrueJetLoop α) :
    mcfastjets.foldl (FindMcJets.jetBody N) st =
      { out :=
          { st.out with
            m_trueJetNCst := st.out.m_trueJetNCst
              ++ mcfastjets.map (fun fj => fj.constituents.length),
            m_trueJetId := st.out.m_trueJetId ++ mcfastjets.map (fun _ => 9999),
            m_trueJetTruId := st.out.m_trueJetTruId
              ++ (List.range mcfastjets.length).map (fun i => st.iTruJet + i),
            m_trueJetE := st.out.m_trueJetE ++ mcfastjets.map (fun fj => fj.jet.E),
            m_trueJetPt := st.out.m_trueJetPt ++ mcfastjets.map (fun fj => fj.jet.perp N),
            m_trueJetEta := st.out.m_trueJetEta
              ++ mcfastjets.map (fun fj => fj.jet.pseudorapidity N),
            m_trueJetPhi := st.out.m_trueJetPhi ++ mcfastjets.map (fun fj => fj.jet.phi_std N),
            m_trueJetArea := st.out.m_trueJetArea ++ mcfastjets.map (fun _ => ((0 : Int) : α)),
            m_trueCstZ := st.out.m_trueCstZ
              ++ mcfastjets.map (fun fj => fj.constituents.map (featureZ N fj.jet)),
            m_trueCstDr := st.out.m_trueCstDr
              ++ mcfastjets.map (fun fj => fj.constituents.map (featureDr N fj.jet)),
            m_trueCstE := st.out.m_trueCstE
              ++ mcfastjets.map (fun fj => fj.constituents.map (fun c => c.E)),
            m_trueCstJt := st.out.m_trueCstJt
              ++ mcfastjets.map (fun fj => fj.constituents.map (fun c => c.perp N)),
            m_trueCstEta := st.out.m_trueCstEta
              ++ mcfastjets.map (fun fj => fj.constituents.map (fun c => c.pseudorapidity N)),
            m_trueCstPhi := st.out.m_trueCstPhi
              ++ mcfastjets.map (fun fj => fj.constituents.map (fun c => c.phi_std N)) },
        qa := st.qa ++ mcfastjets.flatMap (jetFills N 0 OBJECT.TJET OBJECT.TCST),
        iTruJet := st.iTruJet + mcfastjets.length,
        nTruJet := st.nTruJet + mcfastjets.length,
        nTruCst := st.nTruCst + (mcfastjets.map (fun fj => fj.constituents.length)).sum } := by
  induction mcfastjets generalizing st with
  | nil => simp
  | cons fj rest ih =>
    rw [List.foldl_cons, ih, FindMcJets.jetBody_true_closed]
    simp only [List.map_cons, List.length_cons, List.append_assoc, List.singleton_append,
      List.flatMap_cons, List.sum_cons, range_shift_cons]
    congr 1 <;> omega

theorem FindJets.fillOutput_reco_closed (N : Numerics α) (fastjets : List (ClusteredJet α))
    (o : RecoOutput α) (qa : List (QAFill α)) :
    FindJets.fillOutput N fastjets o qa =
      ({ m_recoNumJets := fastjets.length,
         m_recoPartonID := (-9999, -9999),
         m_recoPartonMomX := (((-9999 : Int) : α), ((-9999 : Int) : α)),
         m_recoPartonMomY := (((-9999 : Int) : α), ((-9999 : Int) : α)),
         m_recoPartonMomZ := (((-9999 : Int) : α), ((-9999 : Int) : α)),
         m_recoJetNCst := fastjets.map (fun fj => fj.constituents.length),
         m_recoJetId := List.range fastjets.length,
         m_recoJetTruId := fastjets.map (fun _ => 99999),
         m_recoJetE := fastjets.map (fun fj => fj.jet.E),
         m_recoJetPt := fastjets.map (fun fj => fj.jet.perp N),
         m_recoJetEta := fastjets.map (fun fj => fj.jet.pseudorapidity N),
         m_recoJetPhi := fastjets.map (fun fj => fj.jet.phi_std N),
         m_recoJetArea := fastjets.map (fun _ => ((0 : Int) : α)),
         m_recoCstMatchID := o.m_recoCstMatchID,
         m_recoCstZ := fastjets.map (fun fj => fj.constituents.map (featureZ N fj.jet)),
         m_recoCstDr := fastjets.map (fun fj => fj.constituents.map (featureDr N fj.jet)),
         m_recoCstE := fastjets.map (fun fj => fj.constituents.map (fun c => c.E)),
         m_recoCstJt := fastjets.map (fun fj => fj.constituents.map (fun c => c.perp N)),
         m_recoCstEta :=
           fastjets.map (fun fj => fj.constituents.map (fun c => c.pseudorapidity N)),
         m_recoCstPhi := fastjets.map (fun fj => fj.constituents.map (fun c => c.phi_std N)) },
       qa ++ fastjets.flatMap (jetFills N 1 OBJECT.RJET OBJECT.RCST) ++
         [QAFill.hNumObject OBJECT.RJET fastjets.length,
          QAFill.hNumObject OBJECT.RCST
            (fastjets.map (fun fj => fj.constituents.length)).sum]) := by
  unfold FindJets.fillOutput
  simp [FindJets.jetLoop_reco_closed, FindJets.cleared]

theorem FindMcJets.fillOutput_true_closed (N : Numerics α)
    (mcfastjets : List (ClusteredJet α)) (o : TrueOutput α) (qa : List (QAFill α)) :
    FindMcJets.fillOutput N mcfastjets o qa =
      ({ m_trueNumJets := mcfastjets.length,
         m_truePartonID := (-9999, -9999),
         m_truePartonMomX := (((-9999 : Int) : α), ((-9999 : Int) : α)),
         m_truePartonMomY := (((-9999 : Int) : α), ((-9999 : Int) : α)),
         m_truePartonMomZ := (((-9999 : Int) : α), ((-9999 : Int) : α)),
         m_trueJetNCst := mcfastjets.map (fun fj => fj.constituents.length),
         m_trueJetId := mcfastjets.map (fun _ => 9999),
         m_trueJetTruId := List.range mcfastjets.length,
         m_trueJetE := mcfastjets.map (fun fj => fj.jet.E),
         m_trueJetPt := mcfastjets.map (fun fj => fj.jet.perp N),
         m_trueJetEta := mcfastjets.map (fun fj => fj.jet.pseudorapidity N),
         m_trueJetPhi := mcfastjets.map (fun fj => fj.jet.phi_std N),
         m_trueJetArea := mcfastjets.map (fun _ => ((0 : Int) : α)),
         m_trueCstID := o.m_trueCstID,
         m_trueCstZ := mcfastjets.map (fun fj => fj.constituents.map (featureZ N fj.jet)),
         m_trueCstDr := mcfastjets.map (fun fj => fj.constituents.map (featureDr N fj.jet)),
         m_trueCstE := mcfastjets.map (fun fj => fj.constituents.map (fun c => c.E)),
         m_trueCstJt := mcfastjets.map (fun fj => fj.constituents.map (fun c => c.perp N)),
         m_trueCstEta :=
           mcfastjets.map (fun fj => fj.constituents.map (fun c => c.pseudorapidity N)),
         m_trueCstPhi :=
           mcfastjets.map (fun fj => fj.constituents.map (fun c => c.phi_std N)) },
       qa ++ mcfastjets.flatMap (jetFills N 0 OBJECT.TJET OBJECT.TCST) ++
         [QAFill.hNumObject OBJECT.TJET mcfastjets.length,
          QAFill.hNumObject OBJECT.TCST
            (mcfastjets.map (fun fj => fj.constituents.length)).sum]) := by
  unfold FindMcJets.fillOutput
  simp [FindMcJets.jetLoop_true_closed, FindMcJets.cleared]

end Features

/-! ## What the collectors pool: closed forms -/

theorem find_insert_self_of_lt (m : FjMap) (k : Int) (v : SRC × Int)
    (h : ∀ e ∈ m.entries, e.1 < k) : (m.insert k v).find k = some v := by
  unfold FjMap.find FjMap.insert
  simp only [insertEntry_of_lt k v m.entries h, List.lookup_append]
  have hnone : m.entries.lookup k = none := by
    rw [List.lookup_eq_none_iff]
    intro p hp
    have := h p hp
    simp only [bne_iff_ne, ne_eq]
    omega
  simp [hnone]

theorem find_insert_preserved_of_lt (m : FjMap) (k k1 : Int) (v w : SRC × Int)
    (h : ∀ e ∈ m.entries, e.1 < k) (hfind : m.find k1 = some w) :
    (m.insert k v).find k1 = some w := by
  unfold FjMap.find FjMap.insert at *
  simp only [insertEntry_of_lt k v m.entries h, List.lookup_append, hfind, Option.or_some]

theorem PoolCore.Canon.keys_lt {α : Type} {a : PoolCore α} (h : a.Canon) :
    ∀ e ∈ a.fjMap.entries, e.1 < (a.iPart : Int) := by
  intro e he
  have hk : e.1 ∈ a.fjMap.keys := List.mem_map_of_mem Prod.fst he
  rw [h.2.1, ← h.1] at hk
  exact ((mem_indices _ _).1 hk).2

theorem PoolCore.push_is_step {α : Type} (a : PoolCore α) (c : Candidate α) :
    PoolCore.Step a (a.push c) :=
  Or.inr ⟨c.toPseudoJet a.iPart, (c.src, c.id), rfl, rfl⟩

theorem PoolCore.pushAll_cons {α : Type} (a : PoolCore α) (c : Candidate α)
    (cs : List (Candidate α)) : a.pushAll (c :: cs) = (a.push c).pushAll cs := rfl

theorem PoolCore.pushAll_append {α : Type} (a : PoolCore α) (cs ds : List (Candidate α)) :
    a.pushAll (cs ++ ds) = (a.pushAll cs).pushAll ds := by
  simp [PoolCore.pushAll, List.foldl_append]

theorem PoolCore.pushAll_closed {α : Type} (cs : List (Candidate α)) (a : PoolCore α) :
    (a.pushAll cs).particles = a.particles ++ poolParticles a.iPart cs ∧
    (a.pushAll cs).iPart = a.iPart + cs.length ∧
    (a.pushAll cs).nAcc = a.nAcc + cs.length := by
  induction cs generalizing a with
  | nil => simp [PoolCore.pushAll, poolParticles]
  | cons c cs ih =>
    rw [PoolCore.pushAll_cons]
    obtain ⟨h1, h2, h3⟩ := ih (a.push c)
    rw [h1, h2, h3]
    simp only [PoolCore.push, poolParticles, List.append_assoc, List.singleton_append,
      List.length_cons, true_and]
    omega

theorem PoolCore.pushAll_canon {α : Type} (cs : List (Candidate α)) (a : PoolCore α)
    (h : a.Canon) : (a.pushAll cs).Canon := by
  induction cs generalizing a with
  | nil => exact h
  | cons c cs ih =>
    rw [PoolCore.pushAll_cons]
    exact ih _ ((a.push_is_step c).keeps_canon h)

theorem PoolCore.pushAll_find_preserved {α : Type} (cs : List (Candidate α))
    (a : PoolCore α) (h : a.Canon) (k : Int) (w : SRC × Int)
    (hfind : a.fjMap.find k = some w) : (a.pushAll cs).fjMap.find k = some w := by
  induction cs generalizing a with
  | nil => exact hfind
  | cons c cs ih =>
    rw [PoolCore.pushAll_cons]
    exact ih _ ((a.push_is_step c).keeps_canon h)
      (find_insert_preserved_of_lt _ _ _ _ _ h.keys_lt hfind)

theorem poolParticles_momentum {α : Type} (cs : List (Candidate α)) (i : Nat) :
    List.Forall₂ (fun p c => p.px = c.px ∧ p.py = c.py ∧ p.pz = c.pz ∧ p.E = c.E)
      (poolParticles i cs) cs := by
  induction cs generalizing i with
  | nil => exact List.Forall₂.nil
  | cons c cs ih => exact List.Forall₂.cons ⟨rfl, rfl, rfl, rfl⟩ (ih (i + 1))

theorem poolParticles_append {α : Type} (cs ds : List (Candidate α)) (i : Nat) :
    poolParticles i (cs ++ ds) = poolParticles i cs ++ poolParticles (i + cs.length) ds := by
  induction cs generalizing i with
  | nil => simp [poolParticles]
  | cons c cs ih =>
    have e : i + 1 + cs.length = i + (c :: cs).length := by
      simp only [List.length_cons]; omega
    show c.toPseudoJet i :: poolParticles (i + 1) (cs ++ ds)
      = (c.toPseudoJet i :: poolParticles (i + 1) cs) ++ poolParticles (i + (c :: cs).length) ds
    rw [ih, e, List.cons_append]

theorem poolParticles_length {α : Type} (cs : List (Candidate α)) (i : Nat) :
    (poolParticles i cs).length = cs.length := by
  induction cs generalizing i with
  | nil => rfl
  | cons c cs ih => simp [poolParticles, ih]

theorem PoolCore.pushAll_provenance {α : Type} (cs : List (Candidate α)) (a : PoolCore α)
    (h : a.Canon) :
    List.Forall₂
      (fun p c => p.px = c.px ∧ p.py = c.py ∧ p.pz = c.pz ∧ p.E = c.E ∧
        (a.pushAll cs).fjMap.find p.user_index = some (c.src, c.id))
      (poolParticles a.iPart cs) cs := by
  induction cs generalizing a with
  | nil => exact List.Forall₂.nil
  | cons c cs ih =>
    rw [PoolCore.pushAll_cons]
    have hc := (a.push_is_step c).keeps_canon h
    refine List.Forall₂.cons ⟨rfl, rfl, rfl, rfl, ?_⟩ (ih (a.push c) hc)
    exact PoolCore.pushAll_find_preserved cs _ hc _ _
      (find_insert_self_of_lt _ _ _ h.keys_lt)

theorem foldl_core_pushAll {α σ ι : Type} (core : σ → PoolCore α) (f : σ → ι → σ)
    (cand : ι → Option (Candidate α))
    (hf : ∀ st e, core (f st e) =
      match cand e with
      | none => core st
      | some c => (core st).push c)
    (l : List ι) (st : σ) :
    core (l.foldl f st) = (core st).pushAll (l.filterMap cand) := by
  induction l generalizing st with
  | nil => rfl
  | cons e rest ih =>
    rw [List.foldl_cons, ih, hf]
    cases hc : cand e with
    | none => simp [List.filterMap_cons, hc]
    | some c => simp [List.filterMap_cons, hc, PoolCore.pushAll]

section Pools

set_option linter.unusedSectionVars false

variable {α : Type} [Add α] [Sub α] [Mul α] [Div α] [IntCast α]

theorem AddParticleFlow.body_core (N : Numerics α) (X : Externals α) (st : CollectorLoop α)
    (entry : Option (ParticleFlowElement α)) :
    (AddParticleFlow.body N X st entry).core =
      match AddParticleFlow.candidate X entry with
      | none => st.core
      | some c => st.core.push c := by
  cases entry with
  | none => rfl
  | some pflow =>
    by_cases hg : X.IsGoodParticleFlow pflow = true
    · simp [AddParticleFlow.body, AddParticleFlow.candidate, hg, CollectorLoop.core,
        PoolCore.push, Candidate.toPseudoJet]
    · have hg2 : X.IsGoodParticleFlow pflow = false := by simpa using hg
      simp [AddParticleFlow.body, AddParticleFlow.candidate, hg2, CollectorLoop.core]

theorem AddTracks.track_body_core (N : Numerics α) (X : Externals α) (C : Config α)
    (st : CollectorLoop α) (entry : Option (SvtxTrack α)) :
    (AddTracks.body N X C st entry).core =
      match AddTracks.candidate N X C entry with
      | none => st.core
      | some c => st.core.push c := by
  cases entry with
  | none => rfl
  | some track =>
    by_cases hg : X.IsGoodTrack track = true
    · simp [AddTracks.body, AddTracks.candidate, hg, CollectorLoop.core,
        PoolCore.push, Candidate.toPseudoJet]
    · have hg2 : X.IsGoodTrack track = false := by simpa using hg
      simp [AddTracks.body, AddTracks.candidate, hg2, CollectorLoop.core]

theorem AddParticles.particle_body_core (N : Numerics α) (X : Externals α)
    (st : CollectorLoop α) (p : GenParticle α) :
    (AddParticles.body N X st p).core =
      match AddParticles.candidate X p with
      | none => st.core
      | some c => st.core.push c := by
  by_cases hf : p.status = 1
  · by_cases hg : X.IsGoodParticle p = true
    · simp [AddParticles.body, AddParticles.candidate, hf, hg, CollectorLoop.core,
        PoolCore.push, Candidate.toPseudoJet]
    · have hg2 : X.IsGoodParticle p = false := by simpa using hg
      simp [AddParticles.body, AddParticles.candidate, hf, hg2, CollectorLoop.core]
  · simp [AddParticles.body, AddParticles.candidate, hf, CollectorLoop.core]

theorem AddClusters.cluster_body_core (N : Numerics α) (X : Externals α)
    (isGood : Hep3Vector α → Bool) (src : SRC) (obj : OBJECT) (em : Bool)
    (vtx : GlobalVertex α) (st : ClusterLoop α) (entry : Option (RawCluster α)) :
    (AddClusters.body N X isGood src obj em vtx st entry).core =
      match AddClusters.candidate N X isGood src vtx entry with
      | none => st.core
      | some c => st.core.push c := by
  cases entry with
  | none => rfl
  | some cluster =>
    by_cases hg : isGood (X.GetECoreVec cluster { x := vtx.x, y := vtx.y, z := vtx.z }) = true
    · simp [AddClusters.body, AddClusters.candidate, clusterCandidate, hg, ClusterLoop.core,
        PoolCore.push, Candidate.toPseudoJet]
    · have hg2 :
          isGood (X.GetECoreVec cluster { x := vtx.x, y := vtx.y, z := vtx.z }) = false := by
        simpa using hg
      simp [AddClusters.body, AddClusters.candidate, hg2, ClusterLoop.core]

end Pools

section CollectorPools

set_option linter.unusedSectionVars false

variable {α : Type} [Add α] [Sub α] [Mul α] [Div α] [IntCast α]

theorem Returned.HasPool.particles_eq {s : Collection α} {r : Returned α}
    {cs : List (Candidate α)} (h : r.HasPool ((PoolCore.start s).pushAll cs)) :
    r.out.particles = s.particles ++ poolParticles s.particles.length cs := by
  rw [h.1, (PoolCore.pushAll_closed cs (PoolCore.start s)).1]
  rfl

theorem Returned.HasPool.provenance {s : Collection α} {r : Returned α}
    {cs : List (Candidate α)} (h : r.HasPool ((PoolCore.start s).pushAll cs))
    (hs : PoolInv s) :
    List.Forall₂
      (fun p c => p.px = c.px ∧ p.py = c.py ∧ p.pz = c.pz ∧ p.E = c.E ∧
        r.out.fjMap.find p.user_index = some (c.src, c.id))
      (poolParticles s.particles.length cs) cs := by
  have hp := PoolCore.pushAll_provenance cs (PoolCore.start s) ⟨rfl, hs.to_canon⟩
  rw [← h.2.1] at hp
  exact hp

theorem AddParticleFlow_pool (N : Numerics α) (X : Externals α)
    (topNode : PHCompositeNode α) (s : Collection α) (r : Returned α)
    (h : AddParticleFlow N X topNode s = Except.ok r) :
    r.HasPool ((PoolCore.start s).pushAll (AddParticleFlow.candidates X topNode)) := by
  unfold AddParticleFlow at h
  cases hc : topNode.ParticleFlowElements with
  | none => simp [hc] at h
  | some pflowContainer =>
    simp only [hc, Except.ok.injEq] at h
    subst h
    have hf := foldl_core_pushAll CollectorLoop.core (AddParticleFlow.body N X)
      (AddParticleFlow.candidate X) (AddParticleFlow.body_core N X) pflowContainer
      (CollectorLoop.init s)
    have hstart : (CollectorLoop.init s).core = PoolCore.start s := rfl
    rw [hstart] at hf
    simp only [AddParticleFlow.candidates, hc]
    rw [← hf]
    exact ⟨rfl, rfl, rfl⟩

theorem AddTracks_pool (N : Numerics α) (X : Externals α) (C : Config α)
    (topNode : PHCompositeNode α) (s : Collection α) (r : Returned α)
    (h : AddTracks N X C topNode s = Except.ok r) :
    r.HasPool ((PoolCore.start s).pushAll (AddTracks.candidates N X C topNode)) := by
  unfold AddTracks at h
  cases hm : topNode.SvtxTrackMap with
  | none =>
    simp only [hm, Except.ok.injEq] at h
    subst h
    simp only [AddTracks.candidates, hm]
    exact ⟨rfl, rfl, rfl⟩
  | some trackmap =>
    simp only [hm, Except.ok.injEq] at h
    subst h
    have hf := foldl_core_pushAll CollectorLoop.core (AddTracks.body N X C)
      (AddTracks.candidate N X C) (AddTracks.track_body_core N X C) trackmap
      (CollectorLoop.init s)
    have hstart : (CollectorLoop.init s).core = PoolCore.start s := rfl
    rw [hstart] at hf
    simp only [AddTracks.candidates, hm]
    rw [← hf]
    exact ⟨rfl, rfl, rfl⟩

theorem AddParticles_pool (N : Numerics α) (X : Externals α)
    (topNode : PHCompositeNode α) (s : Collection α) (r : Returned α)
    (h : AddParticles N X topNode s = Except.ok r) :
    r.HasPool ((PoolCore.start s).pushAll (AddParticles.candidates X topNode)) := by
  unfold AddParticles at h
  cases hm : topNode.PHHepMCGenEventMap with
  | none =>
    have hgp : topNode.genParticles = [] := by
      simp only [PHCompositeNode.genParticles, hm]
    simp only [hm, Except.ok.injEq] at h
    subst h
    rw [AddParticles.candidates, hgp]
    exact ⟨rfl, rfl, rfl⟩
  | some hepmceventmap =>
    cases he : hepmceventmap.lookup 1 with
    | none =>
      have hgp : topNode.genParticles = [] := by
        simp only [PHCompositeNode.genParticles, hm, he]
      simp only [hm, he, Except.ok.injEq] at h
      subst h
      rw [AddParticles.candidates, hgp]
      exact ⟨rfl, rfl, rfl⟩
    | some hepmcevent =>
      cases hg : hepmcevent.getEvent with
      | none =>
        have hgp : topNode.genParticles = [] := by
          simp only [PHCompositeNode.genParticles, hm, he, hg]
        simp only [hm, he, hg, Except.ok.injEq] at h
        subst h
        rw [AddParticles.candidates, hgp]
        exact ⟨rfl, rfl, rfl⟩
      | some hepMCevent =>
        have hgp : topNode.genParticles = hepMCevent := by
          simp only [PHCompositeNode.genParticles, hm, he, hg]
        simp only [hm, he, hg, Except.ok.injEq] at h
        subst h
        have hf := foldl_core_pushAll CollectorLoop.core (AddParticles.body N X)
          (AddParticles.candidate X) (AddParticles.particle_body_core N X) hepMCevent
          (CollectorLoop.init s)
        have hstart : (CollectorLoop.init s).core = PoolCore.start s := rfl
        rw [hstart] at hf
        rw [AddParticles.candidates, hgp, ← hf]
        exact ⟨rfl, rfl, rfl⟩

theorem AddClusters.emBlock_core (N : Numerics α) (X : Externals α) (C : Config α)
    (topNode : PHCompositeNode α) (vtx : GlobalVertex α) (st : ClusterLoop α) :
    (AddClusters.emBlock N X C topNode vtx st = none ∧
      AddClusters.emCandidates N X C topNode vtx = none) ∨
    ∃ st1 em, AddClusters.emBlock N X C topNode vtx st = some st1 ∧
      AddClusters.emCandidates N X C topNode vtx = some em ∧
      st1.core = st.core.pushAll em := by
  unfold AddClusters.emBlock AddClusters.emCandidates
  by_cases hem : C.m_add_EMCal_clusters = true
  · cases hc : topNode.CLUSTER_CEMC with
    | none => left; simp [hem]
    | some clustersEMC =>
      right
      simp only [hem, if_true]
      exact ⟨_, _, rfl, rfl, foldl_core_pushAll ClusterLoop.core
        (AddClusters.bodyEMC N X vtx)
        (AddClusters.candidate N X X.IsGoodEMCalCluster SRC.CEMC_CLUSTER vtx)
        (AddClusters.cluster_body_core N X X.IsGoodEMCalCluster SRC.CEMC_CLUSTER
          OBJECT.ECLUST true vtx) clustersEMC st⟩
  · right
    simp only [hem, Bool.false_eq_true, if_false]
    exact ⟨st, [], rfl, rfl, rfl⟩

theorem AddClusters.hBlock_pool (N : Numerics α) (X : Externals α) (C : Config α)
    (topNode : PHCompositeNode α) (vtx : GlobalVertex α) (st : ClusterLoop α) :
    (AddClusters.hBlock N X C topNode vtx st).HasPool
      (st.core.pushAll (AddClusters.hCandidates N X C topNode vtx)) := by
  unfold AddClusters.hBlock AddClusters.hCandidates
  by_cases hh : C.m_add_HCal_clusters = true
  · cases hin : topNode.CLUSTER_HCALIN with
    | none =>
      simp only [hh, if_true]
      exact ⟨rfl, rfl, rfl⟩
    | some clustersHCALIN =>
      have r1 := foldl_core_pushAll ClusterLoop.core (AddClusters.bodyHCALIN N X vtx)
        (AddClusters.candidate N X X.IsGoodHCalCluster SRC.HCALIN_CLUSTER vtx)
        (AddClusters.cluster_body_core N X X.IsGoodHCalCluster SRC.HCALIN_CLUSTER
          OBJECT.HCLUST false vtx) clustersHCALIN st
      cases hout : topNode.CLUSTER_HCALOUT with
      | none =>
        simp only [hh, if_true, List.append_nil]
        rw [← r1]
        exact ⟨rfl, rfl, rfl⟩
      | some clustersHCALOUT =>
        simp only [hh, if_true]
        have r2 := foldl_core_pushAll ClusterLoop.core (AddClusters.bodyHCALOUT N X vtx)
          (AddClusters.candidate N X X.IsGoodHCalCluster SRC.HCALOUT_CLUSTER vtx)
          (AddClusters.cluster_body_core N X X.IsGoodHCalCluster SRC.HCALOUT_CLUSTER
            OBJECT.HCLUST false vtx) clustersHCALOUT
          (clustersHCALIN.foldl (AddClusters.bodyHCALIN N X vtx) st)
        rw [PoolCore.pushAll_append, ← r1, ← r2]
        exact ⟨rfl, rfl, rfl⟩
  · simp only [hh, Bool.false_eq_true, if_false]
    exact ⟨rfl, rfl, rfl⟩

theorem AddClusters_pool (N : Numerics α) (X : Externals α) (C : Config α)
    (topNode : PHCompositeNode α) (s : Collection α) (r : Returned α)
    (h : AddClusters N X C topNode s = Except.ok r) :
    r.HasPool ((PoolCore.start s).pushAll (AddClusters.candidates N X C topNode)) := by
  unfold AddClusters at h
  unfold AddClusters.candidates
  cases hv : topNode.GlobalVertexMap with
  | none => simp [hv] at h
  | some vertexmap =>
    cases vertexmap with
    | nil =>
      simp only [hv, Except.ok.injEq] at h
      subst h
      exact ⟨rfl, rfl, rfl⟩
    | cons first rest =>
      cases first with
      | none =>
        simp only [hv, Except.ok.injEq] at h
        subst h
        exact ⟨rfl, rfl, rfl⟩
      | some vtx =>
        rcases AddClusters.emBlock_core N X C topNode vtx (ClusterLoop.init s) with
          ⟨hb, hc⟩ | ⟨st1, em, hb, hc, hcore⟩
        · simp only [hv, hb, Except.ok.injEq] at h
          subst h
          simp only [hc]
          exact ⟨rfl, rfl, rfl⟩
        · simp only [hv, hb, Except.ok.injEq] at h
          subst h
          simp only [hc]
          have hstart : (ClusterLoop.init s).core = PoolCore.start s := rfl
          rw [PoolCore.pushAll_append, ← hstart, ← hcore]
          exact AddClusters.hBlock_pool N X C topNode vtx st1

theorem runIf_particles (b : Bool) (collector : Collection α → Except Fault (Returned α))
    (cs : List (Candidate α)) (s : Collection α) (r : Returned α)
    (hrun : ∀ r, collector s = Except.ok r →
      r.out.particles = s.particles ++ poolParticles s.particles.length cs)
    (h : runIf b collector s = Except.ok r) :
    r.out.particles
      = s.particles ++ poolParticles s.particles.length (if b = true then cs else []) := by
  unfold runIf at h
  cases b with
  | true => simpa using hrun r (by simpa using h)
  | false =>
    have h2 : Returned.unchanged s = r := by simpa using h
    subst h2
    simp [Returned.unchanged, poolParticles]

theorem FindJets.addConstituents_particles (N : Numerics α) (X : Externals α)
    (C : Config α) (topNode : PHCompositeNode α) (qa : List (QAFill α))
    (c : Constituents α) (h : FindJets.addConstituents N X C topNode qa = Except.ok c) :
    c.out.particles = poolParticles 0 (FindJets.candidates N X C topNode) := by
  unfold FindJets.addConstituents at h
  simp only at h
  cases h1 : runIf C.m_add_particleflow (AddParticleFlow N X topNode)
      { particles := [], fjMap := FjMap.empty, qa := qa } with
  | error e => simp [h1] at h
  | ok r1 =>
    cases h2 : runIf C.m_add_tracks (AddTracks N X C topNode) r1.out with
    | error e => simp [h1, h2] at h
    | ok r2 =>
      cases h3 : runIf (C.m_add_EMCal_clusters || C.m_add_HCal_clusters)
          (AddClusters N X C topNode) r2.out with
      | error e => simp [h1, h2, h3] at h
      | ok r3 =>
        simp only [h1, h2, h3, Except.ok.injEq] at h
        subst h
        have p1 := runIf_particles _ _ (AddParticleFlow.candidates X topNode) _ r1
          (fun r hr => (AddParticleFlow_pool N X topNode _ r hr).particles_eq) h1
        have p2 := runIf_particles _ _ (AddTracks.candidates N X C topNode) _ r2
          (fun r hr => (AddTracks_pool N X C topNode _ r hr).particles_eq) h2
        have p3 := runIf_particles _ _ (AddClusters.candidates N X C topNode) _ r3
          (fun r hr => (AddClusters_pool N X C topNode _ r hr).particles_eq) h3
        simp only [List.nil_append, List.length_nil] at p1
        simp only
        rw [p3, p2, p1]
        unfold FindJets.candidates
        simp only [poolParticles_append, List.length_append, poolParticles_length,
          Nat.zero_add, List.append_assoc]

theorem FindJets.addConstituents_sources (N : Numerics α) (X : Externals α)
    (C : Config α) (topNode : PHCompositeNode α) (qa : List (QAFill α))
    (c : Constituents α) (h : FindJets.addConstituents N X C topNode qa = Except.ok c) :
    SourcesPresent C topNode := by
  unfold FindJets.addConstituents at h
  simp only at h
  cases h1 : runIf C.m_add_particleflow (AddParticleFlow N X topNode)
      { particles := [], fjMap := FjMap.empty, qa := qa } with
  | error e => simp [h1] at h
  | ok r1 =>
    cases h2 : runIf C.m_add_tracks (AddTracks N X C topNode) r1.out with
    | error e => simp [h1, h2] at h
    | ok r2 =>
      cases h3 : runIf (C.m_add_EMCal_clusters || C.m_add_HCal_clusters)
          (AddClusters N X C topNode) r2.out with
      | error e => simp [h1, h2, h3] at h
      | ok r3 =>
        refine ⟨?_, ?_⟩
        · intro hb
          cases hc : topNode.ParticleFlowElements with
          | none => simp [runIf, hb, AddParticleFlow, hc] at h1
          | some x => rfl
        · intro hb
          cases hc : topNode.GlobalVertexMap with
          | none =>
            rw [runIf, if_pos hb, AddClusters_missing_vertexmap N X C topNode r2.out hc] at h3
            exact absurd h3 (by simp)
          | some x => rfl

theorem FindJets.fastjets_eq (N : Numerics α) (X : Externals α) (C : Config α)
    (topNode : PHCompositeNode α) (s : State α) (c : Constituents α)
    (h : FindJets.addConstituents N X C topNode s.qa = Except.ok c) :
    FindJets.fastjets N X C topNode s = X.inclusive_jets C.m_jetalgo C.m_jetr
      C.m_recomb_scheme (poolParticles 0 (FindJets.candidates N X C topNode)) := by
  unfold FindJets.fastjets
  simp only [h]
  rw [FindJets.addConstituents_particles N X C topNode s.qa c h]

theorem FindMcJets.mcfastjets_eq (N : Numerics α) (X : Externals α) (C : Config α)
    (topNode : PHCompositeNode α) (s : State α) :
    FindMcJets.mcfastjets N X C topNode s = X.inclusive_jets C.m_jetalgo C.m_jetr
      C.m_recomb_scheme (poolParticles 0 (AddParticles.candidates X topNode)) := by
  obtain ⟨r, hr⟩ := AddParticles_total N X topNode
    { particles := [], fjMap := FjMap.empty, qa := s.qa }
  have hp := (AddParticles_pool N X topNode _ r hr).particles_eq
  simp only [List.nil_append, List.length_nil] at hp
  have hr2 : FindMcJets.addConstituents N X topNode s.qa = Except.ok r := hr
  unfold FindMcJets.mcfastjets
  simp only [hr2]
  rw [hp]

theorem FindJets_record (N : Numerics α) (X : Externals α) (C : Config α)
    (topNode : PHCompositeNode α) (s s1 : State α)
    (h : FindJets N X C topNode s = Except.ok s1) :
    SourcesPresent C topNode ∧
    s1.m_recoTree = s.m_recoTree ++ [s1.reco] ∧
    ∃ qa, s1.reco =
      (FindJets.fillOutput N (FindJets.fastjets N X C topNode s) s.reco qa).1 ∧
      s1.qa = (FindJets.fillOutput N (FindJets.fastjets N X C topNode s) s.reco qa).2 := by
  obtain ⟨c, hc, ht, _, _, hreco⟩ := FindJets_ok_inv N X C topNode s s1 h
  refine ⟨FindJets.addConstituents_sources N X C topNode s.qa c hc, ht, c.out.qa, ?_, ?_⟩
  · rw [hreco]
    unfold FindJets.fastjets
    simp only [hc]
  · rw [FindJets_of_collected N X C topNode s c hc] at h
    simp only [Except.ok.injEq] at h
    subst h
    unfold FindJets.fastjets
    simp only [hc]

theorem FindMcJets_record (N : Numerics α) (X : Externals α) (C : Config α)
    (topNode : PHCompositeNode α) (s : State α) :
    ∃ s1 qa, FindMcJets N X C topNode s = Except.ok s1 ∧
      s1.m_trueTree = s.m_trueTree ++ [s1.tru] ∧
      s1.tru =
        (FindMcJets.fillOutput N (FindMcJets.mcfastjets N X C topNode s) s.tru qa).1 ∧
      s1.qa = (FindMcJets.fillOutput N (FindMcJets.mcfastjets N X C topNode s) s.tru qa).2 := by
  obtain ⟨r, hr⟩ := AddParticles_total N X topNode
    { particles := [], fjMap := FjMap.empty, qa := s.qa }
  have hr2 : FindMcJets.addConstituents N X topNode s.qa = Except.ok r := hr
  have hj : FindMcJets.mcfastjets N X C topNode s = X.inclusive_jets C.m_jetalgo C.m_jetr
      C.m_recomb_scheme r.out.particles := by
    unfold FindMcJets.mcfastjets
    simp only [hr2]
  refine ⟨
    { s with
      tru := (FindMcJets.fillOutput N
        (X.inclusive_jets C.m_jetalgo C.m_jetr C.m_recomb_scheme r.out.particles)
        s.tru r.out.qa).1,
      m_trueTree := s.m_trueTree ++ [(FindMcJets.fillOutput N
        (X.inclusive_jets C.m_jetalgo C.m_jetr C.m_recomb_scheme r.out.particles)
        s.tru r.out.qa).1],
      qa := (FindMcJets.fillOutput N
        (X.inclusive_jets C.m_jetalgo C.m_jetr C.m_recomb_scheme r.out.particles)
        s.tru r.out.qa).2 }, r.out.qa, ?_, rfl, ?_, ?_⟩
  · unfold FindMcJets
    simp only [hr2]
  · rw [hj]
  · rw [hj]

end CollectorPools

/-! ## The stored features -/

theorem forEachConstituent_map {α β : Type} (R : ClusteredJet α → PseudoJet α → β → Prop)
    (f : ClusteredJet α → PseudoJet α → β) (jets : List (ClusteredJet α))
    (h : ∀ fj ∈ jets, ∀ cst ∈ fj.constituents, R fj cst (f fj cst)) :
    ForEachConstituent R (jets.map (fun fj => fj.constituents.map (f fj))) jets := by
  unfold ForEachConstituent
  rw [List.forall₂_map_left_iff, List.forall₂_same]
  intro fj hfj
  rw [List.forall₂_map_left_iff, List.forall₂_same]
  exact h fj hfj

theorem forall₂_map_of_forall {α β : Type} (R : β → α → Prop) (f : α → β) (l : List α)
    (h : ∀ x ∈ l, R (f x) x) : List.Forall₂ R (l.map f) l := by
  rw [List.forall₂_map_left_iff, List.forall₂_same]
  exact h

theorem sumsq_pos (a b c : ℝ) (h : a ≠ 0 ∨ b ≠ 0 ∨ c ≠ 0) : 0 < a ^ 2 + b ^ 2 + c ^ 2 := by
  rcases h with h | h | h
  · have := sq_pos_of_ne_zero (a := a) h
    nlinarith [sq_nonneg b, sq_nonneg c]
  · have := sq_pos_of_ne_zero (a := b) h
    nlinarith [sq_nonneg a, sq_nonneg c]
  · have := sq_pos_of_ne_zero (a := c) h
    nlinarith [sq_nonneg a, sq_nonneg b]

theorem featureZ_exact (N : Numerics ℝ) (hN : N.Exact) (jet cst : PseudoJet ℝ) :
    featureZ N jet cst = (cst.px ^ 2 + cst.py ^ 2 + cst.pz ^ 2)
      / Real.sqrt (jet.px ^ 2 + jet.py ^ 2 + jet.pz ^ 2) := by
  unfold featureZ
  rw [hN.1]
  simp only [sq]

theorem featureDr_exact (N : Numerics ℝ) (hN : N.Exact) (jet cst : PseudoJet ℝ) :
    featureDr N jet cst = Real.sqrt ((cst.phi_std N - jet.phi_std N) ^ 2
      + (cst.pseudorapidity N - jet.pseudorapidity N) ^ 2) := by
  unfold featureDr
  rw [hN.1]
  simp only [sq]

theorem ExR.num_exact : ExR.num.Exact := ⟨rfl, rfl, rfl⟩

theorem ForEachConstituent.first {α β : Type} {R : ClusteredJet α → PseudoJet α → β → Prop}
    {stored : List (List β)} {jets : List (ClusteredJet α)}
    (h : ForEachConstituent R stored jets) (v : β) (vs : List β) (rest : List (List β))
    (fj : ClusteredJet α) (restj : List (ClusteredJet α)) (cst : PseudoJet α)
    (csts : List (PseudoJet α)) (hs : stored = (v :: vs) :: rest) (hj : jets = fj :: restj)
    (hc : fj.constituents = cst :: csts) : R fj cst v := by
  unfold ForEachConstituent at h
  rw [hs, hj, List.forall₂_cons] at h
  have h1 := h.1
  rw [hc, List.forall₂_cons] at h1
  exact h1.1

/-- C11: for every jet with non-zero 3-momentum and every constituent of it, the stored
`z` is `(px_c² + py_c² + pz_c²) / sqrt (px_j² + py_j² + pz_j²)`, so that
`z · |p_jet| = |p_cst|²`, in the record of `FindJets` and in the record of `FindMcJets`
(`double` arithmetic taken as exact). -/
theorem C11_stored_z_is_momentum_ratio (N : Numerics ℝ) (hN : N.Exact) (X : Externals ℝ)
    (C : Config ℝ) (topNode : PHCompositeNode ℝ) (s : State ℝ) :
    (∀ s1, FindJets N X C topNode s = Except.ok s1 →
      ForEachConstituent
        (fun fj cst z => (fj.jet.px ≠ 0 ∨ fj.jet.py ≠ 0 ∨ fj.jet.pz ≠ 0) →
          z = (cst.px ^ 2 + cst.py ^ 2 + cst.pz ^ 2)
            / Real.sqrt (fj.jet.px ^ 2 + fj.jet.py ^ 2 + fj.jet.pz ^ 2) ∧
          z * Real.sqrt (fj.jet.px ^ 2 + fj.jet.py ^ 2 + fj.jet.pz ^ 2)
            = cst.px ^ 2 + cst.py ^ 2 + cst.pz ^ 2)
        s1.reco.m_recoCstZ (FindJets.fastjets N X C topNode s)) ∧
    (∃ s1, FindMcJets N X C topNode s = Except.ok s1 ∧
      ForEachConstituent
        (fun fj cst z => (fj.jet.px ≠ 0 ∨ fj.jet.py ≠ 0 ∨ fj.jet.pz ≠ 0) →
          z = (cst.px ^ 2 + cst.py ^ 2 + cst.pz ^ 2)
            / Real.sqrt (fj.jet.px ^ 2 + fj.jet.py ^ 2 + fj.jet.pz ^ 2) ∧
          z * Real.sqrt (fj.jet.px ^ 2 + fj.jet.py ^ 2 + fj.jet.pz ^ 2)
            = cst.px ^ 2 + cst.py ^ 2 + cst.pz ^ 2)
        s1.tru.m_trueCstZ (FindMcJets.mcfastjets N X C topNode s)) := by
  have key : ∀ (fj : ClusteredJet ℝ) (cst : PseudoJet ℝ),
      (fj.jet.px ≠ 0 ∨ fj.jet.py ≠ 0 ∨ fj.jet.pz ≠ 0) →
      featureZ N fj.jet cst = (cst.px ^ 2 + cst.py ^ 2 + cst.pz ^ 2)
            / Real.sqrt (fj.jet.px ^ 2 + fj.jet.py ^ 2 + fj.jet.pz ^ 2) ∧
      featureZ N fj.jet cst * Real.sqrt (fj.jet.px ^ 2 + fj.jet.py ^ 2 + fj.jet.pz ^ 2)
            = cst.px ^ 2 + cst.py ^ 2 + cst.pz ^ 2 := by
    intro fj cst hj
    have hpos := Real.sqrt_pos.2 (sumsq_pos _ _ _ hj)
    rw [featureZ_exact N hN]
    exact ⟨rfl, div_mul_cancel₀ _ (ne_of_gt hpos)⟩
  refine ⟨?_, ?_⟩
  · intro s1 h1
    obtain ⟨_, _, qa, hreco, _⟩ := FindJets_record N X C topNode s s1 h1
    rw [hreco, FindJets.fillOutput_reco_closed]
    exact forEachConstituent_map _ _ _ (fun fj _ cst _ => key fj cst)
  · obtain ⟨s1, qa, h1, _, htru, _⟩ := FindMcJets_record N X C topNode s
    refine ⟨s1, h1, ?_⟩
    rw [htru, FindMcJets.fillOutput_true_closed]
    exact forEachConstituent_map _ _ _ (fun fj _ cst _ => key fj cst)

/-- Witness of C11: the real-valued event with one track and one cluster; the first jet is
the track with momentum `(3, 4, 0)`. -/
theorem C11_witness :
    ExR.num.Exact ∧
    ∃ s1 z rest, FindJets ExR.num ExR.ext ExR.cfg ExR.event ExR.stateInit = Except.ok s1 ∧
      s1.reco.m_recoCstZ = [z] :: rest ∧
      z * Real.sqrt ((3 : ℝ) ^ 2 + 4 ^ 2 + 0 ^ 2) = 3 ^ 2 + 4 ^ 2 + 0 ^ 2 :=
  ⟨ExR.num_exact, _, _, _, rfl, rfl,
    (((C11_stored_z_is_momentum_ratio ExR.num ExR.num_exact ExR.ext ExR.cfg ExR.event
      ExR.stateInit).1 _ rfl).first _ _ _ _ _ _ _ rfl rfl rfl (Or.inl (show (3 : ℝ) ≠ 0 by norm_num))).2⟩

theorem dr_facts (a b : ℝ) :
    0 ≤ Real.sqrt (a ^ 2 + b ^ 2) ∧
    Real.sqrt (a ^ 2 + b ^ 2) ^ 2 = a ^ 2 + b ^ 2 ∧
    |a| ≤ Real.sqrt (a ^ 2 + b ^ 2) ∧
    |b| ≤ Real.sqrt (a ^ 2 + b ^ 2) ∧
    (Real.sqrt (a ^ 2 + b ^ 2) = 0 ↔ a = 0 ∧ b = 0) := by
  have hnn : 0 ≤ a ^ 2 + b ^ 2 := by positivity
  refine ⟨Real.sqrt_nonneg _, Real.sq_sqrt hnn, ?_, ?_, ?_⟩
  · exact Real.abs_le_sqrt (by nlinarith [sq_nonneg b])
  · exact Real.abs_le_sqrt (by nlinarith [sq_nonneg a])
  · rw [Real.sqrt_eq_zero hnn]
    constructor
    · intro h
      have ha : a ^ 2 = 0 := by nlinarith [sq_nonneg a, sq_nonneg b]
      have hb : b ^ 2 = 0 := by nlinarith [sq_nonneg a, sq_nonneg b]
      exact ⟨pow_eq_zero_iff (two_ne_zero) |>.1 ha, pow_eq_zero_iff (two_ne_zero) |>.1 hb⟩
    · rintro ⟨rfl, rfl⟩
      norm_num

/-- C12: for every jet and every constituent of it, the stored `Δr` is non-negative and
`Δr² = (φ_cst − φ_jet)² + (η_cst − η_jet)²`, where the azimuths and pseudorapidities are
the stored ones and the azimuth difference is the raw difference (no wrap-around); hence
`Δr ≥ |φ_cst − φ_jet|`, `Δr ≥ |η_cst − η_jet|`, and `Δr = 0` exactly when both
differences are 0. In the record of `FindJets` and in the record of `FindMcJets` (`double`
arithmetic taken as exact). -/
theorem C12_stored_dr (N : Numerics ℝ) (hN : N.Exact) (X : Externals ℝ)
    (C : Config ℝ) (topNode : PHCompositeNode ℝ) (s : State ℝ) :
    (∀ s1, FindJets N X C topNode s = Except.ok s1 →
      ForEachConstituent
        (fun fj cst dr =>
          0 ≤ dr ∧
          dr ^ 2 = (cst.phi_std N - fj.jet.phi_std N) ^ 2
            + (cst.pseudorapidity N - fj.jet.pseudorapidity N) ^ 2 ∧
          |cst.phi_std N - fj.jet.phi_std N| ≤ dr ∧
          |cst.pseudorapidity N - fj.jet.pseudorapidity N| ≤ dr ∧
          (dr = 0 ↔ cst.phi_std N - fj.jet.phi_std N = 0 ∧
            cst.pseudorapidity N - fj.jet.pseudorapidity N = 0))
        s1.reco.m_recoCstDr (FindJets.fastjets N X C topNode s) ∧
      ForEachConstituent (fun _ cst phi => phi = cst.phi_std N)
        s1.reco.m_recoCstPhi (FindJets.fastjets N X C topNode s) ∧
      ForEachConstituent (fun _ cst eta => eta = cst.pseudorapidity N)
        s1.reco.m_recoCstEta (FindJets.fastjets N X C topNode s) ∧
      List.Forall₂ (fun phi fj => phi = fj.jet.phi_std N)
        s1.reco.m_recoJetPhi (FindJets.fastjets N X C topNode s) ∧
      List.Forall₂ (fun eta fj => eta = fj.jet.pseudorapidity N)
        s1.reco.m_recoJetEta (FindJets.fastjets N X C topNode s)) ∧
    (∃ s1, FindMcJets N X C topNode s = Except.ok s1 ∧
      ForEachConstituent
        (fun fj cst dr =>
          0 ≤ dr ∧
          dr ^ 2 = (cst.phi_std N - fj.jet.phi_std N) ^ 2
            + (cst.pseudorapidity N - fj.jet.pseudorapidity N) ^ 2 ∧
          |cst.phi_std N - fj.jet.phi_std N| ≤ dr ∧
          |cst.pseudorapidity N - fj.jet.pseudorapidity N| ≤ dr ∧
          (dr = 0 ↔ cst.phi_std N - fj.jet.phi_std N = 0 ∧
            cst.pseudorapidity N - fj.jet.pseudorapidity N = 0))
        s1.tru.m_trueCstDr (FindMcJets.mcfastjets N X C topNode s) ∧
      ForEachConstituent (fun _ cst phi => phi = cst.phi_std N)
        s1.tru.m_trueCstPhi (FindMcJets.mcfastjets N X C topNode s) ∧
      ForEachConstituent (fun _ cst eta => eta = cst.pseudorapidity N)
        s1.tru.m_trueCstEta (FindMcJets.mcfastjets N X C topNode s) ∧
      List.Forall₂ (fun phi fj => phi = fj.jet.phi_std N)
        s1.tru.m_trueJetPhi (FindMcJets.mcfastjets N X C topNode s) ∧
      List.Forall₂ (fun eta fj => eta = fj.jet.pseudorapidity N)
        s1.tru.m_trueJetEta (FindMcJets.mcfastjets N X C topNode s)) := by
  have key : ∀ (fj : ClusteredJet ℝ) (cst : PseudoJet ℝ),
      0 ≤ featureDr N fj.jet cst ∧
      featureDr N fj.jet cst ^ 2 = (cst.phi_std N - fj.jet.phi_std N) ^ 2
        + (cst.pseudorapidity N - fj.jet.pseudorapidity N) ^ 2 ∧
      |cst.phi_std N - fj.jet.phi_std N| ≤ featureDr N fj.jet cst ∧
      |cst.pseudorapidity N - fj.jet.pseudorapidity N| ≤ featureDr N fj.jet cst ∧
      (featureDr N fj.jet cst = 0 ↔ cst.phi_std N - fj.jet.phi_std N = 0 ∧
        cst.pseudorapidity N - fj.jet.pseudorapidity N = 0) := by
    intro fj cst
    rw [featureDr_exact N hN]
    exact dr_facts _ _
  refine ⟨?_, ?_⟩
  · intro s1 h1
    obtain ⟨_, _, qa, hreco, _⟩ := FindJets_record N X C topNode s s1 h1
    rw [hreco, FindJets.fillOutput_reco_closed]
    exact ⟨forEachConstituent_map _ _ _ (fun fj _ cst _ => key fj cst),
      forEachConstituent_map _ _ _ (fun _ _ _ _ => rfl),
      forEachConstituent_map _ _ _ (fun _ _ _ _ => rfl),
      forall₂_map_of_forall _ _ _ (fun _ _ => rfl),
      forall₂_map_of_forall _ _ _ (fun _ _ => rfl)⟩
  · obtain ⟨s1, qa, h1, _, htru, _⟩ := FindMcJets_record N X C topNode s
    refine ⟨s1, h1, ?_⟩
    rw [htru, FindMcJets.fillOutput_true_closed]
    exact ⟨forEachConstituent_map _ _ _ (fun fj _ cst _ => key fj cst),
      forEachConstituent_map _ _ _ (fun _ _ _ _ => rfl),
      forEachConstituent_map _ _ _ (fun _ _ _ _ => rfl),
      forall₂_map_of_forall _ _ _ (fun _ _ => rfl),
      forall₂_map_of_forall _ _ _ (fun _ _ => rfl)⟩

/-- Witness of C12: the real-valued event with one track and one cluster; the first jet
is the track, which is its own only constituent, so its `Δr` is 0. -/
theorem C12_witness :
    ExR.num.Exact ∧
    ∃ s1 dr rest, FindJets ExR.num ExR.ext ExR.cfg ExR.event ExR.stateInit = Except.ok s1 ∧
      s1.reco.m_recoCstDr = [dr] :: rest ∧ 0 ≤ dr ∧ dr = 0 := by
  have h := (((C12_stored_dr ExR.num ExR.num_exact ExR.ext ExR.cfg ExR.event
      ExR.stateInit).1 _ rfl).1.first _ _ _ _ _ _ _ rfl rfl rfl)
  exact ⟨ExR.num_exact, _, _, _, rfl, rfl, h.1, h.2.2.2.2.2 ⟨sub_self _, sub_self _⟩⟩

section StoredFeatures

set_option linter.unusedSectionVars false

variable {α : Type} [Add α] [Sub α] [Mul α] [Div α] [IntCast α]

/-- C13: for every constituent the stored `jt` is the constituent's own transverse
momentum with respect to the beam, `perp()`, the value that is filled into the
constituent pt QA histogram; it does not depend on the four-momentum of the jet: jets with
the same constituents give the same stored `jt` sequences. -/
theorem C13_stored_jt_is_constituent_pt (N : Numerics α) (X : Externals α) (C : Config α)
    (topNode : PHCompositeNode α) (s : State α) :
    (∀ s1, FindJets N X C topNode s = Except.ok s1 →
      ForEachConstituent (fun _ cst jt => jt = cst.perp N)
        s1.reco.m_recoCstJt (FindJets.fastjets N X C topNode s) ∧
      ∀ fj ∈ FindJets.fastjets N X C topNode s, ∀ cst ∈ fj.constituents,
        QAFill.hObjectQA OBJECT.RCST INFO.PT (cst.perp N) ∈ s1.qa) ∧
    (∃ s1, FindMcJets N X C topNode s = Except.ok s1 ∧
      ForEachConstituent (fun _ cst jt => jt = cst.perp N)
        s1.tru.m_trueCstJt (FindMcJets.mcfastjets N X C topNode s) ∧
      ∀ fj ∈ FindMcJets.mcfastjets N X C topNode s, ∀ cst ∈ fj.constituents,
        QAFill.hObjectQA OBJECT.TCST INFO.PT (cst.perp N) ∈ s1.qa) ∧
    (∀ (jets1 jets2 : List (ClusteredJet α)) (o1 o2 : RecoOutput α) (t1 t2 : TrueOutput α)
        (qa1 qa2 : List (QAFill α)),
      jets1.map (fun fj => fj.constituents) = jets2.map (fun fj => fj.constituents) →
      (FindJets.fillOutput N jets1 o1 qa1).1.m_recoCstJt
        = (FindJets.fillOutput N jets2 o2 qa2).1.m_recoCstJt ∧
      (FindMcJets.fillOutput N jets1 t1 qa1).1.m_trueCstJt
        = (FindMcJets.fillOutput N jets2 t2 qa2).1.m_trueCstJt) := by
  refine ⟨?_, ?_, ?_⟩
  · intro s1 h1
    obtain ⟨_, _, qa, hreco, hqa⟩ := FindJets_record N X C topNode s s1 h1
    rw [hreco, hqa, FindJets.fillOutput_reco_closed]
    refine ⟨forEachConstituent_map _ _ _ (fun _ _ _ _ => rfl), ?_⟩
    intro fj hfj cst hcst
    simp only [List.mem_append, List.mem_flatMap, jetFills, objectFills]
    exact Or.inl (Or.inr ⟨fj, hfj, Or.inl ⟨cst, hcst, by simp⟩⟩)
  · obtain ⟨s1, qa, h1, _, htru, hqa⟩ := FindMcJets_record N X C topNode s
    refine ⟨s1, h1, ?_⟩
    rw [htru, hqa, FindMcJets.fillOutput_true_closed]
    refine ⟨forEachConstituent_map _ _ _ (fun _ _ _ _ => rfl), ?_⟩
    intro fj hfj cst hcst
    simp only [List.mem_append, List.mem_flatMap, jetFills, objectFills]
    exact Or.inl (Or.inr ⟨fj, hfj, Or.inl ⟨cst, hcst, by simp⟩⟩)
  · intro jets1 jets2 o1 o2 t1 t2 qa1 qa2 h
    have e : ∀ jets : List (ClusteredJet α),
        jets.map (fun fj => fj.constituents.map (fun c => c.perp N))
          = (jets.map (fun fj => fj.constituents)).map (fun cs => cs.map (fun c => c.perp N)) := by
      intro jets
      rw [List.map_map]
      rfl
    simp only [FindJets.fillOutput_reco_closed, FindMcJets.fillOutput_true_closed]
    rw [e jets1, e jets2, h]
    exact ⟨rfl, rfl⟩

/-- Witness of C13: the event with one accepted track, which is its own jet. -/
theorem C13_witness :
    (∃ s1, FindJets Ex.num Ex.ext Ex.cfgTracks Ex.evOneTrack Ex.stateInit = Except.ok s1 ∧
      s1.reco.m_recoCstJt = [[5]] ∧
      QAFill.hObjectQA OBJECT.RCST INFO.PT 5 ∈ s1.qa) ∧
    (FindJets.fillOutput Ex.num
        [{ jet := { px := 3, py := 4, pz := 0, E := 5, user_index := 0 },
           constituents := [{ px := 3, py := 4, pz := 0, E := 5, user_index := 0 }] }]
        Ex.recoInit []).1.m_recoCstJt
      = (FindJets.fillOutput Ex.num
        [{ jet := { px := 0, py := 0, pz := 9, E := 9, user_index := 1 },
           constituents := [{ px := 3, py := 4, pz := 0, E := 5, user_index := 0 }] }]
        Ex.recoInit []).1.m_recoCstJt := by
  have e : Int.sqrt 25 = 5 := by
    rw [show (25 : Int) = 5 * 5 by norm_num, Int.sqrt_eq]
    rfl
  have h := C13_stored_jt_is_constituent_pt Ex.num Ex.ext Ex.cfgTracks Ex.evOneTrack
    Ex.stateInit
  refine ⟨⟨_, rfl, ?_, ?_⟩, ?_⟩
  · show [[Int.sqrt 25]] = [[5]]
    rw [e]
  · have h1 : QAFill.hObjectQA OBJECT.RCST INFO.PT (Int.sqrt 25) ∈ (_ : List (QAFill Int)) :=
      (h.1 _ rfl).2 _ (List.mem_cons_self _ _) _ (List.mem_cons_self _ _)
    rw [e] at h1
    exact h1
  · exact (h.2.2 _ _ Ex.recoInit Ex.recoInit Ex.trueInit Ex.trueInit [] [] rfl).1

end StoredFeatures

/-! ## The committed record: areas, lengths, ids, and independence of earlier calls -/

section Records

set_option linter.unusedSectionVars false

variable {α : Type} [Add α] [Sub α] [Mul α] [Div α] [IntCast α]


theorem FindJets.fillOutput_reco_prior (N : Numerics α) (jets : List (ClusteredJet α))
    (o o2 : RecoOutput α) (qa qa2 : List (QAFill α)) :
    (FindJets.fillOutput N jets o2 qa2).1
      = { (FindJets.fillOutput N jets o qa).1 with m_recoCstMatchID := o2.m_recoCstMatchID } := by
  simp only [FindJets.fillOutput_reco_closed]

theorem FindMcJets.fillOutput_true_prior (N : Numerics α) (jets : List (ClusteredJet α))
    (o o2 : TrueOutput α) (qa qa2 : List (QAFill α)) :
    (FindMcJets.fillOutput N jets o2 qa2).1
      = { (FindMcJets.fillOutput N jets o qa).1 with m_trueCstID := o2.m_trueCstID } := by
  simp only [FindMcJets.fillOutput_true_closed]

theorem FindJets.fillOutput_reco_matchID (N : Numerics α) (jets : List (ClusteredJet α))
    (o : RecoOutput α) (qa : List (QAFill α)) :
    (FindJets.fillOutput N jets o qa).1.m_recoCstMatchID = o.m_recoCstMatchID := by
  simp only [FindJets.fillOutput_reco_closed]

theorem FindMcJets.fillOutput_true_cstID (N : Numerics α) (jets : List (ClusteredJet α))
    (o : TrueOutput α) (qa : List (QAFill α)) :
    (FindMcJets.fillOutput N jets o qa).1.m_trueCstID = o.m_trueCstID := by
  simp only [FindMcJets.fillOutput_true_closed]

theorem FindJets.fastjets_state_irrelevant (N : Numerics α) (X : Externals α) (C : Config α)
    (topNode : PHCompositeNode α) (s s2 : State α) (h : SourcesPresent C topNode) :
    FindJets.fastjets N X C topNode s2 = FindJets.fastjets N X C topNode s := by
  obtain ⟨c, hc⟩ := FindJets.addConstituents_returns N X C topNode s.qa h
  obtain ⟨c2, hc2⟩ := FindJets.addConstituents_returns N X C topNode s2.qa h
  rw [FindJets.fastjets_eq N X C topNode s c hc, FindJets.fastjets_eq N X C topNode s2 c2 hc2]

theorem FindMcJets.mcfastjets_state_irrelevant (N : Numerics α) (X : Externals α)
    (C : Config α) (topNode : PHCompositeNode α) (s s2 : State α) :
    FindMcJets.mcfastjets N X C topNode s2 = FindMcJets.mcfastjets N X C topNode s := by
  rw [FindMcJets.mcfastjets_eq, FindMcJets.mcfastjets_eq]

theorem FindJets_from_other_state (N : Numerics α) (X : Externals α) (C : Config α)
    (topNode : PHCompositeNode α) (s s2 s1 : State α)
    (h : FindJets N X C topNode s = Except.ok s1) :
    ∃ r, FindJets N X C topNode s2 = Except.ok r ∧
      r.reco = { s1.reco with m_recoCstMatchID := s2.reco.m_recoCstMatchID } ∧
      r.m_recoTree = s2.m_recoTree ++ [r.reco] := by
  obtain ⟨hsrc, _, qa, hreco, _⟩ := FindJets_record N X C topNode s s1 h
  obtain ⟨c2, hc2⟩ := FindJets.addConstituents_returns N X C topNode s2.qa hsrc
  have h2 := FindJets_of_collected N X C topNode s2 c2 hc2
  obtain ⟨_, ht2, qa2, hreco2, _⟩ := FindJets_record N X C topNode s2 _ h2
  refine ⟨_, h2, ?_, ht2⟩
  rw [hreco2, hreco, FindJets.fastjets_state_irrelevant N X C topNode s s2 hsrc]
  exact FindJets.fillOutput_reco_prior N _ _ _ _ _

theorem FindMcJets_from_other_state (N : Numerics α) (X : Externals α) (C : Config α)
    (topNode : PHCompositeNode α) (s s2 s1 : State α)
    (h : FindMcJets N X C topNode s = Except.ok s1) :
    ∃ r, FindMcJets N X C topNode s2 = Except.ok r ∧
      r.tru = { s1.tru with m_trueCstID := s2.tru.m_trueCstID } ∧
      r.m_trueTree = s2.m_trueTree ++ [r.tru] := by
  obtain ⟨t1, qa, h1, _, htru, _⟩ := FindMcJets_record N X C topNode s
  obtain ⟨t2, qa2, h2, ht2, htru2, _⟩ := FindMcJets_record N X C topNode s2
  rw [h] at h1
  simp only [Except.ok.injEq] at h1
  subst h1
  refine ⟨t2, h2, ?_, ht2⟩
  rw [htru2, htru, FindMcJets.mcfastjets_state_irrelevant N X C topNode s s2]
  exact FindMcJets.fillOutput_true_prior N _ _ _ _ _

/-- C15: after `FindJets` returns, the stored number of jets is the number of jets the
clustering returned, every jet-level and every constituent-level (outer) output sequence
has that length, and the lengths of the inner sequences of each of the six constituent
members are, jet by jet, the stored constituent counts. The same after `FindMcJets`,
which always returns. -/
theorem C15_output_sequences_are_parallel (N : Numerics α) (X : Externals α) (C : Config α)
    (topNode : PHCompositeNode α) (s : State α) :
    (∀ s1, FindJets N X C topNode s = Except.ok s1 →
      s1.reco.m_recoNumJets = (FindJets.fastjets N X C topNode s).length ∧
      s1.reco.SequencesHaveLength s1.reco.m_recoNumJets ∧
      s1.reco.m_recoJetNCst
        = (FindJets.fastjets N X C topNode s).map (fun fj => fj.constituents.length) ∧
      s1.reco.m_recoCstZ.map List.length = s1.reco.m_recoJetNCst ∧
      s1.reco.m_recoCstDr.map List.length = s1.reco.m_recoJetNCst ∧
      s1.reco.m_recoCstE.map List.length = s1.reco.m_recoJetNCst ∧
      s1.reco.m_recoCstJt.map List.length = s1.reco.m_recoJetNCst ∧
      s1.reco.m_recoCstEta.map List.length = s1.reco.m_recoJetNCst ∧
      s1.reco.m_recoCstPhi.map List.length = s1.reco.m_recoJetNCst) ∧
    (∃ s1, FindMcJets N X C topNode s = Except.ok s1 ∧
      s1.tru.m_trueNumJets = (FindMcJets.mcfastjets N X C topNode s).length ∧
      s1.tru.SequencesHaveLength s1.tru.m_trueNumJets ∧
      s1.tru.m_trueJetNCst
        = (FindMcJets.mcfastjets N X C topNode s).map (fun fj => fj.constituents.length) ∧
      s1.tru.m_trueCstZ.map List.length = s1.tru.m_trueJetNCst ∧
      s1.tru.m_trueCstDr.map List.length = s1.tru.m_trueJetNCst ∧
      s1.tru.m_trueCstE.map List.length = s1.tru.m_trueJetNCst ∧
      s1.tru.m_trueCstJt.map List.length = s1.tru.m_trueJetNCst ∧
      s1.tru.m_trueCstEta.map List.length = s1.tru.m_trueJetNCst ∧
      s1.tru.m_trueCstPhi.map List.length = s1.tru.m_trueJetNCst) := by
  refine ⟨?_, ?_⟩
  · intro s1 h1
    obtain ⟨_, _, qa, hreco, _⟩ := FindJets_record N X C topNode s s1 h1
    rw [hreco, FindJets.fillOutput_reco_closed]
    simp [RecoOutput.SequencesHaveLength, Function.comp_def]
  · obtain ⟨s1, qa, h1, _, htru, _⟩ := FindMcJets_record N X C topNode s
    refine ⟨s1, h1, ?_⟩
    rw [htru, FindMcJets.fillOutput_true_closed]
    simp [TrueOutput.SequencesHaveLength, Function.comp_def]

/-- Witness of C15: three tracks of which one is accepted; one jet with one constituent. -/
theorem C15_witness :
    ∃ s1, FindJets Ex.num Ex.ext Ex.cfgTracks Ex.evThreeTracks Ex.stateInit = Except.ok s1 ∧
      s1.reco.m_recoNumJets = 1 ∧ s1.reco.m_recoJetNCst = [1] ∧
      s1.reco.SequencesHaveLength s1.reco.m_recoNumJets ∧
      s1.reco.m_recoCstZ.map List.length = s1.reco.m_recoJetNCst :=
  ⟨_, rfl, rfl, rfl,
    ((C15_output_sequences_are_parallel Ex.num Ex.ext Ex.cfgTracks Ex.evThreeTracks
      Ex.stateInit).1 _ rfl).2.1,
    ((C15_output_sequences_are_parallel Ex.num Ex.ext Ex.cfgTracks Ex.evThreeTracks
      Ex.stateInit).1 _ rfl).2.2.2.1⟩

/-- C16: the output sequences that `FindJets` leaves do not depend on the state it starts
from: if it returns from `s` it returns from any other state `s2`, and the two records
agree in every member that `FindJets` writes (they are equal up to `m_recoCstMatchID`,
which no code writes and which is carried over from the starting state); hence they are
equal when the two states agree on that member, and processing the event a second time
right after the first gives the same record and commits it a second time. The same for
`FindMcJets`, which always returns. -/
theorem C16_output_independent_of_prior_content (N : Numerics α) (X : Externals α)
    (C : Config α) (topNode : PHCompositeNode α) (s s2 : State α) :
    (∀ s1, FindJets N X C topNode s = Except.ok s1 →
      (∃ r, FindJets N X C topNode s2 = Except.ok r ∧
        r.reco = { s1.reco with m_recoCstMatchID := s2.reco.m_recoCstMatchID } ∧
        (s2.reco.m_recoCstMatchID = s.reco.m_recoCstMatchID → r.reco = s1.reco)) ∧
      (∃ r, FindJets N X C topNode s1 = Except.ok r ∧ r.reco = s1.reco ∧
        r.m_recoTree = s.m_recoTree ++ [s1.reco, s1.reco])) ∧
    (∃ t1, FindMcJets N X C topNode s = Except.ok t1 ∧
      (∃ r, FindMcJets N X C topNode s2 = Except.ok r ∧
        r.tru = { t1.tru with m_trueCstID := s2.tru.m_trueCstID } ∧
        (s2.tru.m_trueCstID = s.tru.m_trueCstID → r.tru = t1.tru)) ∧
      (∃ r, FindMcJets N X C topNode t1 = Except.ok r ∧ r.tru = t1.tru ∧
        r.m_trueTree = s.m_trueTree ++ [t1.tru, t1.tru])) := by
  refine ⟨?_, ?_⟩
  · intro s1 h1
    obtain ⟨_, ht, qa, hreco, _⟩ := FindJets_record N X C topNode s s1 h1
    have hid : s1.reco.m_recoCstMatchID = s.reco.m_recoCstMatchID := by
      rw [hreco]
      exact FindJets.fillOutput_reco_matchID N _ _ _
    refine ⟨?_, ?_⟩
    · obtain ⟨r, hr, hrec, _⟩ := FindJets_from_other_state N X C topNode s s2 s1 h1
      refine ⟨r, hr, hrec, ?_⟩
      intro he
      rw [hrec, he, ← hid]
    · obtain ⟨r, hr, hrec, htree⟩ := FindJets_from_other_state N X C topNode s s1 s1 h1
      have hsame : r.reco = s1.reco := hrec
      refine ⟨r, hr, hsame, ?_⟩
      rw [htree, hsame, ht, List.append_assoc]
      rfl
  · obtain ⟨t1, qa, h1, ht, htru, _⟩ := FindMcJets_record N X C topNode s
    have hid : t1.tru.m_trueCstID = s.tru.m_trueCstID := by
      rw [htru]
      exact FindMcJets.fillOutput_true_cstID N _ _ _
    refine ⟨t1, h1, ?_, ?_⟩
    · obtain ⟨r, hr, hrec, _⟩ := FindMcJets_from_other_state N X C topNode s s2 t1 h1
      refine ⟨r, hr, hrec, ?_⟩
      intro he
      rw [hrec, he, ← hid]
    · obtain ⟨r, hr, hrec, htree⟩ := FindMcJets_from_other_state N X C topNode s t1 t1 h1
      have hsame : r.tru = t1.tru := hrec
      refine ⟨r, hr, hsame, ?_⟩
      rw [htree, hsame, ht, List.append_assoc]
      rfl

/-- Witness of C16: the one-track event processed from the initial state and from a state
whose output sequences hold the leftovers of a two-jet event. -/
theorem C16_witness :
    ∃ s1 r, FindJets Ex.num Ex.ext Ex.cfgTracks Ex.evOneTrack Ex.stateInit = Except.ok s1 ∧
      FindJets Ex.num Ex.ext Ex.cfgTracks Ex.evOneTrack
        { Ex.stateInit with
          reco :=
            { Ex.recoInit with
              m_recoNumJets := 2, m_recoJetNCst := [4, 5], m_recoJetE := [1, 2],
              m_recoCstZ := [[1], [2, 3]] } } = Except.ok r ∧
      r.reco = s1.reco := by
  obtain ⟨r, hr, _, hrec⟩ := ((C16_output_independent_of_prior_content Ex.num Ex.ext
    Ex.cfgTracks Ex.evOneTrack Ex.stateInit
    { Ex.stateInit with
      reco :=
        { Ex.recoInit with
          m_recoNumJets := 2, m_recoJetNCst := [4, 5], m_recoJetE := [1, 2],
          m_recoCstZ := [[1], [2, 3]] } }).1 _ rfl).1
  exact ⟨_, r, rfl, hr, hrec rfl⟩

/-- Counterexample to C17 as stated: in the truth view the member `m_trueJetId` of the only
jet of an event with one final-state generator particle is 9999, not 0. -/
theorem C17_counterexample_truth_jet_id_is_placeholder :
    ∃ s1, FindMcJets Ex.num Ex.ext Ex.cfgTracks Ex.evOneParticle Ex.stateInit = Except.ok s1 ∧
      (FindMcJets.mcfastjets Ex.num Ex.ext Ex.cfgTracks Ex.evOneParticle Ex.stateInit).length = 1 ∧
      s1.tru.m_trueJetId = [9999] ∧ s1.tru.m_trueJetId ≠ List.range 1 :=
  ⟨_, rfl, rfl, rfl, by decide⟩

/-- C17 (amended): in the detector view the stored jet id (`m_recoJetId`) of the i-th jet of
the clustering output is i and the stored truth id (`m_recoJetTruId`) is 99999 for every
jet; in the truth view the running index i is stored in `m_trueJetTruId` and the stored
jet id (`m_trueJetId`) is the placeholder 9999 for every jet. -/
theorem C17_jet_ids (N : Numerics α) (X : Externals α) (C : Config α)
    (topNode : PHCompositeNode α) (s : State α) :
    (∀ s1, FindJets N X C topNode s = Except.ok s1 →
      s1.reco.m_recoJetId = List.range (FindJets.fastjets N X C topNode s).length ∧
      (∀ i, i < (FindJets.fastjets N X C topNode s).length →
        s1.reco.m_recoJetId[i]? = some i ∧ s1.reco.m_recoJetTruId[i]? = some 99999)) ∧
    (∃ s1, FindMcJets N X C topNode s = Except.ok s1 ∧
      s1.tru.m_trueJetTruId = List.range (FindMcJets.mcfastjets N X C topNode s).length ∧
      (∀ i, i < (FindMcJets.mcfastjets N X C topNode s).length →
        s1.tru.m_trueJetTruId[i]? = some i ∧ s1.tru.m_trueJetId[i]? = some 9999)) := by
  refine ⟨?_, ?_⟩
  · intro s1 h1
    obtain ⟨_, _, qa, hreco, _⟩ := FindJets_record N X C topNode s s1 h1
    rw [hreco, FindJets.fillOutput_reco_closed]
    refine ⟨rfl, ?_⟩
    intro i hi
    simp [List.getElem?_range hi, List.getElem?_replicate, hi]
  · obtain ⟨s1, qa, h1, _, htru, _⟩ := FindMcJets_record N X C topNode s
    refine ⟨s1, h1, ?_⟩
    rw [htru, FindMcJets.fillOutput_true_closed]
    refine ⟨rfl, ?_⟩
    intro i hi
    simp [List.getElem?_range hi, List.getElem?_replicate, hi]

/-- Witness of C17: the event with one accepted track. -/
theorem C17_witness :
    ∃ s1, FindJets Ex.num Ex.ext Ex.cfgTracks Ex.evOneTrack Ex.stateInit = Except.ok s1 ∧
      s1.reco.m_recoJetId = List.range 1 ∧ s1.reco.m_recoJetId[0]? = some 0 :=
  ⟨_, rfl,
    ((C17_jet_ids Ex.num Ex.ext Ex.cfgTracks Ex.evOneTrack Ex.stateInit).1 _ rfl).1,
    (((C17_jet_ids Ex.num Ex.ext Ex.cfgTracks Ex.evOneTrack Ex.stateInit).1 _ rfl).2 0
      (by decide)).1⟩

end Records

/-- C14: in the record of `FindJets` and in the record of `FindMcJets` the jet-area
sequence has one entry per clustered jet and every entry is 0, whatever the jets are. -/
theorem C14_jet_area_is_zero {α : Type} [Ring α] [Div α] (N : Numerics α) (X : Externals α)
    (C : Config α) (topNode : PHCompositeNode α) (s : State α) :
    (∀ s1, FindJets N X C topNode s = Except.ok s1 →
      s1.reco.m_recoJetArea.length = (FindJets.fastjets N X C topNode s).length ∧
      ∀ a ∈ s1.reco.m_recoJetArea, a = 0) ∧
    (∃ s1, FindMcJets N X C topNode s = Except.ok s1 ∧
      s1.tru.m_trueJetArea.length = (FindMcJets.mcfastjets N X C topNode s).length ∧
      ∀ a ∈ s1.tru.m_trueJetArea, a = 0) := by
  refine ⟨?_, ?_⟩
  · intro s1 h1
    obtain ⟨_, _, qa, hreco, _⟩ := FindJets_record N X C topNode s s1 h1
    rw [hreco, FindJets.fillOutput_reco_closed]
    refine ⟨by simp, ?_⟩
    intro a ha
    simp only [List.mem_map] at ha
    obtain ⟨_, _, rfl⟩ := ha
    exact Int.cast_zero
  · obtain ⟨s1, qa, h1, _, htru, _⟩ := FindMcJets_record N X C topNode s
    refine ⟨s1, h1, ?_⟩
    rw [htru, FindMcJets.fillOutput_true_closed]
    refine ⟨by simp, ?_⟩
    intro a ha
    simp only [List.mem_map] at ha
    obtain ⟨_, _, rfl⟩ := ha
    exact Int.cast_zero

/-- Witness of C14: the event with one accepted track, clustered into one jet. -/
theorem C14_witness :
    ∃ s1, FindJets Ex.num Ex.ext Ex.cfgTracks Ex.evOneTrack Ex.stateInit = Except.ok s1 ∧
      s1.reco.m_recoJetArea = [0] ∧ ∀ a ∈ s1.reco.m_recoJetArea, a = 0 :=
  ⟨_, rfl, rfl,
    ((C14_jet_area_is_zero Ex.num Ex.ext Ex.cfgTracks Ex.evOneTrack Ex.stateInit).1 _ rfl).2⟩

/-! ## The four-momenta that the collectors pool -/

section PooledMomenta

set_option linter.unusedSectionVars false

variable {α : Type} [Add α] [Sub α] [Mul α] [Div α] [IntCast α]

theorem AddTracks.filterMap_track_candidate (N : Numerics α) (X : Externals α) (C : Config α)
    (l : List (Option (SvtxTrack α))) :
    l.filterMap (AddTracks.candidate N X C)
      = (l.reduceOption.filter X.IsGoodTrack).map (fun track =>
          { px := track.px, py := track.py, pz := track.pz,
            E := N.sqrt ((track.px * track.px) + (track.py * track.py)
              + (track.pz * track.pz) + (C.MassPion * C.MassPion)),
            src := SRC.TRACK, id := track.id }) := by
  induction l with
  | nil => rfl
  | cons o l ih =>
    cases o with
    | none =>
      rw [List.filterMap_cons_none rfl, List.reduceOption_cons_of_none, ih]
    | some track =>
      rw [List.reduceOption_cons_of_some]
      by_cases hg : X.IsGoodTrack track = true
      · rw [List.filterMap_cons_some (by simp [AddTracks.candidate, hg]; rfl),
          List.filter_cons_of_pos hg, List.map_cons, ih]
      · rw [List.filterMap_cons_none (by simp [AddTracks.candidate, hg]),
          List.filter_cons_of_neg hg, ih]

theorem AddTracks.track_candidates_eq (N : Numerics α) (X : Externals α) (C : Config α)
    (topNode : PHCompositeNode α) :
    AddTracks.candidates N X C topNode
      = (topNode.tracks.filter X.IsGoodTrack).map (fun track =>
          { px := track.px, py := track.py, pz := track.pz,
            E := N.sqrt ((track.px * track.px) + (track.py * track.py)
              + (track.pz * track.pz) + (C.MassPion * C.MassPion)),
            src := SRC.TRACK, id := track.id }) := by
  unfold AddTracks.candidates PHCompositeNode.tracks
  cases topNode.SvtxTrackMap with
  | none => rfl
  | some trackmap => exact AddTracks.filterMap_track_candidate N X C trackmap

theorem AddParticleFlow.filterMap_flow_candidate (X : Externals α)
    (l : List (Option (ParticleFlowElement α))) :
    l.filterMap (AddParticleFlow.candidate X)
      = (l.reduceOption.filter X.IsGoodParticleFlow).map (fun pflow =>
          { px := pflow.px, py := pflow.py, pz := pflow.pz, E := pflow.e,
            src := SRC.PARTICLE, id := pflow.id }) := by
  induction l with
  | nil => rfl
  | cons o l ih =>
    cases o with
    | none =>
      rw [List.filterMap_cons_none rfl, List.reduceOption_cons_of_none, ih]
    | some pflow =>
      rw [List.reduceOption_cons_of_some]
      by_cases hg : X.IsGoodParticleFlow pflow = true
      · rw [List.filterMap_cons_some (by simp [AddParticleFlow.candidate, hg]; rfl),
          List.filter_cons_of_pos hg, List.map_cons, ih]
      · rw [List.filterMap_cons_none (by simp [AddParticleFlow.candidate, hg]),
          List.filter_cons_of_neg hg, ih]

theorem AddParticleFlow.flow_candidates_eq (X : Externals α) (topNode : PHCompositeNode α) :
    AddParticleFlow.candidates X topNode
      = (topNode.flowElements.filter X.IsGoodParticleFlow).map (fun pflow =>
          { px := pflow.px, py := pflow.py, pz := pflow.pz, E := pflow.e,
            src := SRC.PARTICLE, id := pflow.id }) := by
  unfold AddParticleFlow.candidates PHCompositeNode.flowElements
  cases topNode.ParticleFlowElements with
  | none => rfl
  | some pflowContainer => exact AddParticleFlow.filterMap_flow_candidate X pflowContainer

theorem AddParticles.filterMap_particle_candidate (X : Externals α) (l : List (GenParticle α)) :
    l.filterMap (AddParticles.candidate X)
      = (l.filter (fun p => decide (p.status = 1) && X.IsGoodParticle p)).map (fun p =>
          { px := p.px, py := p.py, pz := p.pz, E := p.e, src := SRC.PARTICLE,
            id := p.barcode }) := by
  induction l with
  | nil => rfl
  | cons p l ih =>
    by_cases hg : p.status = 1 ∧ X.IsGoodParticle p = true
    · rw [List.filterMap_cons_some (by simp [AddParticles.candidate, hg]; rfl),
        List.filter_cons_of_pos (by simp [hg]), List.map_cons, ih]
    · rw [List.filterMap_cons_none (by simp only [AddParticles.candidate, if_neg hg]),
        List.filter_cons_of_neg (by simpa using hg), ih]

theorem mem_poolParticles {α : Type} (cs : List (Candidate α)) (i : Nat) (p : PseudoJet α)
    (h : p ∈ poolParticles i cs) :
    ∃ c ∈ cs, p.px = c.px ∧ p.py = c.py ∧ p.pz = c.pz ∧ p.E = c.E := by
  induction cs generalizing i with
  | nil => simp [poolParticles] at h
  | cons c cs ih =>
    simp only [poolParticles, List.mem_cons] at h
    rcases h with h | h
    · subst h
      exact ⟨c, List.mem_cons_self _ _, rfl, rfl, rfl, rfl⟩
    · obtain ⟨d, hd, hp⟩ := ih (i + 1) h
      exact ⟨d, List.mem_cons_of_mem _ hd, hp⟩

theorem AddClusters.candidate_some (N : Numerics α) (X : Externals α)
    (isGood : Hep3Vector α → Bool) (src : SRC) (vtx : GlobalVertex α)
    (l : List (Option (RawCluster α))) (c : Candidate α)
    (h : c ∈ l.filterMap (AddClusters.candidate N X isGood src vtx)) :
    ∃ cluster ∈ l.reduceOption,
      c = clusterCandidate N
        (X.GetECoreVec cluster { x := vtx.x, y := vtx.y, z := vtx.z }) src cluster.id := by
  rw [List.mem_filterMap] at h
  obtain ⟨o, ho, hc⟩ := h
  cases o with
  | none => simp [AddClusters.candidate] at hc
  | some cluster =>
    refine ⟨cluster, List.reduceOption_mem_iff.2 ho, ?_⟩
    by_cases hg : isGood (X.GetECoreVec cluster { x := vtx.x, y := vtx.y, z := vtx.z }) = true
    · simp only [AddClusters.candidate, if_pos hg, Option.some.injEq] at hc
      exact hc.symm
    · simp [AddClusters.candidate, hg] at hc

theorem AddClusters.mem_candidates (N : Numerics α) (X : Externals α) (C : Config α)
    (topNode : PHCompositeNode α) (c : Candidate α)
    (h : c ∈ AddClusters.candidates N X C topNode) :
    ∃ vtx cluster src, topNode.primaryVertex = some vtx ∧ cluster ∈ topNode.clusters ∧
      c = clusterCandidate N
        (X.GetECoreVec cluster { x := vtx.x, y := vtx.y, z := vtx.z }) src cluster.id := by
  unfold AddClusters.candidates at h
  cases hv : topNode.GlobalVertexMap with
  | none => simp [hv] at h
  | some vs =>
    cases vs with
    | nil => simp [hv] at h
    | cons v rest =>
      cases v with
      | none => simp [hv] at h
      | some vtx =>
        have hpv : topNode.primaryVertex = some vtx := by
          simp [PHCompositeNode.primaryVertex, hv]
        simp only [hv] at h
        cases hem : AddClusters.emCandidates N X C topNode vtx with
        | none => simp [hem] at h
        | some em =>
          simp only [hem, List.mem_append] at h
          rcases h with h | h
          · unfold AddClusters.emCandidates at hem
            by_cases hE : C.m_add_EMCal_clusters = true
            · rw [if_pos hE] at hem
              cases hc : topNode.CLUSTER_CEMC with
              | none => simp [hc] at hem
              | some clustersEMC =>
                simp only [hc, Option.some.injEq] at hem
                subst hem
                obtain ⟨cluster, hmem, hcl⟩ := AddClusters.candidate_some N X _ _ vtx _ c h
                refine ⟨vtx, cluster, _, hpv, ?_, hcl⟩
                simp [PHCompositeNode.clusters, hc, hmem]
            · rw [if_neg hE] at hem
              simp only [Option.some.injEq] at hem
              subst hem
              simp at h
          · unfold AddClusters.hCandidates at h
            by_cases hH : C.m_add_HCal_clusters = true
            · rw [if_pos hH] at h
              cases hc : topNode.CLUSTER_HCALIN with
              | none => simp [hc] at h
              | some clustersHCALIN =>
                simp only [hc, List.mem_append] at h
                rcases h with h | h
                · obtain ⟨cluster, hmem, hcl⟩ := AddClusters.candidate_some N X _ _ vtx _ c h
                  refine ⟨vtx, cluster, _, hpv, ?_, hcl⟩
                  simp [PHCompositeNode.clusters, hc, hmem]
                · cases hc2 : topNode.CLUSTER_HCALOUT with
                  | none => simp [hc2] at h
                  | some clustersHCALOUT =>
                    simp only [hc2] at h
                    obtain ⟨cluster, hmem, hcl⟩ :=
                      AddClusters.candidate_some N X _ _ vtx _ c h
                    refine ⟨vtx, cluster, _, hpv, ?_, hcl⟩
                    simp [PHCompositeNode.clusters, hc2, hmem]
            · rw [if_neg hH] at h
              simp at h

end PooledMomenta

theorem clusterCandidate_exact (N : Numerics ℝ) (hN : N.Exact) (v : Hep3Vector ℝ) (src : SRC)
    (id : Int) :
    (clusterCandidate N v src id).E = Real.sqrt (v.x ^ 2 + v.y ^ 2 + v.z ^ 2) ∧
    (clusterCandidate N v src id).px
      = Real.sqrt (v.x ^ 2 + v.y ^ 2) * Real.cos (N.getPhi v.x v.y) ∧
    (clusterCandidate N v src id).py
      = Real.sqrt (v.x ^ 2 + v.y ^ 2) * Real.sin (N.getPhi v.x v.y) ∧
    (clusterCandidate N v src id).E ^ 2 - (clusterCandidate N v src id).px ^ 2
      - (clusterCandidate N v src id).py ^ 2 = v.z ^ 2 ∧
    (clusterCandidate N v src id).pz
      = Real.sqrt ((clusterCandidate N v src id).E ^ 2 - (clusterCandidate N v src id).px ^ 2
          - (clusterCandidate N v src id).py ^ 2) ∧
    (clusterCandidate N v src id).pz = |v.z| ∧
    (clusterCandidate N v src id).E ^ 2
      = (clusterCandidate N v src id).px ^ 2 + (clusterCandidate N v src id).py ^ 2
        + (clusterCandidate N v src id).pz ^ 2 := by
  obtain ⟨hs, hc, hsn⟩ := hN
  have hE : (clusterCandidate N v src id).E = Real.sqrt (v.x ^ 2 + v.y ^ 2 + v.z ^ 2) := by
    simp only [clusterCandidate, Hep3Vector.mag, hs, sq]
  have hpx : (clusterCandidate N v src id).px
      = Real.sqrt (v.x ^ 2 + v.y ^ 2) * Real.cos (N.getPhi v.x v.y) := by
    simp only [clusterCandidate, Hep3Vector.perp, Hep3Vector.getPhi, hs, hc, sq]
  have hpy : (clusterCandidate N v src id).py
      = Real.sqrt (v.x ^ 2 + v.y ^ 2) * Real.sin (N.getPhi v.x v.y) := by
    simp only [clusterCandidate, Hep3Vector.perp, Hep3Vector.getPhi, hs, hsn, sq]
  have hpz : (clusterCandidate N v src id).pz
      = Real.sqrt ((clusterCandidate N v src id).E ^ 2 - (clusterCandidate N v src id).px ^ 2
          - (clusterCandidate N v src id).py ^ 2) := by
    simp only [clusterCandidate, hs, sq]
  have h3 : 0 ≤ v.x ^ 2 + v.y ^ 2 + v.z ^ 2 := by positivity
  have h2 : 0 ≤ v.x ^ 2 + v.y ^ 2 := by positivity
  have hd : (clusterCandidate N v src id).E ^ 2 - (clusterCandidate N v src id).px ^ 2
      - (clusterCandidate N v src id).py ^ 2 = v.z ^ 2 := by
    rw [hE, hpx, hpy, Real.sq_sqrt h3, mul_pow, mul_pow, Real.sq_sqrt h2]
    have := Real.cos_sq_add_sin_sq (N.getPhi v.x v.y)
    nlinarith [this]
  have habs : (clusterCandidate N v src id).pz = |v.z| := by
    rw [hpz, hd, Real.sqrt_sq_eq_abs]
  refine ⟨hE, hpx, hpy, hd, hpz, habs, ?_⟩
  rw [habs, sq_abs]
  linarith [hd]

/-- C18: `AddTracks` always returns, and the particles it appends to the pool are, in
order, those of the accepted tracks of the track map: each has the track's `(px, py, pz)`
unchanged and a non-negative energy with `E² = px² + py² + pz² + m_π²`, so its invariant
mass squared is the pion mass squared (`double` arithmetic taken as exact). -/
theorem C18_track_energy_is_pion_hypothesis (N : Numerics ℝ) (hN : N.Exact)
    (X : Externals ℝ) (C : Config ℝ) (topNode : PHCompositeNode ℝ) (s : Collection ℝ) :
    ∃ r appended, AddTracks N X C topNode s = Except.ok r ∧
      r.out.particles = s.particles ++ appended ∧
      List.Forall₂
        (fun p track => p.px = track.px ∧ p.py = track.py ∧ p.pz = track.pz ∧ 0 ≤ p.E ∧
          p.E ^ 2 = track.px ^ 2 + track.py ^ 2 + track.pz ^ 2 + C.MassPion ^ 2 ∧
          p.E ^ 2 - (p.px ^ 2 + p.py ^ 2 + p.pz ^ 2) = C.MassPion ^ 2)
        appended (topNode.tracks.filter X.IsGoodTrack) := by
  obtain ⟨r, hr⟩ := AddTracks_total N X C topNode s
  refine ⟨r, _, hr, (AddTracks_pool N X C topNode s r hr).particles_eq, ?_⟩
  have hm := poolParticles_momentum (AddTracks.candidates N X C topNode) s.particles.length
  rw [AddTracks.track_candidates_eq, List.forall₂_map_right_iff] at hm
  rw [AddTracks.track_candidates_eq]
  refine hm.imp ?_
  rintro p track ⟨hx, hy, hz, hE⟩
  simp only at hx hy hz hE
  have hnn : 0 ≤ track.px ^ 2 + track.py ^ 2 + track.pz ^ 2 + C.MassPion ^ 2 := by positivity
  have hE2 : p.E = Real.sqrt (track.px ^ 2 + track.py ^ 2 + track.pz ^ 2 + C.MassPion ^ 2) := by
    rw [hE, hN.1]
    simp only [sq]
  have hsq : p.E ^ 2 = track.px ^ 2 + track.py ^ 2 + track.pz ^ 2 + C.MassPion ^ 2 := by
    rw [hE2, Real.sq_sqrt hnn]
  refine ⟨hx, hy, hz, ?_, hsq, ?_⟩
  · rw [hE2]
    exact Real.sqrt_nonneg _
  · rw [hsq, hx, hy, hz]
    ring

/-- Witness of C18: the real-valued event with the track `(3, 4, 0)` and pion mass 1. -/
theorem C18_witness :
    ExR.num.Exact ∧
    ∃ r p, AddTracks ExR.num ExR.ext ExR.cfg ExR.event ExR.emptyCollection = Except.ok r ∧
      r.out.particles = [p] ∧ 0 ≤ p.E ∧ p.E ^ 2 = (3 : ℝ) ^ 2 + 4 ^ 2 + 0 ^ 2 + 1 ^ 2 := by
  obtain ⟨r, appended, hr, hp, hall⟩ := C18_track_energy_is_pion_hypothesis ExR.num
    ExR.num_exact ExR.ext ExR.cfg ExR.event ExR.emptyCollection
  have ht : ExR.event.tracks.filter ExR.ext.IsGoodTrack = [ExR.track] := rfl
  rw [ht] at hall
  cases hall with
  | cons h1 h2 =>
    cases h2
    exact ⟨ExR.num_exact, r, _, hr, hp, h1.2.2.2.1, h1.2.2.2.2.1⟩

/-- C19: whenever `AddClusters` returns, every particle it appended to the pool (in the EM,
the inner-hadronic or the outer-hadronic loop) is built from the corrected 3-vector `v` of
a cluster of the event with respect to the primary vertex: `E = |v|`,
`px = v_perp · cos(φ_v)`, `py = v_perp · sin(φ_v)`; the argument `E² − px² − py²` of the
square root that gives `pz` equals `v_z²`, so it is never negative, `pz = |v_z|`, and
`E² = px² + py² + pz²`: the particle is massless (`double` arithmetic taken as exact). -/
theorem C19_cluster_particles_are_massless (N : Numerics ℝ) (hN : N.Exact)
    (X : Externals ℝ) (C : Config ℝ) (topNode : PHCompositeNode ℝ) (s : Collection ℝ) :
    ∀ r, AddClusters N X C topNode s = Except.ok r →
      ∃ appended, r.out.particles = s.particles ++ appended ∧
        ∀ p ∈ appended, ∃ vtx cluster v,
          topNode.primaryVertex = some vtx ∧ cluster ∈ topNode.clusters ∧
          v = X.GetECoreVec cluster { x := vtx.x, y := vtx.y, z := vtx.z } ∧
          p.E = Real.sqrt (v.x ^ 2 + v.y ^ 2 + v.z ^ 2) ∧
          p.px = Real.sqrt (v.x ^ 2 + v.y ^ 2) * Real.cos (N.getPhi v.x v.y) ∧
          p.py = Real.sqrt (v.x ^ 2 + v.y ^ 2) * Real.sin (N.getPhi v.x v.y) ∧
          p.E ^ 2 - p.px ^ 2 - p.py ^ 2 = v.z ^ 2 ∧
          0 ≤ p.E ^ 2 - p.px ^ 2 - p.py ^ 2 ∧
          p.pz = Real.sqrt (p.E ^ 2 - p.px ^ 2 - p.py ^ 2) ∧
          p.E ^ 2 = p.px ^ 2 + p.py ^ 2 + p.pz ^ 2 := by
  intro r hr
  refine ⟨_, (AddClusters_pool N X C topNode s r hr).particles_eq, ?_⟩
  intro p hp
  obtain ⟨c, hc, hx, hy, hz, hE⟩ := mem_poolParticles _ _ p hp
  obtain ⟨vtx, cluster, src, hv, hcl, hcc⟩ := AddClusters.mem_candidates N X C topNode c hc
  obtain ⟨e1, e2, e3, e4, e5, _, e7⟩ := clusterCandidate_exact N hN
    (X.GetECoreVec cluster { x := vtx.x, y := vtx.y, z := vtx.z }) src cluster.id
  simp only [← hcc, ← hx, ← hy, ← hz, ← hE] at e1 e2 e3 e4 e5 e7
  refine ⟨vtx, cluster, _, hv, hcl, rfl, e1, e2, e3, e4, ?_, e5, e7⟩
  rw [e4]
  positivity

/-- Witness of C19: the real-valued event with one EM cluster at `(3, 0, −4)` and the vertex
at the origin; one particle is pooled and it is massless. -/
theorem C19_witness :
    ExR.num.Exact ∧
    ∃ r, AddClusters ExR.num ExR.ext ExR.cfg ExR.event ExR.emptyCollection = Except.ok r ∧
      r.out.particles.length = 1 ∧
      ∀ p ∈ r.out.particles, p.E ^ 2 = p.px ^ 2 + p.py ^ 2 + p.pz ^ 2 := by
  refine ⟨ExR.num_exact, _, rfl, rfl, ?_⟩
  obtain ⟨appended, hp, hall⟩ := C19_cluster_particles_are_massless ExR.num ExR.num_exact
    ExR.ext ExR.cfg ExR.event ExR.emptyCollection _ rfl
  intro p hmem
  rw [hp] at hmem
  obtain ⟨_, _, _, _, _, _, _, _, _, _, _, _, h⟩ := hall p (by simpa [ExR.emptyCollection] using hmem)
  exact h

section DirectMomenta

set_option linter.unusedSectionVars false

variable {α : Type} [Add α] [Sub α] [Mul α] [Div α] [IntCast α]

theorem AddParticles.body_not_final (N : Numerics α) (X : Externals α)
    (st : CollectorLoop α) (p : GenParticle α) (h : p.status ≠ 1) :
    AddParticles.body N X st p = st := by
  simp [AddParticles.body, h]

theorem AddParticles.body_nTot (N : Numerics α) (X : Externals α)
    (st : CollectorLoop α) (p : GenParticle α) :
    (AddParticles.body N X st p).nTot = st.nTot + if p.status = 1 then 1 else 0 := by
  by_cases h : p.status = 1
  · by_cases hg : X.IsGoodParticle p = true
    · simp [AddParticles.body, h, hg]
    · simp [AddParticles.body, h, hg]
  · simp [AddParticles.body, h]

theorem AddParticles.loop_nTot (N : Numerics α) (X : Externals α)
    (l : List (GenParticle α)) (st : CollectorLoop α) :
    (l.foldl (AddParticles.body N X) st).nTot
      = st.nTot + (l.filter (fun p => decide (p.status = 1))).length := by
  induction l generalizing st with
  | nil => simp
  | cons p l ih =>
    rw [List.foldl_cons, ih, AddParticles.body_nTot]
    by_cases h : p.status = 1
    · rw [List.filter_cons_of_pos (by simpa using h), if_pos h, List.length_cons]
      omega
    · rw [List.filter_cons_of_neg (by simpa using h), if_neg h]
      omega

theorem AddParticles_nTot (N : Numerics α) (X : Externals α)
    (topNode : PHCompositeNode α) (s : Collection α) (r : Returned α)
    (h : AddParticles N X topNode s = Except.ok r) :
    r.nTot = (topNode.genParticles.filter (fun p => decide (p.status = 1))).length := by
  unfold AddParticles at h
  cases hm : topNode.PHHepMCGenEventMap with
  | none =>
    have hgp : topNode.genParticles = [] := by
      simp only [PHCompositeNode.genParticles, hm]
    simp only [hm, Except.ok.injEq] at h
    subst h
    rw [hgp]
    rfl
  | some hepmceventmap =>
    cases he : hepmceventmap.lookup 1 with
    | none =>
      have hgp : topNode.genParticles = [] := by
        simp only [PHCompositeNode.genParticles, hm, he]
      simp only [hm, he, Except.ok.injEq] at h
      subst h
      rw [hgp]
      rfl
    | some hepmcevent =>
      cases hg : hepmcevent.getEvent with
      | none =>
        have hgp : topNode.genParticles = [] := by
          simp only [PHCompositeNode.genParticles, hm, he, hg]
        simp only [hm, he, hg, Except.ok.injEq] at h
        subst h
        rw [hgp]
        rfl
      | some hepMCevent =>
        have hgp : topNode.genParticles = hepMCevent := by
          simp only [PHCompositeNode.genParticles, hm, he, hg]
        simp only [hm, he, hg, Except.ok.injEq] at h
        subst h
        rw [hgp]
        simp only
        rw [AddParticles.loop_nTot]
        simp [CollectorLoop.init]

theorem Returned.HasPool.nAcc_eq {s : Collection α} {r : Returned α}
    {cs : List (Candidate α)} (h : r.HasPool ((PoolCore.start s).pushAll cs)) :
    r.nAcc = cs.length := by
  rw [h.2.2, (PoolCore.pushAll_closed cs (PoolCore.start s)).2.2]
  simp [PoolCore.start]

theorem Returned.HasPool.provenance_if {s : Collection α} {r : Returned α}
    {cs : List (Candidate α)} (h : r.HasPool ((PoolCore.start s).pushAll cs)) :
    List.Forall₂
      (fun p c => p.px = c.px ∧ p.py = c.py ∧ p.pz = c.pz ∧ p.E = c.E ∧
        (PoolInv s → r.out.fjMap.find p.user_index = some (c.src, c.id)))
      (poolParticles s.particles.length cs) cs := by
  by_cases hs : PoolInv s
  · exact (h.provenance hs).imp
      (fun p c hp => ⟨hp.1, hp.2.1, hp.2.2.1, hp.2.2.2.1, fun _ => hp.2.2.2.2⟩)
  · exact (poolParticles_momentum cs s.particles.length).imp
      (fun p c hp => ⟨hp.1, hp.2.1, hp.2.2.1, hp.2.2.2, fun hinv => absurd hinv hs⟩)

/-- C20: `AddParticles` looks at generator records of status 1 only: a record of any other
status leaves the whole loop state as it is (it is not counted as seen, not accepted and
not pooled), and the `seen` total is the number of status-1 records. The particles it
appends are, in order, those of the accepted status-1 records, each with exactly the
record's `(px, py, pz, E)` and, in a pool that satisfies the pool invariant, the tag
`PARTICLE` and the record's barcode in the provenance map under its user index. Likewise,
whenever `AddParticleFlow` returns, the particles it appended are those of the accepted
particle-flow objects, each with the object's stored `(px, py, pz, E)` and its id in the
provenance map. -/
theorem C20_generator_and_flow_particles (N : Numerics α) (X : Externals α)
    (topNode : PHCompositeNode α) (s : Collection α) :
    (∀ (st : CollectorLoop α) (p : GenParticle α), p.status ≠ 1 →
      AddParticles.body N X st p = st) ∧
    (∃ r appended, AddParticles N X topNode s = Except.ok r ∧
      r.out.particles = s.particles ++ appended ∧
      r.nTot = (topNode.genParticles.filter (fun p => decide (p.status = 1))).length ∧
      r.nAcc = appended.length ∧
      List.Forall₂
        (fun p g => p.px = g.px ∧ p.py = g.py ∧ p.pz = g.pz ∧ p.E = g.e ∧
          (PoolInv s → r.out.fjMap.find p.user_index = some (SRC.PARTICLE, g.barcode)))
        appended
        (topNode.genParticles.filter (fun g => decide (g.status = 1) && X.IsGoodParticle g))) ∧
    (∀ r, AddParticleFlow N X topNode s = Except.ok r →
      ∃ appended, r.out.particles = s.particles ++ appended ∧
        r.nAcc = appended.length ∧
        List.Forall₂
          (fun p pflow => p.px = pflow.px ∧ p.py = pflow.py ∧ p.pz = pflow.pz ∧
            p.E = pflow.e ∧
            (PoolInv s → r.out.fjMap.find p.user_index = some (SRC.PARTICLE, pflow.id)))
          appended (topNode.flowElements.filter X.IsGoodParticleFlow)) := by
  refine ⟨AddParticles.body_not_final N X, ?_, ?_⟩
  · obtain ⟨r, hr⟩ := AddParticles_total N X topNode s
    have hpool := AddParticles_pool N X topNode s r hr
    refine ⟨r, _, hr, hpool.particles_eq, AddParticles_nTot N X topNode s r hr, ?_, ?_⟩
    · rw [hpool.nAcc_eq, poolParticles_length]
    · have hm := hpool.provenance_if
      rw [AddParticles.candidates, AddParticles.filterMap_particle_candidate,
        List.forall₂_map_right_iff] at hm
      rw [AddParticles.candidates, AddParticles.filterMap_particle_candidate]
      exact hm
  · intro r hr
    have hpool := AddParticleFlow_pool N X topNode s r hr
    refine ⟨_, hpool.particles_eq, ?_, ?_⟩
    · rw [hpool.nAcc_eq, poolParticles_length]
    · have hm := hpool.provenance_if
      rw [AddParticleFlow.flow_candidates_eq, List.forall₂_map_right_iff] at hm
      rw [AddParticleFlow.flow_candidates_eq]
      exact hm

/-- Witness of C20: a generator record with a decayed (status 2) and a final-state
particle: one record is seen and one particle is pooled, with the momentum and the barcode
of the final-state particle; and a particle-flow container with one element. -/
theorem C20_witness :
    Ex.decayedParticle.status ≠ 1 ∧
    AddParticles.body Ex.num Ex.ext (CollectorLoop.init Ex.emptyCollection) Ex.decayedParticle
      = CollectorLoop.init Ex.emptyCollection ∧
    (∃ r p, AddParticles Ex.num Ex.ext Ex.evTwoParticles Ex.emptyCollection = Except.ok r ∧
      r.nTot = 1 ∧ r.out.particles = [p] ∧
      p.px = Ex.genParticle.px ∧ p.E = Ex.genParticle.e ∧
      r.out.fjMap.find p.user_index = some (SRC.PARTICLE, Ex.genParticle.barcode)) ∧
    (∃ r p, AddParticleFlow Ex.num Ex.ext Ex.evOneFlow Ex.emptyCollection = Except.ok r ∧
      r.out.particles = [p] ∧ p.E = Ex.flowElement.e ∧
      r.out.fjMap.find p.user_index = some (SRC.PARTICLE, Ex.flowElement.id)) := by
  have h := C20_generator_and_flow_particles Ex.num Ex.ext Ex.evTwoParticles
    Ex.emptyCollection
  have hf := (C20_generator_and_flow_particles Ex.num Ex.ext Ex.evOneFlow
    Ex.emptyCollection).2.2 _ rfl
  have hinv : PoolInv Ex.emptyCollection := PoolInv.of_canon ⟨rfl, rfl⟩
  refine ⟨by decide, h.1 _ _ (by decide), ?_, ?_⟩
  · obtain ⟨r, appended, hr, hp, hn, _, hall⟩ := h.2.1
    have hl : Ex.evTwoParticles.genParticles.filter
        (fun g => decide (g.status = 1) && Ex.ext.IsGoodParticle g) = [Ex.genParticle] := by
      decide
    rw [hl] at hall
    cases hall with
    | cons h1 h2 =>
      cases h2
      exact ⟨r, _, hr, hn, hp, h1.1, h1.2.2.2.1, h1.2.2.2.2 hinv⟩
  · obtain ⟨appended, hp, _, hall⟩ := hf
    have hl : Ex.evOneFlow.flowElements.filter Ex.ext.IsGoodParticleFlow
        = [Ex.flowElement] := by
      decide
    rw [hl] at hall
    cases hall with
    | cons h1 h2 =>
      cases h2
      exact ⟨_, _, rfl, hp, h1.2.2.2.1, h1.2.2.2.2 hinv⟩

end DirectMomenta

/-! ## The configuration setters -/

/-- C21: `SetJetAlgo` is a total function of its argument and the configuration (it has no
failure path): `ANTIKT` selects anti-kt, `KT` selects kt, `CAMBRIDGE` selects
Cambridge/Aachen, every other value selects anti-kt, and no configuration member other
than `m_jetalgo` changes. -/
theorem C21_SetJetAlgo_selects_algorithm {α : Type} (C : Config α) (jetalgo : Int) :
    (SetJetAlgo ALGO.ANTIKT C).m_jetalgo = JetAlgorithm.antikt_algorithm ∧
    (SetJetAlgo ALGO.KT C).m_jetalgo = JetAlgorithm.kt_algorithm ∧
    (SetJetAlgo ALGO.CAMBRIDGE C).m_jetalgo = JetAlgorithm.cambridge_algorithm ∧
    (jetalgo ≠ ALGO.ANTIKT → jetalgo ≠ ALGO.KT → jetalgo ≠ ALGO.CAMBRIDGE →
      (SetJetAlgo jetalgo C).m_jetalgo = JetAlgorithm.antikt_algorithm) ∧
    SetJetAlgo jetalgo C = { C with m_jetalgo := (SetJetAlgo jetalgo C).m_jetalgo } := by
  refine ⟨rfl, rfl, rfl, ?_, ?_⟩
  · intro h0 h1 h2
    simp [SetJetAlgo, h0, h1, h2]
  · unfold SetJetAlgo
    split_ifs <;> rfl

/-- Witness of C21: the value 7, which is no enumerator of `ALGO`, selects anti-kt and
leaves the other members of a configuration set to kt as they are. -/
theorem C21_witness :
    (7 : Int) ≠ ALGO.ANTIKT ∧ (7 : Int) ≠ ALGO.KT ∧ (7 : Int) ≠ ALGO.CAMBRIDGE ∧
    (SetJetAlgo 7 { Ex.cfgCalo with m_jetalgo := JetAlgorithm.kt_algorithm }).m_jetalgo
      = JetAlgorithm.antikt_algorithm :=
  ⟨by decide, by decide, by decide,
    (C21_SetJetAlgo_selects_algorithm { Ex.cfgCalo with m_jetalgo := JetAlgorithm.kt_algorithm }
      7).2.2.2.1 (by decide) (by decide) (by decide)⟩

/-- C22: `SetRecombScheme` maps `E_SCHEME`, `PT_SCHEME`, `PT2_SCHEME`, `ET_SCHEME` and
`ET2_SCHEME` to the recombination scheme of the same name, two recognized values that select
the same scheme are equal, every other value selects the E scheme, and no configuration
member other than `m_recomb_scheme` changes. -/
theorem C22_SetRecombScheme_selects_scheme {α : Type} (C : Config α) (a b : Int) :
    (SetRecombScheme RECOMB.E_SCHEME C).m_recomb_scheme = RecombinationScheme.E_scheme ∧
    (SetRecombScheme RECOMB.PT_SCHEME C).m_recomb_scheme = RecombinationScheme.pt_scheme ∧
    (SetRecombScheme RECOMB.PT2_SCHEME C).m_recomb_scheme = RecombinationScheme.pt2_scheme ∧
    (SetRecombScheme RECOMB.ET_SCHEME C).m_recomb_scheme = RecombinationScheme.Et_scheme ∧
    (SetRecombScheme RECOMB.ET2_SCHEME C).m_recomb_scheme = RecombinationScheme.Et2_scheme ∧
    (a ∈ RECOMB.recognized → b ∈ RECOMB.recognized →
      (SetRecombScheme a C).m_recomb_scheme = (SetRecombScheme b C).m_recomb_scheme → a = b) ∧
    (a ∉ RECOMB.recognized →
      (SetRecombScheme a C).m_recomb_scheme = RecombinationScheme.E_scheme) ∧
    SetRecombScheme a C = { C with m_recomb_scheme := (SetRecombScheme a C).m_recomb_scheme } := by
  refine ⟨rfl, rfl, rfl, rfl, rfl, ?_, ?_, ?_⟩
  · intro ha hb h
    simp only [RECOMB.recognized, RECOMB.E_SCHEME, RECOMB.PT_SCHEME, RECOMB.PT2_SCHEME,
      RECOMB.ET_SCHEME, RECOMB.ET2_SCHEME, List.mem_cons, List.mem_singleton,
      List.not_mem_nil, or_false] at ha hb
    rcases ha with rfl | rfl | rfl | rfl | rfl <;>
      rcases hb with rfl | rfl | rfl | rfl | rfl <;>
      first
        | rfl
        | exact absurd h (by
            simp [SetRecombScheme, RECOMB.E_SCHEME, RECOMB.PT_SCHEME, RECOMB.PT2_SCHEME,
              RECOMB.ET_SCHEME, RECOMB.ET2_SCHEME])
  · intro ha
    simp only [RECOMB.recognized, List.mem_cons, List.mem_singleton, List.not_mem_nil,
      or_false, not_or] at ha
    obtain ⟨h0, h1, h2, h3, h4⟩ := ha
    simp [SetRecombScheme, h0, h1, h2, h3, h4]
  · unfold SetRecombScheme
    split_ifs <;> rfl

/-- Witness of C22: `PT_SCHEME` and `ET2_SCHEME` are recognized and select different
schemes; the value 9 is not recognized and selects the E scheme. -/
theorem C22_witness :
    RECOMB.PT_SCHEME ∈ RECOMB.recognized ∧ RECOMB.ET2_SCHEME ∈ RECOMB.recognized ∧
    (9 : Int) ∉ RECOMB.recognized ∧
    ((SetRecombScheme RECOMB.PT_SCHEME Ex.cfgCalo).m_recomb_scheme
        = (SetRecombScheme RECOMB.ET2_SCHEME Ex.cfgCalo).m_recomb_scheme →
      RECOMB.PT_SCHEME = RECOMB.ET2_SCHEME) ∧
    (SetRecombScheme 9 { Ex.cfgCalo with m_recomb_scheme := RecombinationScheme.pt_scheme }
      ).m_recomb_scheme = RecombinationScheme.E_scheme :=
  ⟨by decide, by decide, by decide,
    (C22_SetRecombScheme_selects_scheme Ex.cfgCalo RECOMB.PT_SCHEME RECOMB.ET2_SCHEME).2.2.2.2.2.1
      (by decide) (by decide),
    (C22_SetRecombScheme_selects_scheme
      { Ex.cfgCalo with m_recomb_scheme := RecombinationScheme.pt_scheme } 9 9).2.2.2.2.2.2.1
      (by decide)⟩

/-! ## The collectors only add to the pool and the provenance map -/

theorem mem_keys_of_lookup (l : List (Int × (SRC × Int))) (k : Int) (w : SRC × Int)
    (h : l.lookup k = some w) : k ∈ l.map Prod.fst := by
  induction l with
  | nil => simp at h
  | cons e rest ih =>
    obtain ⟨a, b⟩ := e
    by_cases hk : k = a
    · simp [hk]
    · have hne : (k == a) = false := by simpa using hk
      rw [List.lookup_cons, hne] at h
      exact List.mem_cons_of_mem _ (ih h)

theorem mem_keys_insertEntry (k : Int) (v : SRC × Int) (l : List (Int × (SRC × Int)))
    (x : Int) (h : x ∈ (FjMap.insertEntry k v l).map Prod.fst) :
    x = k ∨ x ∈ l.map Prod.fst := by
  induction l with
  | nil => simpa [FjMap.insertEntry] using h
  | cons e rest ih =>
    unfold FjMap.insertEntry at h
    split_ifs at h with h1 h2
    · simpa using h
    · exact Or.inr h
    · simp only [List.map_cons, List.mem_cons] at h ⊢
      rcases h with h | h
      · exact Or.inr (Or.inl h)
      · rcases ih h with h | h
        · exact Or.inl h
        · exact Or.inr (Or.inr h)

theorem insertEntry_sorted (k : Int) (v : SRC × Int) (l : List (Int × (SRC × Int)))
    (h : (l.map Prod.fst).Pairwise (fun a b => a < b)) :
    ((FjMap.insertEntry k v l).map Prod.fst).Pairwise (fun a b => a < b) := by
  induction l with
  | nil => simp [FjMap.insertEntry]
  | cons e rest ih =>
    rw [List.map_cons, List.pairwise_cons] at h
    unfold FjMap.insertEntry
    split_ifs with h1 h2
    · simp only [List.map_cons, List.pairwise_cons, List.mem_cons]
      refine ⟨?_, h.1, h.2⟩
      rintro x (rfl | hx)
      · exact h1
      · exact lt_trans h1 (h.1 x hx)
    · simpa [List.pairwise_cons] using h
    · simp only [List.map_cons, List.pairwise_cons]
      refine ⟨?_, ih h.2⟩
      intro x hx
      rcases mem_keys_insertEntry k v rest x hx with rfl | hx
      · omega
      · exact h.1 x hx

theorem lookup_insertEntry_of_sorted (k : Int) (v : SRC × Int)
    (l : List (Int × (SRC × Int))) (k1 : Int) (w : SRC × Int)
    (h : (l.map Prod.fst).Pairwise (fun a b => a < b)) (hf : l.lookup k1 = some w) :
    (FjMap.insertEntry k v l).lookup k1 = some w := by
  induction l with
  | nil => simp at hf
  | cons e rest ih =>
    obtain ⟨a, b⟩ := e
    rw [List.map_cons, List.pairwise_cons] at h
    unfold FjMap.insertEntry
    split_ifs with h1 h2
    · have hmem := mem_keys_of_lookup _ k1 w hf
      simp only [List.map_cons, List.mem_cons] at hmem
      have hlt : k < k1 := by
        rcases hmem with rfl | hm
        · exact h1
        · exact lt_trans h1 (h.1 k1 hm)
      have hne : (k1 == k) = false := by
        simpa using (ne_of_gt hlt)
      rw [List.lookup_cons, hne]
      exact hf
    · exact hf
    · by_cases hk : k1 = a
      · have he : (k1 == a) = true := by simpa using hk
        rw [List.lookup_cons, he] at hf ⊢
        exact hf
      · have hne : (k1 == a) = false := by simpa using hk
        rw [List.lookup_cons, hne] at hf ⊢
        exact ih h.2 hf

theorem FjMap.insert_wf (m : FjMap) (k : Int) (v : SRC × Int) (h : m.WF) :
    (m.insert k v).WF :=
  insertEntry_sorted k v m.entries h

theorem FjMap.find_insert_of_wf (m : FjMap) (k k1 : Int) (v w : SRC × Int) (h : m.WF)
    (hf : m.find k1 = some w) : (m.insert k v).find k1 = some w :=
  lookup_insertEntry_of_sorted k v m.entries k1 w h hf

theorem PoolCore.Step.adds_only {α : Type} {a b : PoolCore α} (h : PoolCore.Step a b)
    (hw : a.fjMap.WF) :
    b.fjMap.WF ∧ a.particles <+: b.particles ∧
      ∀ k w, a.fjMap.find k = some w → b.fjMap.find k = some w := by
  rcases h with rfl | ⟨p, v, _, rfl⟩
  · exact ⟨hw, List.prefix_refl _, fun _ _ hf => hf⟩
  · exact ⟨FjMap.insert_wf _ _ _ hw, List.prefix_append _ _,
      fun k w hf => FjMap.find_insert_of_wf _ _ k v w hw hf⟩

theorem reach_additive {α : Type} {a b : PoolCore α}
    (h : Relation.ReflTransGen PoolCore.Step a b) (hw : a.fjMap.WF) :
    b.fjMap.WF ∧ a.particles <+: b.particles ∧
      ∀ k w, a.fjMap.find k = some w → b.fjMap.find k = some w := by
  induction h with
  | refl => exact ⟨hw, List.prefix_refl _, fun _ _ hf => hf⟩
  | tail _ hstep ih =>
    obtain ⟨h1, h2, h3⟩ := ih
    obtain ⟨g1, g2, g3⟩ := hstep.adds_only h1
    exact ⟨g1, h2.trans g2, fun k w hf => g3 k w (h3 k w hf)⟩

theorem Returned.Reached.only_added {α : Type} {s : Collection α} {r : Returned α}
    (h : r.Reached s) (hw : s.fjMap.WF) :
    r.out.fjMap.WF ∧ s.particles <+: r.out.particles ∧
      ∀ k w, s.fjMap.find k = some w → r.out.fjMap.find k = some w := by
  obtain ⟨i, hi⟩ := h
  exact reach_additive hi hw

section Additive

set_option linter.unusedSectionVars false

variable {α : Type} [Add α] [Sub α] [Mul α] [Div α] [IntCast α]

/-- C23: every collector only adds to the pool and to the provenance map. Whenever
`AddParticleFlow`, `AddTracks`, `AddClusters` or `AddParticles` returns, the pool on entry
is a prefix of the pool on exit (same particles, same order, same user indices), and, the
map on entry being a well-formed `std::map`, the map on exit is one too and every entry
present on entry is found on exit under the same key with the same (source-kind, id) value. -/
theorem C23_collectors_are_additive (N : Numerics α) (X : Externals α) (C : Config α)
    (topNode : PHCompositeNode α) (s : Collection α) (hw : s.fjMap.WF) (r : Returned α)
    (h : AddParticleFlow N X topNode s = Except.ok r ∨
      AddTracks N X C topNode s = Except.ok r ∨
      AddClusters N X C topNode s = Except.ok r ∨
      AddParticles N X topNode s = Except.ok r) :
    s.particles <+: r.out.particles ∧ r.out.fjMap.WF ∧
      ∀ k w, s.fjMap.find k = some w → r.out.fjMap.find k = some w := by
  have hreach : r.Reached s := by
    rcases h with h | h | h | h
    · exact AddParticleFlow_reached N X topNode s r h
    · exact AddTracks_reached N X C topNode s r h
    · exact AddClusters_reached N X C topNode s r h
    · exact AddParticles_reached N X topNode s r h
  obtain ⟨h1, h2, h3⟩ := hreach.only_added hw
  exact ⟨h2, h1, h3⟩

/-- Witness of C23: one accepted track added to a pool of two particles with two provenance
entries. -/
theorem C23_witness :
    Ex.poolOfTwo.fjMap.WF ∧
    ∃ r, AddTracks Ex.num Ex.ext Ex.cfgTracks Ex.evOneTrack Ex.poolOfTwo = Except.ok r ∧
      r.out.particles.length = 3 ∧ Ex.poolOfTwo.particles <+: r.out.particles ∧
      r.out.fjMap.find 1 = some (SRC.PARTICLE, 22) :=
  have hw : Ex.poolOfTwo.fjMap.WF := by
    unfold FjMap.WF
    decide
  ⟨hw, _, rfl, rfl,
    (C23_collectors_are_additive Ex.num Ex.ext Ex.cfgTracks Ex.evOneTrack Ex.poolOfTwo hw _
      (Or.inr (Or.inl rfl))).1,
    (C23_collectors_are_additive Ex.num Ex.ext Ex.cfgTracks Ex.evOneTrack Ex.poolOfTwo hw _
      (Or.inr (Or.inl rfl))).2.2 1 _ rfl⟩

end Additive

/-! ## The QA totals that the collectors record -/

theorem energySum_append {α : Type} [Add α] (e0 : α) (ps qs : List (PseudoJet α)) :
    energySum e0 (ps ++ qs) = energySum (energySum e0 ps) qs := by
  simp [energySum, List.foldl_append]

theorem LoopTally.Extends.refl {α : Type} [Add α] (a : LoopTally α) : a.Extends a :=
  ⟨[], [], by simp, by simp, by simp, by simp, rfl⟩

theorem LoopTally.Extends.trans {α : Type} [Add α] {a b c : LoopTally α}
    (h1 : a.Extends b) (h2 : b.Extends c) : a.Extends c := by
  obtain ⟨p1, f1, hp1, hq1, hf1, hn1, he1⟩ := h1
  obtain ⟨p2, f2, hp2, hq2, hf2, hn2, he2⟩ := h2
  refine ⟨p1 ++ p2, f1 ++ f2, ?_, ?_, ?_, ?_, ?_⟩
  · rw [hp2, hp1, List.append_assoc]
  · rw [hq2, hq1, List.append_assoc]
  · intro f hf
    rcases List.mem_append.1 hf with h | h
    · exact hf1 f h
    · exact hf2 f h
  · rw [hn2, hn1, List.length_append]
    omega
  · rw [he2, he1, energySum_append]

theorem LoopTally.Extends.push_one {α : Type} [Add α] (a : LoopTally α) (p : PseudoJet α)
    (fills : List (QAFill α)) (hf : ∀ f ∈ fills, f.isTotal = false) :
    a.Extends { particles := a.particles ++ [p], qa := a.qa ++ fills, nAcc := a.nAcc + 1,
                eSum := a.eSum + p.E } :=
  ⟨[p], fills, rfl, rfl, hf, rfl, rfl⟩

theorem foldl_extends {α σ ι : Type} [Add α] (tally : σ → LoopTally α) (f : σ → ι → σ)
    (hf : ∀ st x, (tally st).Extends (tally (f st x))) (l : List ι) (st : σ) :
    (tally st).Extends (tally (l.foldl f st)) := by
  induction l generalizing st with
  | nil => exact LoopTally.Extends.refl _
  | cons x l ih => exact (hf st x).trans (ih (f st x))

theorem foldl_preserves {σ ι : Type} (P : σ → Prop) (f : σ → ι → σ)
    (hf : ∀ st x, P st → P (f st x)) (l : List ι) (st : σ) (h : P st) :
    P (l.foldl f st) := by
  induction l generalizing st with
  | nil => exact h
  | cons x l ih => exact ih (f st x) (hf st x h)

theorem objectFills_not_total {α : Type} [Add α] [Mul α] (N : Numerics α) (o : OBJECT)
    (p : PseudoJet α) : ∀ f ∈ objectFills N o p, f.isTotal = false := by
  intro f hf
  simp only [objectFills, List.mem_cons, List.mem_singleton, List.not_mem_nil, or_false] at hf
  rcases hf with rfl | rfl | rfl | rfl <;> rfl

section Tallies

set_option linter.unusedSectionVars false

variable {α : Type} [Add α] [Sub α] [Mul α] [Div α] [IntCast α]

theorem AddParticleFlow.body_extends (N : Numerics α) (X : Externals α)
    (st : CollectorLoop α) (entry : Option (ParticleFlowElement α)) :
    st.tally.Extends (AddParticleFlow.body N X st entry).tally := by
  cases entry with
  | none => exact LoopTally.Extends.refl _
  | some pflow =>
    by_cases hg : X.IsGoodParticleFlow pflow = true
    · simp only [AddParticleFlow.body, hg, Bool.true_eq_false, if_false]
      exact LoopTally.Extends.push_one st.tally _ _ (objectFills_not_total N _ _)
    · simp only [Bool.not_eq_true] at hg
      simp only [AddParticleFlow.body, hg, if_true]
      exact LoopTally.Extends.refl _

theorem AddTracks.track_body_extends (N : Numerics α) (X : Externals α) (C : Config α)
    (st : CollectorLoop α) (entry : Option (SvtxTrack α)) :
    st.tally.Extends (AddTracks.body N X C st entry).tally := by
  cases entry with
  | none => exact LoopTally.Extends.refl _
  | some track =>
    by_cases hg : X.IsGoodTrack track = true
    · simp only [AddTracks.body, hg, Bool.true_eq_false, if_false]
      exact LoopTally.Extends.push_one st.tally _ _ (objectFills_not_total N _ _)
    · simp only [Bool.not_eq_true] at hg
      simp only [AddTracks.body, hg, if_true]
      exact LoopTally.Extends.refl _

theorem AddParticles.particle_body_extends (N : Numerics α) (X : Externals α)
    (st : CollectorLoop α) (p : GenParticle α) :
    st.tally.Extends (AddParticles.body N X st p).tally := by
  by_cases hs : p.status = 1
  · by_cases hg : X.IsGoodParticle p = true
    · simp only [AddParticles.body, hs, decide_True, Bool.true_eq_false, if_false, hg]
      exact LoopTally.Extends.push_one st.tally _ _ (objectFills_not_total N _ _)
    · simp only [Bool.not_eq_true] at hg
      simp only [AddParticles.body, hs, decide_True, Bool.true_eq_false, if_false, hg, if_true]
      exact LoopTally.Extends.refl _
  · simp only [AddParticles.body, hs, decide_False, if_true]
    exact LoopTally.Extends.refl _

theorem AddClusters.cluster_body_extends (N : Numerics α) (X : Externals α)
    (isGood : Hep3Vector α → Bool) (src : SRC) (obj : OBJECT) (em : Bool)
    (vtx : GlobalVertex α) (st : ClusterLoop α) (entry : Option (RawCluster α)) :
    st.tally.Extends (AddClusters.body N X isGood src obj em vtx st entry).tally ∧
    (st.nClustEM + st.nClustH = st.nClustAcc →
      (AddClusters.body N X isGood src obj em vtx st entry).nClustEM
        + (AddClusters.body N X isGood src obj em vtx st entry).nClustH
        = (AddClusters.body N X isGood src obj em vtx st entry).nClustAcc) := by
  cases entry with
  | none => exact ⟨LoopTally.Extends.refl _, fun h => h⟩
  | some cluster =>
    by_cases hg : isGood (X.GetECoreVec cluster { x := vtx.x, y := vtx.y, z := vtx.z }) = true
    · simp only [AddClusters.body, hg, Bool.true_eq_false, if_false]
      refine ⟨LoopTally.Extends.push_one st.tally _ _ (objectFills_not_total N _ _), ?_⟩
      intro h
      cases em <;> simp <;> omega
    · simp only [Bool.not_eq_true] at hg
      simp only [AddClusters.body, hg, if_true]
      exact ⟨LoopTally.Extends.refl _, fun h => h⟩

end Tallies

section Totals

set_option linter.unusedSectionVars false

variable {α : Type} [Add α] [Sub α] [Mul α] [Div α] [IntCast α]

theorem Returned.unchanged_records_nothing (s : Collection α) :
    (Returned.unchanged s).RecordsNoTotals s :=
  ⟨[], [], by simp [Returned.unchanged], rfl, by simp [Returned.unchanged], by simp⟩

theorem CollectorLoop.summary_records (s : Collection α) (st : CollectorLoop α) (o : OBJECT)
    (c : CST_TYPE) (h : (CollectorLoop.init s).tally.Extends st.tally) :
    Returned.RecordsTotals s
      { out :=
          { particles := st.particles, fjMap := st.fjMap,
            qa := st.qa ++
              [QAFill.hNumObject o st.nAcc, QAFill.hNumCstAccept c 0 st.nTot,
               QAFill.hNumCstAccept c 1 st.nAcc, QAFill.hSumCstEne c st.eSum] },
        nTot := st.nTot, nAcc := st.nAcc }
      (collectorTotals o c) := by
  obtain ⟨appended, fills, hp, hq, hf, hn, he⟩ := h
  simp only [CollectorLoop.tally, CollectorLoop.init, Nat.zero_add] at hp hq hn he
  refine ⟨appended, fills, hp, hn, hf, ?_⟩
  simp only [collectorTotals]
  rw [hq, hn, he]

theorem ClusterLoop.finished_records (s : Collection α) (st : ClusterLoop α)
    (h : (ClusterLoop.init s).tally.Extends st.tally)
    (hb : st.nClustEM + st.nClustH = st.nClustAcc) :
    ∃ nClustEM nClustH, nClustEM + nClustH = st.finished.nAcc ∧
      st.finished.RecordsTotals s (clusterTotals nClustEM nClustH) := by
  obtain ⟨appended, fills, hp, hq, hf, hn, he⟩ := h
  simp only [ClusterLoop.tally, ClusterLoop.init, Nat.zero_add] at hp hq hn he
  refine ⟨st.nClustEM, st.nClustH, hb, appended, fills, hp, hn, hf, ?_⟩
  simp only [ClusterLoop.finished, clusterTotals]
  rw [hq, hn, he]

theorem ClusterLoop.returned_records (s : Collection α) (st : ClusterLoop α)
    (h : (ClusterLoop.init s).tally.Extends st.tally) : st.returned.RecordsNoTotals s := by
  obtain ⟨appended, fills, hp, hq, hf, hn, _⟩ := h
  simp only [ClusterLoop.tally, ClusterLoop.init, Nat.zero_add] at hp hq hn
  exact ⟨appended, fills, hp, hn, hq, hf⟩

theorem AddParticleFlow_records (N : Numerics α) (X : Externals α)
    (topNode : PHCompositeNode α) (s : Collection α) (r : Returned α)
    (h : AddParticleFlow N X topNode s = Except.ok r) :
    r.RecordsTotals s (collectorTotals OBJECT.FLOW CST_TYPE.FLOW_CST) := by
  unfold AddParticleFlow at h
  cases hc : topNode.ParticleFlowElements with
  | none => simp [hc] at h
  | some pflowContainer =>
    simp only [hc, Except.ok.injEq] at h
    subst h
    exact CollectorLoop.summary_records s _ _ _
      (foldl_extends CollectorLoop.tally _ (AddParticleFlow.body_extends N X) _ _)

theorem AddTracks_records (N : Numerics α) (X : Externals α) (C : Config α)
    (topNode : PHCompositeNode α) (s : Collection α) (r : Returned α)
    (h : AddTracks N X C topNode s = Except.ok r) :
    (topNode.SvtxTrackMap.isSome = true →
      r.RecordsTotals s (collectorTotals OBJECT.TRACK CST_TYPE.TRACK_CST)) ∧
    (topNode.SvtxTrackMap.isSome = false → r.RecordsNoTotals s) := by
  unfold AddTracks at h
  cases hc : topNode.SvtxTrackMap with
  | none =>
    simp only [hc, Except.ok.injEq] at h
    subst h
    exact ⟨fun hs => absurd hs (by simp), fun _ => Returned.unchanged_records_nothing s⟩
  | some trackmap =>
    simp only [hc, Except.ok.injEq] at h
    subst h
    exact ⟨fun _ => CollectorLoop.summary_records s _ _ _
      (foldl_extends CollectorLoop.tally _ (AddTracks.track_body_extends N X C) _ _),
      fun hs => absurd hs (by simp)⟩

theorem AddParticles_records (N : Numerics α) (X : Externals α)
    (topNode : PHCompositeNode α) (s : Collection α) (r : Returned α)
    (h : AddParticles N X topNode s = Except.ok r) :
    (topNode.genEvent.isSome = true →
      r.RecordsTotals s (collectorTotals OBJECT.PART CST_TYPE.PART_CST)) ∧
    (topNode.genEvent.isSome = false → r.RecordsNoTotals s) := by
  unfold AddParticles at h
  cases hm : topNode.PHHepMCGenEventMap with
  | none =>
    have hge : topNode.genEvent = none := by
      simp only [PHCompositeNode.genEvent, hm]
    simp only [hm, Except.ok.injEq] at h
    subst h
    rw [hge]
    exact ⟨fun hs => absurd hs (by simp), fun _ => Returned.unchanged_records_nothing s⟩
  | some hepmceventmap =>
    cases he : hepmceventmap.lookup 1 with
    | none =>
      have hge : topNode.genEvent = none := by
        simp only [PHCompositeNode.genEvent, hm, he]
      simp only [hm, he, Except.ok.injEq] at h
      subst h
      rw [hge]
      exact ⟨fun hs => absurd hs (by simp), fun _ => Returned.unchanged_records_nothing s⟩
    | some hepmcevent =>
      cases hg : hepmcevent.getEvent with
      | none =>
        have hge : topNode.genEvent = none := by
          simp only [PHCompositeNode.genEvent, hm, he, hg]
        simp only [hm, he, hg, Except.ok.injEq] at h
        subst h
        rw [hge]
        exact ⟨fun hs => absurd hs (by simp), fun _ => Returned.unchanged_records_nothing s⟩
      | some hepMCevent =>
        have hge : topNode.genEvent = some hepMCevent := by
          simp only [PHCompositeNode.genEvent, hm, he, hg]
        simp only [hm, he, hg, Except.ok.injEq] at h
        subst h
        rw [hge]
        exact ⟨fun _ => CollectorLoop.summary_records s _ _ _
          (foldl_extends CollectorLoop.tally _ (AddParticles.particle_body_extends N X) _ _),
          fun hs => absurd hs (by simp)⟩

theorem AddClusters.loop_tally (N : Numerics α) (X : Externals α)
    (isGood : Hep3Vector α → Bool) (src : SRC) (obj : OBJECT) (em : Bool)
    (vtx : GlobalVertex α) (l : List (Option (RawCluster α))) (st : ClusterLoop α) :
    st.tally.Extends (l.foldl (AddClusters.body N X isGood src obj em vtx) st).tally ∧
    (st.nClustEM + st.nClustH = st.nClustAcc →
      (l.foldl (AddClusters.body N X isGood src obj em vtx) st).nClustEM
        + (l.foldl (AddClusters.body N X isGood src obj em vtx) st).nClustH
        = (l.foldl (AddClusters.body N X isGood src obj em vtx) st).nClustAcc) :=
  ⟨foldl_extends ClusterLoop.tally _
      (fun st x => (AddClusters.cluster_body_extends N X isGood src obj em vtx st x).1) l st,
    foldl_preserves (fun st => st.nClustEM + st.nClustH = st.nClustAcc) _
      (fun st x => (AddClusters.cluster_body_extends N X isGood src obj em vtx st x).2) l st⟩

theorem AddClusters.emBlock_tally (N : Numerics α) (X : Externals α) (C : Config α)
    (topNode : PHCompositeNode α) (vtx : GlobalVertex α) (st : ClusterLoop α) :
    (∀ st1, AddClusters.emBlock N X C topNode vtx st = some st1 →
      st.tally.Extends st1.tally ∧
      (st.nClustEM + st.nClustH = st.nClustAcc →
        st1.nClustEM + st1.nClustH = st1.nClustAcc) ∧
      (C.m_add_EMCal_clusters = true → topNode.CLUSTER_CEMC.isSome = true)) ∧
    (AddClusters.emBlock N X C topNode vtx st = none →
      C.m_add_EMCal_clusters = true ∧ topNode.CLUSTER_CEMC.isSome = false) := by
  by_cases hE : C.m_add_EMCal_clusters = true
  · cases hc : topNode.CLUSTER_CEMC with
    | none =>
      have hval : AddClusters.emBlock N X C topNode vtx st = none := by
        simp [AddClusters.emBlock, hE, hc]
      rw [hval]
      exact ⟨fun st1 h => absurd h (by simp), fun _ => ⟨hE, rfl⟩⟩
    | some clustersEMC =>
      have hval : AddClusters.emBlock N X C topNode vtx st
          = some (clustersEMC.foldl (AddClusters.bodyEMC N X vtx) st) := by
        simp [AddClusters.emBlock, hE, hc]
      rw [hval]
      refine ⟨?_, fun h => absurd h (by simp)⟩
      intro st1 h
      simp only [Option.some.injEq] at h
      subst h
      have ht := AddClusters.loop_tally N X X.IsGoodEMCalCluster SRC.CEMC_CLUSTER
        OBJECT.ECLUST true vtx clustersEMC st
      exact ⟨ht.1, ht.2, fun _ => rfl⟩
  · have hval : AddClusters.emBlock N X C topNode vtx st = some st := by
      simp [AddClusters.emBlock, hE]
    rw [hval]
    refine ⟨?_, fun h => absurd h (by simp)⟩
    intro st1 h
    simp only [Option.some.injEq] at h
    subst h
    exact ⟨LoopTally.Extends.refl _, fun hb => hb, fun h => absurd h hE⟩

theorem AddClusters.hBlock_tally (N : Numerics α) (X : Externals α) (C : Config α)
    (topNode : PHCompositeNode α) (vtx : GlobalVertex α) (st : ClusterLoop α) :
    ((C.m_add_HCal_clusters = true →
        topNode.CLUSTER_HCALIN.isSome = true ∧ topNode.CLUSTER_HCALOUT.isSome = true) →
      ∃ st2 : ClusterLoop α, AddClusters.hBlock N X C topNode vtx st = st2.finished ∧
        st.tally.Extends st2.tally ∧
        (st.nClustEM + st.nClustH = st.nClustAcc →
          st2.nClustEM + st2.nClustH = st2.nClustAcc)) ∧
    (¬ (C.m_add_HCal_clusters = true →
        topNode.CLUSTER_HCALIN.isSome = true ∧ topNode.CLUSTER_HCALOUT.isSome = true) →
      ∃ st2 : ClusterLoop α, AddClusters.hBlock N X C topNode vtx st = st2.returned ∧
        st.tally.Extends st2.tally) := by
  by_cases hH : C.m_add_HCal_clusters = true
  · cases hin : topNode.CLUSTER_HCALIN with
    | none =>
      have hval : AddClusters.hBlock N X C topNode vtx st = st.returned := by
        simp [AddClusters.hBlock, hH, hin]
      exact ⟨fun h => absurd (h hH).1 (by simp),
        fun _ => ⟨st, hval, LoopTally.Extends.refl _⟩⟩
    | some clustersHCALIN =>
      have ht := AddClusters.loop_tally N X X.IsGoodHCalCluster SRC.HCALIN_CLUSTER
        OBJECT.HCLUST false vtx clustersHCALIN st
      cases hout : topNode.CLUSTER_HCALOUT with
      | none =>
        have hval : AddClusters.hBlock N X C topNode vtx st
            = (clustersHCALIN.foldl (AddClusters.bodyHCALIN N X vtx) st).returned := by
          simp [AddClusters.hBlock, hH, hin, hout]
        exact ⟨fun h => absurd (h hH).2 (by simp), fun _ => ⟨_, hval, ht.1⟩⟩
      | some clustersHCALOUT =>
        have ht2 := AddClusters.loop_tally N X X.IsGoodHCalCluster SRC.HCALOUT_CLUSTER
          OBJECT.HCLUST false vtx clustersHCALOUT
          (clustersHCALIN.foldl (AddClusters.bodyHCALIN N X vtx) st)
        have hval : AddClusters.hBlock N X C topNode vtx st
            = (clustersHCALOUT.foldl (AddClusters.bodyHCALOUT N X vtx)
                (clustersHCALIN.foldl (AddClusters.bodyHCALIN N X vtx) st)).finished := by
          simp [AddClusters.hBlock, hH, hin, hout]
        exact ⟨fun _ => ⟨_, hval, ht.1.trans ht2.1, fun hb => ht2.2 (ht.2 hb)⟩,
          fun h => absurd (fun _ => ⟨rfl, rfl⟩) h⟩
  · have hval : AddClusters.hBlock N X C topNode vtx st = st.finished := by
      simp [AddClusters.hBlock, hH]
    exact ⟨fun _ => ⟨st, hval, LoopTally.Extends.refl _, fun hb => hb⟩,
      fun h => absurd (fun hc => absurd hc hH) h⟩

theorem AddClusters_records (N : Numerics α) (X : Externals α) (C : Config α)
    (topNode : PHCompositeNode α) (s : Collection α) (r : Returned α)
    (h : AddClusters N X C topNode s = Except.ok r) :
    (AddClusters.RunsToEnd C topNode →
      ∃ nClustEM nClustH, nClustEM + nClustH = r.nAcc ∧
        r.RecordsTotals s (clusterTotals nClustEM nClustH)) ∧
    (¬ AddClusters.RunsToEnd C topNode → r.RecordsNoTotals s) := by
  unfold AddClusters at h
  cases hv : topNode.GlobalVertexMap with
  | none => simp [hv] at h
  | some vs =>
    cases vs with
    | nil =>
      have hpv : topNode.primaryVertex = none := by
        simp [PHCompositeNode.primaryVertex, hv]
      simp only [hv, Except.ok.injEq] at h
      subst h
      exact ⟨fun hr => absurd hr.1 (by simp [hpv]),
        fun _ => Returned.unchanged_records_nothing s⟩
    | cons v rest =>
      cases v with
      | none =>
        have hpv : topNode.primaryVertex = none := by
          simp [PHCompositeNode.primaryVertex, hv]
        simp only [hv, Except.ok.injEq] at h
        subst h
        exact ⟨fun hr => absurd hr.1 (by simp [hpv]),
          fun _ => Returned.unchanged_records_nothing s⟩
      | some vtx =>
        have hpv : topNode.primaryVertex = some vtx := by
          simp [PHCompositeNode.primaryVertex, hv]
        simp only [hv] at h
        have hem := AddClusters.emBlock_tally N X C topNode vtx (ClusterLoop.init s)
        cases hb : AddClusters.emBlock N X C topNode vtx (ClusterLoop.init s) with
        | none =>
          simp only [hb, Except.ok.injEq] at h
          subst h
          obtain ⟨hE, hc⟩ := hem.2 hb
          refine ⟨fun hr => absurd (hr.2.1 hE) (by simp [hc]), fun _ => ?_⟩
          exact ClusterLoop.returned_records s _ (LoopTally.Extends.refl _)
        | some st1 =>
          simp only [hb, Except.ok.injEq] at h
          subst h
          obtain ⟨hext, hbal, hcemc⟩ := hem.1 st1 hb
          have hh := AddClusters.hBlock_tally N X C topNode vtx st1
          refine ⟨?_, ?_⟩
          · intro hr
            obtain ⟨st2, h2, hext2, hbal2⟩ := hh.1 hr.2.2
            rw [h2]
            exact ClusterLoop.finished_records s st2 (hext.trans hext2)
              (hbal2 (hbal rfl))
          · intro hr
            have hn : ¬ (C.m_add_HCal_clusters = true →
                topNode.CLUSTER_HCALIN.isSome = true ∧
                  topNode.CLUSTER_HCALOUT.isSome = true) :=
              fun hc => hr ⟨by simp [hpv], hcemc, hc⟩
            obtain ⟨st2, h2, hext2⟩ := hh.2 hn
            rw [h2]
            exact ClusterLoop.returned_records s st2 (hext.trans hext2)

end Totals

section RecordedTotals

set_option linter.unusedSectionVars false

variable {α : Type} [Add α] [Sub α] [Mul α] [Div α] [IntCast α]

/-- Counterexample to C24 as stated: with EMCal and HCal clusters enabled, a vertex, one
accepted EMCal cluster and no inner HCal container, `AddClusters` returns with one particle
appended to the pool and its counters at seen = 1, accepted = 1, but the QA log holds the
per-object fills of that cluster only: no seen count, no accepted count and no energy sum
is recorded. -/
theorem C24_counterexample_early_return_records_no_totals :
    ∃ r, AddClusters Ex.num Ex.ext Ex.cfgCalo Ex.evNoInnerHCal Ex.emptyCollection
        = Except.ok r ∧
      r.out.particles.length = 1 ∧ r.nTot = 1 ∧ r.nAcc = 1 ∧ r.out.qa.length = 4 ∧
      (∀ f ∈ r.out.qa, f.isTotal = false) ∧
      QAFill.hNumCstAccept CST_TYPE.CALO_CST 0 1 ∉ r.out.qa ∧
      QAFill.hNumCstAccept CST_TYPE.CALO_CST 1 1 ∉ r.out.qa :=
  ⟨_, rfl, rfl, rfl, rfl, rfl, by decide, by decide, by decide⟩

/-- C24 (amended): a collector invocation that runs to its end records its totals. Whenever
`AddParticleFlow` returns, whenever `AddTracks` returns and the track map is there, whenever
`AddParticles` returns and the generator event is there, and whenever `AddClusters` returns
and the primary vertex and every enabled cluster container are there, the QA log on exit
is the log on entry, then per-object fills, then the summary fills with the seen count,
with the number of particles the invocation appended to the pool as accepted count, and with
the sum of the energies of those particles as energy sum. An invocation that returns early
because its source is missing records no total: it appends per-object fills only (none if
nothing was pooled), also when `AddClusters` had already pooled clusters of an earlier kind. -/
theorem C24_totals_recorded_by_complete_runs (N : Numerics α) (X : Externals α) (C : Config α)
    (topNode : PHCompositeNode α) (s : Collection α) (r : Returned α) :
    (AddParticleFlow N X topNode s = Except.ok r →
      r.RecordsTotals s (collectorTotals OBJECT.FLOW CST_TYPE.FLOW_CST)) ∧
    (AddTracks N X C topNode s = Except.ok r →
      (topNode.SvtxTrackMap.isSome = true →
        r.RecordsTotals s (collectorTotals OBJECT.TRACK CST_TYPE.TRACK_CST)) ∧
      (topNode.SvtxTrackMap.isSome = false → r.RecordsNoTotals s)) ∧
    (AddParticles N X topNode s = Except.ok r →
      (topNode.genEvent.isSome = true →
        r.RecordsTotals s (collectorTotals OBJECT.PART CST_TYPE.PART_CST)) ∧
      (topNode.genEvent.isSome = false → r.RecordsNoTotals s)) ∧
    (AddClusters N X C topNode s = Except.ok r →
      (AddClusters.RunsToEnd C topNode →
        ∃ nClustEM nClustH, nClustEM + nClustH = r.nAcc ∧
          r.RecordsTotals s (clusterTotals nClustEM nClustH)) ∧
      (¬ AddClusters.RunsToEnd C topNode → r.RecordsNoTotals s)) :=
  ⟨AddParticleFlow_records N X topNode s r, AddTracks_records N X C topNode s r,
    AddParticles_records N X topNode s r, AddClusters_records N X C topNode s r⟩

/-- Witness of C24: a track map with three entries, of which one is accepted, records its
totals; the full calorimeter event runs to its end and records its totals; the event
without the inner HCal container does not run to its end and records none. -/
theorem C24_witness :
    (∃ r, AddTracks Ex.num Ex.ext Ex.cfgTracks Ex.evThreeTracks Ex.emptyCollection
        = Except.ok r ∧
      Ex.evThreeTracks.SvtxTrackMap.isSome = true ∧ r.nTot = 2 ∧ r.nAcc = 1 ∧
      r.RecordsTotals Ex.emptyCollection (collectorTotals OBJECT.TRACK CST_TYPE.TRACK_CST)) ∧
    (∃ r, AddClusters Ex.num Ex.ext Ex.cfgCalo Ex.evFull Ex.emptyCollection = Except.ok r ∧
      AddClusters.RunsToEnd Ex.cfgCalo Ex.evFull ∧ r.nAcc = 3 ∧
      ∃ nClustEM nClustH, nClustEM + nClustH = r.nAcc ∧
        r.RecordsTotals Ex.emptyCollection (clusterTotals nClustEM nClustH)) ∧
    (∃ r, AddClusters Ex.num Ex.ext Ex.cfgCalo Ex.evNoInnerHCal Ex.emptyCollection
        = Except.ok r ∧
      ¬ AddClusters.RunsToEnd Ex.cfgCalo Ex.evNoInnerHCal ∧ r.nAcc = 1 ∧
      r.RecordsNoTotals Ex.emptyCollection) :=
  have hfull : AddClusters.RunsToEnd Ex.cfgCalo Ex.evFull :=
    ⟨rfl, fun _ => rfl, fun _ => ⟨rfl, rfl⟩⟩
  have hpart : ¬ AddClusters.RunsToEnd Ex.cfgCalo Ex.evNoInnerHCal :=
    fun h => absurd (h.2.2 rfl).1 (by decide)
  ⟨⟨_, rfl, rfl, rfl, rfl,
      ((C24_totals_recorded_by_complete_runs Ex.num Ex.ext Ex.cfgTracks Ex.evThreeTracks
        Ex.emptyCollection _).2.1 rfl).1 rfl⟩,
    ⟨_, rfl, hfull, rfl,
      ((C24_totals_recorded_by_complete_runs Ex.num Ex.ext Ex.cfgCalo Ex.evFull
        Ex.emptyCollection _).2.2.2 rfl).1 hfull⟩,
    ⟨_, rfl, hpart, rfl,
      ((C24_totals_recorded_by_complete_runs Ex.num Ex.ext Ex.cfgCalo Ex.evNoInnerHCal
        Ex.emptyCollection _).2.2.2 rfl).2 hpart⟩⟩

end RecordedTotals

/-! ## The two views build the same features -/

section SharedFeatures

set_option linter.unusedSectionVars false

variable {α : Type} [Add α] [Sub α] [Mul α] [Div α] [IntCast α]

theorem fillOutput_same_features (N : Numerics α) (jets : List (ClusteredJet α))
    (o : RecoOutput α) (t : TrueOutput α) (qa1 qa2 : List (QAFill α)) :
    SameFeatures (FindJets.fillOutput N jets o qa1).1 (FindMcJets.fillOutput N jets t qa2).1 := by
  rw [FindJets.fillOutput_reco_closed, FindMcJets.fillOutput_true_closed]
  exact ⟨rfl, rfl, rfl, rfl, rfl, rfl, rfl, rfl, rfl, rfl, rfl, rfl, rfl⟩

/-- C25: the feature builders of the two views are the same function of the clustered jets.
From the same list of jets, the feature-building part of `FindJets` and that of `FindMcJets`
leave the same jet count and the same sequences for constituent count, E, pt, η, φ, area and
for the per-constituent z, Δr, E, jt, η, φ, whatever the output members and the QA log held
before; hence whenever `FindJets` and `FindMcJets` return and their clusterings gave the same
jets, the two committed records agree in all of these. -/
theorem C25_views_share_feature_builder (N : Numerics α) :
    (∀ (jets : List (ClusteredJet α)) (o : RecoOutput α) (t : TrueOutput α)
        (qa1 qa2 : List (QAFill α)),
      SameFeatures (FindJets.fillOutput N jets o qa1).1
        (FindMcJets.fillOutput N jets t qa2).1) ∧
    (∀ (X : Externals α) (C1 C2 : Config α) (topNode1 topNode2 : PHCompositeNode α)
        (s s2 s1 t1 : State α),
      FindJets N X C1 topNode1 s = Except.ok s1 →
      FindMcJets N X C2 topNode2 s2 = Except.ok t1 →
      FindJets.fastjets N X C1 topNode1 s = FindMcJets.mcfastjets N X C2 topNode2 s2 →
      SameFeatures s1.reco t1.tru) := by
  refine ⟨fillOutput_same_features N, ?_⟩
  intro X C1 C2 topNode1 topNode2 s s2 s1 t1 h1 h2 hj
  obtain ⟨_, _, qa, hreco, _⟩ := FindJets_record N X C1 topNode1 s s1 h1
  obtain ⟨t, qa2, ht, _, htru, _⟩ := FindMcJets_record N X C2 topNode2 s2
  rw [h2] at ht
  simp only [Except.ok.injEq] at ht
  subst ht
  rw [hreco, htru, hj]
  exact fillOutput_same_features N _ _ _ _ _

/-- Witness of C25: an event whose particle-flow element and whose generator particle have
the same four-momentum, with only particle flow enabled in the detector view. -/
theorem C25_witness :
    ∃ s1 t1, FindJets Ex.num Ex.ext Ex.cfgFlow Ex.evFull Ex.stateInit = Except.ok s1 ∧
      FindMcJets Ex.num Ex.ext Ex.cfgFlow Ex.evFull Ex.stateInit = Except.ok t1 ∧
      FindJets.fastjets Ex.num Ex.ext Ex.cfgFlow Ex.evFull Ex.stateInit
        = FindMcJets.mcfastjets Ex.num Ex.ext Ex.cfgFlow Ex.evFull Ex.stateInit ∧
      s1.reco.m_recoNumJets = 1 ∧ SameFeatures s1.reco t1.tru :=
  ⟨_, _, rfl, rfl, rfl, rfl,
    (C25_views_share_feature_builder Ex.num).2 Ex.ext Ex.cfgFlow Ex.cfgFlow Ex.evFull Ex.evFull
      Ex.stateInit Ex.stateInit _ _ rfl rfl rfl⟩

end SharedFeatures

/-! ## The range of z and the sign of the cluster pz -/

theorem featureZ_nonneg (N : Numerics ℝ) (hN : N.Exact) (jet cst : PseudoJet ℝ) :
    0 ≤ featureZ N jet cst := by
  rw [featureZ_exact N hN]
  exact div_nonneg (by positivity) (Real.sqrt_nonneg _)

theorem featureZ_of_same_momentum (N : Numerics ℝ) (hN : N.Exact) (jet cst : PseudoJet ℝ)
    (h : cst.px = jet.px ∧ cst.py = jet.py ∧ cst.pz = jet.pz) :
    featureZ N jet cst = Real.sqrt (jet.px ^ 2 + jet.py ^ 2 + jet.pz ^ 2) := by
  rw [featureZ_exact N hN, h.1, h.2.1, h.2.2, Real.div_sqrt]

/-- C26: z is not bounded by 1. For every jet with non-zero 3-momentum and every constituent
of it the stored z is non-negative, and for a constituent whose 3-momentum is that of the
jet the stored z is `|p|`, the magnitude of that 3-momentum: greater than 1 when `|p| > 1`
and different from 1 when `|p| ≠ 1`. In the record of `FindJets` and in the record of
`FindMcJets` (`double` arithmetic taken as exact). -/
theorem C26_z_not_bounded_by_one (N : Numerics ℝ) (hN : N.Exact) (X : Externals ℝ)
    (C : Config ℝ) (topNode : PHCompositeNode ℝ) (s : State ℝ) :
    (∀ s1, FindJets N X C topNode s = Except.ok s1 →
      ForEachConstituent
        (fun fj cst z => (fj.jet.px ≠ 0 ∨ fj.jet.py ≠ 0 ∨ fj.jet.pz ≠ 0) →
          0 ≤ z ∧
          (cst.px = fj.jet.px ∧ cst.py = fj.jet.py ∧ cst.pz = fj.jet.pz →
            z = Real.sqrt (fj.jet.px ^ 2 + fj.jet.py ^ 2 + fj.jet.pz ^ 2) ∧
            (1 < Real.sqrt (fj.jet.px ^ 2 + fj.jet.py ^ 2 + fj.jet.pz ^ 2) → 1 < z) ∧
            (Real.sqrt (fj.jet.px ^ 2 + fj.jet.py ^ 2 + fj.jet.pz ^ 2) ≠ 1 → z ≠ 1)))
        s1.reco.m_recoCstZ (FindJets.fastjets N X C topNode s)) ∧
    (∃ s1, FindMcJets N X C topNode s = Except.ok s1 ∧
      ForEachConstituent
        (fun fj cst z => (fj.jet.px ≠ 0 ∨ fj.jet.py ≠ 0 ∨ fj.jet.pz ≠ 0) →
          0 ≤ z ∧
          (cst.px = fj.jet.px ∧ cst.py = fj.jet.py ∧ cst.pz = fj.jet.pz →
            z = Real.sqrt (fj.jet.px ^ 2 + fj.jet.py ^ 2 + fj.jet.pz ^ 2) ∧
            (1 < Real.sqrt (fj.jet.px ^ 2 + fj.jet.py ^ 2 + fj.jet.pz ^ 2) → 1 < z) ∧
            (Real.sqrt (fj.jet.px ^ 2 + fj.jet.py ^ 2 + fj.jet.pz ^ 2) ≠ 1 → z ≠ 1)))
        s1.tru.m_trueCstZ (FindMcJets.mcfastjets N X C topNode s)) := by
  have key : ∀ (fj : ClusteredJet ℝ) (cst : PseudoJet ℝ),
      (fj.jet.px ≠ 0 ∨ fj.jet.py ≠ 0 ∨ fj.jet.pz ≠ 0) →
      0 ≤ featureZ N fj.jet cst ∧
      (cst.px = fj.jet.px ∧ cst.py = fj.jet.py ∧ cst.pz = fj.jet.pz →
        featureZ N fj.jet cst = Real.sqrt (fj.jet.px ^ 2 + fj.jet.py ^ 2 + fj.jet.pz ^ 2) ∧
        (1 < Real.sqrt (fj.jet.px ^ 2 + fj.jet.py ^ 2 + fj.jet.pz ^ 2) →
          1 < featureZ N fj.jet cst) ∧
        (Real.sqrt (fj.jet.px ^ 2 + fj.jet.py ^ 2 + fj.jet.pz ^ 2) ≠ 1 →
          featureZ N fj.jet cst ≠ 1)) := by
    intro fj cst _
    refine ⟨featureZ_nonneg N hN _ _, ?_⟩
    intro hsame
    have hz := featureZ_of_same_momentum N hN fj.jet cst hsame
    exact ⟨hz, fun h => hz ▸ h, fun h => hz ▸ h⟩
  refine ⟨?_, ?_⟩
  · intro s1 h1
    obtain ⟨_, _, qa, hreco, _⟩ := FindJets_record N X C topNode s s1 h1
    rw [hreco, FindJets.fillOutput_reco_closed]
    exact forEachConstituent_map _ _ _ (fun fj _ cst _ => key fj cst)
  · obtain ⟨s1, qa, h1, _, htru, _⟩ := FindMcJets_record N X C topNode s
    refine ⟨s1, h1, ?_⟩
    rw [htru, FindMcJets.fillOutput_true_closed]
    exact forEachConstituent_map _ _ _ (fun fj _ cst _ => key fj cst)

/-- Witness of C26: the real-valued event; the first jet is the track with momentum
`(3, 4, 0)`, which is its own only constituent, and its stored z is 5. -/
theorem C26_witness :
    ExR.num.Exact ∧
    ∃ s1 z rest, FindJets ExR.num ExR.ext ExR.cfg ExR.event ExR.stateInit = Except.ok s1 ∧
      s1.reco.m_recoCstZ = [z] :: rest ∧
      z = Real.sqrt ((3 : ℝ) ^ 2 + 4 ^ 2 + 0 ^ 2) ∧ 1 < z := by
  have h := ((((C26_z_not_bounded_by_one ExR.num ExR.num_exact ExR.ext ExR.cfg ExR.event
    ExR.stateInit).1 _ rfl).first _ _ _ _ _ _ _ rfl rfl rfl)
    (Or.inl (show (3 : ℝ) ≠ 0 by norm_num))).2 ⟨rfl, rfl, rfl⟩
  have hlt : (1 : ℝ) < Real.sqrt ((3 : ℝ) ^ 2 + 4 ^ 2 + 0 ^ 2) :=
    Real.lt_sqrt_of_sq_lt (by norm_num)
  exact ⟨ExR.num_exact, _, _, _, rfl, rfl, h.1, h.2.1 hlt⟩

theorem clusterCandidate_neg_z (N : Numerics ℝ) (v : Hep3Vector ℝ) (src : SRC) (id : Int) :
    clusterCandidate N { x := v.x, y := v.y, z := -v.z } src id
      = clusterCandidate N v src id := by
  simp [clusterCandidate, Hep3Vector.mag, Hep3Vector.perp, Hep3Vector.getPhi]

theorem AddClusters.body_particles (N : Numerics ℝ) (X : Externals ℝ)
    (isGood : Hep3Vector ℝ → Bool) (src : SRC) (obj : OBJECT) (em : Bool)
    (vtx : GlobalVertex ℝ) (st : ClusterLoop ℝ) (cluster : RawCluster ℝ) :
    (AddClusters.body N X isGood src obj em vtx st (some cluster)).particles
      = if isGood (X.GetECoreVec cluster { x := vtx.x, y := vtx.y, z := vtx.z }) = true then
          st.particles ++
            [(clusterCandidate N
              (X.GetECoreVec cluster { x := vtx.x, y := vtx.y, z := vtx.z }) src
              cluster.id).toPseudoJet st.iPart]
        else st.particles := by
  by_cases hg : isGood (X.GetECoreVec cluster { x := vtx.x, y := vtx.y, z := vtx.z }) = true
  · simp [AddClusters.body, clusterCandidate, hg, Candidate.toPseudoJet]
  · have hg2 :
        isGood (X.GetECoreVec cluster { x := vtx.x, y := vtx.y, z := vtx.z }) = false := by
      simpa using hg
    simp [AddClusters.body, hg2]

/-- C27: every particle that `AddClusters` appends to the pool has `pz ≥ 0`, equal to the
absolute value of the z-component of the corrected 3-vector `v` of its cluster, so for
`v_z < 0` the pooled `pz` is `−v_z > 0`. The acceptance test of each loop is applied to `v`
itself, and two corrected vectors that differ only in the sign of z give the same pooled
four-momentum (`double` arithmetic taken as exact). -/
theorem C27_cluster_pz_is_abs_z (N : Numerics ℝ) (hN : N.Exact) (X : Externals ℝ)
    (C : Config ℝ) (topNode : PHCompositeNode ℝ) (s : Collection ℝ) :
    (∀ r, AddClusters N X C topNode s = Except.ok r →
      ∃ appended, r.out.particles = s.particles ++ appended ∧
        ∀ p ∈ appended, ∃ vtx cluster v,
          topNode.primaryVertex = some vtx ∧ cluster ∈ topNode.clusters ∧
          v = X.GetECoreVec cluster { x := vtx.x, y := vtx.y, z := vtx.z } ∧
          0 ≤ p.pz ∧ p.pz = |v.z| ∧ (v.z < 0 → p.pz = -v.z ∧ 0 < p.pz)) ∧
    (∀ (isGood : Hep3Vector ℝ → Bool) (src : SRC) (obj : OBJECT) (em : Bool)
        (vtx : GlobalVertex ℝ) (st : ClusterLoop ℝ) (cluster : RawCluster ℝ),
      (AddClusters.body N X isGood src obj em vtx st (some cluster)).particles
        = if isGood (X.GetECoreVec cluster { x := vtx.x, y := vtx.y, z := vtx.z }) = true then
            st.particles ++
              [(clusterCandidate N
                (X.GetECoreVec cluster { x := vtx.x, y := vtx.y, z := vtx.z }) src
                cluster.id).toPseudoJet st.iPart]
          else st.particles) ∧
    (∀ (v : Hep3Vector ℝ) (src : SRC) (id : Int),
      clusterCandidate N { x := v.x, y := v.y, z := -v.z } src id
        = clusterCandidate N v src id) := by
  refine ⟨?_, AddClusters.body_particles N X, clusterCandidate_neg_z N⟩
  intro r hr
  refine ⟨_, (AddClusters_pool N X C topNode s r hr).particles_eq, ?_⟩
  intro p hp
  obtain ⟨c, hc, _, _, hz, _⟩ := mem_poolParticles _ _ p hp
  obtain ⟨vtx, cluster, src, hv, hcl, hcc⟩ := AddClusters.mem_candidates N X C topNode c hc
  have habs := (clusterCandidate_exact N hN
    (X.GetECoreVec cluster { x := vtx.x, y := vtx.y, z := vtx.z }) src cluster.id).2.2.2.2.2.1
  rw [← hcc, ← hz] at habs
  refine ⟨vtx, cluster, _, hv, hcl, rfl, ?_, habs, ?_⟩
  · rw [habs]
    exact abs_nonneg _
  · intro hneg
    rw [habs, abs_of_neg hneg]
    exact ⟨rfl, by linarith⟩

/-- Witness of C27: the real-valued event with one EM cluster whose corrected vector is
`(3, 0, −4)`; the pooled particle has `pz = 4`. -/
theorem C27_witness :
    ExR.num.Exact ∧
    ∃ r, AddClusters ExR.num ExR.ext ExR.cfg ExR.event ExR.emptyCollection = Except.ok r ∧
      r.out.particles.length = 1 ∧ ∀ p ∈ r.out.particles, p.pz = 4 := by
  refine ⟨ExR.num_exact, _, rfl, rfl, ?_⟩
  obtain ⟨appended, hp, hall⟩ := (C27_cluster_pz_is_abs_z ExR.num ExR.num_exact
    ExR.ext ExR.cfg ExR.event ExR.emptyCollection).1 _ rfl
  intro p hmem
  rw [hp] at hmem
  obtain ⟨vtx, cluster, v, _, hcl, hv, _, habs, _⟩ :=
    hall p (by simpa [ExR.emptyCollection] using hmem)
  have hc : cluster = ExR.cluster := by
    simpa [PHCompositeNode.clusters, ExR.event] using hcl
  rw [habs, hv, hc]
  show |(-4 : ℝ)| = 4
  norm_num

end SCorrelatorJetTree
